import Mathlib

/-!
# FireSight grid matcher (`calibrate.cpp`): embedding and verified properties

Coordinates of `cv::Point2f` / `cv::Point3f` are `float` in the source.  They are embedded
as rationals (no NaN, no infinity); every conversion of a floating value to `int` is the C
truncation toward zero, `truncQ`.  The `int` range itself is not modelled (a conversion
that overflows `int` is undefined behaviour in the source).

Arithmetic on these values is exact in the embedding, with one exception:
`calcObjPointDiff` stores its quotient and the sum `dObjX += ...` in `float` variables just
before the conversion to `int`, so there every result is rounded to `float` by
`roundToFloat`.  The square root of the spacing estimators is `Rat.sqrt`, which is the
square root on squares of rationals only; no statement below gives a value of the grid
scale for another radicand or for a separation of zero.

The member `imgSet` is a `std::set<Point2f, ComparePoint2f>`.  Its comparator is not a
strict weak ordering, so the set is embedded with the search tree of the library (the
red-black tree of libstdc++: `lower_bound`, the search for the place of an insertion, and
the rebalancing), not by the contract of `std::set`.
-/

namespace FireSight

/-- Conversion of a floating value to `int`, as C does it: truncation toward zero. -/
def truncQ (q : ℚ) : Int := if 0 ≤ q then ⌊q⌋ else -⌊-q⌋

/-- Embedding of `cv::Point2f`. -/
structure Point2f where
  x : ℚ
  y : ℚ
deriving DecidableEq, Repr

/-- Embedding of `cv::Point3f`. -/
structure Point3f where
  x : ℚ
  y : ℚ
  z : ℚ
deriving DecidableEq, Repr

/-- Component-wise sum, `operator+` of `cv::Point2f`. -/
def Point2f.add (a b : Point2f) : Point2f := ⟨a.x + b.x, a.y + b.y⟩

/-- Component-wise difference, `operator-` of `cv::Point2f`. -/
def Point2f.sub (a b : Point2f) : Point2f := ⟨a.x - b.x, a.y - b.y⟩

/-- Component-wise sum, `operator+` of `cv::Point3f`. -/
def Point3f.add (a b : Point3f) : Point3f := ⟨a.x + b.x, a.y + b.y, a.z + b.z⟩

/-- The enum `CompareOp`. -/
inductive CompareOp where
  | COMPARE_XY
  | COMPARE_YX
deriving DecidableEq, Repr

/-- The call operator of `ComparePoint2f` (for non-NaN points): the difference of the primary
coordinates is stored in the `int` variable `cmp`, hence truncated; when it is zero the
truncated difference of the secondary coordinates replaces it; the result is `cmp < 0`. -/
def ComparePoint2f (op : CompareOp) (lhs rhs : Point2f) : Bool :=
  match op with
  | .COMPARE_XY =>
    let cmp := truncQ (lhs.x - rhs.x)
    let cmp := if cmp = 0 then truncQ (lhs.y - rhs.y) else cmp
    decide (cmp < 0)
  | .COMPARE_YX =>
    let cmp := truncQ (lhs.y - rhs.y)
    let cmp := if cmp = 0 then truncQ (lhs.x - rhs.x) else cmp
    decide (cmp < 0)

/-- Embedding of `cv::Size` (two `int` fields). -/
structure Size where
  width : Int
  height : Int
deriving DecidableEq, Repr

/-- Embedding of the single-channel `CV_16S` matrix `gridIndexes`: its dimensions and its
cells.  Only cells with `r < rows` and `c < cols` exist. -/
structure Mat where
  rows : Nat
  cols : Nat
  cell : Nat → Nat → Int

/-- The matrix `Mat(Size(cols, rows), CV_16S)` after `= v`: every cell holds `v`. -/
def Mat.fill (rows cols : Nat) (v : Int) : Mat := ⟨rows, cols, fun _ _ => v⟩

/-- Read access `m.at<short>(r, c)`; an access outside the matrix has no defined value. -/
def Mat.at (m : Mat) (r c : Int) : Option Int :=
  if 0 ≤ r ∧ r < m.rows ∧ 0 ≤ c ∧ c < m.cols then some (m.cell r.toNat c.toNat) else none

/-- Write access `m.at<short>(r, c) = v` for a cell inside the matrix. -/
def Mat.set (m : Mat) (r c : Nat) (v : Int) : Mat :=
  { m with cell := fun r1 c1 => if r1 = r ∧ c1 = c then v else m.cell r1 c1 }

/-- Colour of a node of the red-black tree behind `std::set`. -/
inductive RbColor where
  | red
  | black
deriving DecidableEq, Repr

/-- The search tree of `std::set<Point2f, ComparePoint2f>` as the GNU C++ library
(`libstdc++`, `_Rb_tree`) builds it: a red-black tree of keys. -/
inductive RbTree where
  | leaf
  | node (color : RbColor) (left : RbTree) (key : Point2f) (right : RbTree)
deriving DecidableEq, Repr

/-- The library routine `_M_lower_bound(x, y, k)`: from the node `x` downward, a node whose
key is not ordered before `k` is remembered in `y` and the search goes left, otherwise it
goes right; the result is the key of the remembered node, `none` for `end()`. -/
def RbTree.lowerBound (k : Point2f) : RbTree → Option Point2f → Option Point2f
  | .leaf, y => y
  | .node _ l kx r, y =>
    if !ComparePoint2f .COMPARE_YX kx k then RbTree.lowerBound k l (some kx)
    else RbTree.lowerBound k r y

/-- The test `find(k) != end()` on the tree: `find` takes `j = lower_bound(k)` and returns
`end()` when `j` is `end()` or `k` is ordered before the key of `j`. -/
def RbTree.find (t : RbTree) (k : Point2f) : Bool :=
  match RbTree.lowerBound k t none with
  | none => false
  | some kj => !ComparePoint2f .COMPARE_YX k kj

/-- A node passed on the way down the tree: whether the descent left it to the left, its
colour and key, and its other subtree. -/
structure RbFrame where
  wentLeft : Bool
  color : RbColor
  key : Point2f
  other : RbTree
deriving DecidableEq, Repr

/-- The descent of `_M_get_insert_unique_pos(k)`: left where `k` is ordered before the key of
the node, right otherwise, down to an empty place; the nodes passed, the last one first. -/
def RbTree.descend (k : Point2f) : RbTree → List RbFrame → List RbFrame
  | .leaf, path => path
  | .node c l kx r, path =>
    if ComparePoint2f .COMPARE_YX k kx then RbTree.descend k l (⟨true, c, kx, r⟩ :: path)
    else RbTree.descend k r (⟨false, c, kx, l⟩ :: path)

/-- The decision of `_M_get_insert_unique_pos(k)` after the descent: with `j` the last node
passed, or its in-order predecessor when the descent left that node to the left (the nearest
node passed that was left to the right; none when the last node is `begin()`), the key `k`
is inserted exactly when there is no such `j` or the key of `j` is ordered before `k`. -/
def insertPosFree (k : Point2f) (path : List RbFrame) : Bool :=
  match path with
  | [] => true
  | y :: _ =>
    if y.wentLeft then
      match path.find? (fun f => !f.wentLeft) with
      | none => true
      | some j => ComparePoint2f .COMPARE_YX j.key k
    else ComparePoint2f .COMPARE_YX y.key k

/-- The subtree `t` put back under the nodes of `path`, colours unchanged. -/
def RbTree.plug (t : RbTree) : List RbFrame → RbTree
  | [] => t
  | f :: rest =>
    RbTree.plug
      (if f.wentLeft then .node f.color t f.key f.other else .node f.color f.other f.key t) rest

/-- The loop of `_Rb_tree_insert_and_rebalance` for the red node `x` under the nodes of
`path` (parent first): while the parent is red, a red uncle is recoloured together with the
parent and the grandparent and the loop goes on from the grandparent; a black (or absent)
uncle ends the loop with one or two rotations about the parent and the grandparent. -/
def rbFixup (x : RbTree) : List RbFrame → RbTree
  | [] => x
  | [p] => RbTree.plug x [p]
  | p :: g :: rest =>
    match p.color with
    | .black => RbTree.plug x (p :: g :: rest)
    | .red =>
      match g.other with
      | .node .red ul uk ur =>
        let parent : RbTree :=
          if p.wentLeft then .node .black x p.key p.other else .node .black p.other p.key x
        let uncle : RbTree := .node .black ul uk ur
        rbFixup
          (if g.wentLeft then .node .red parent g.key uncle else .node .red uncle g.key parent)
          rest
      | uncle =>
        match x with
        | .leaf => RbTree.plug x (p :: g :: rest)
        | .node _ xl xk xr =>
          RbTree.plug
            (if g.wentLeft then
              if p.wentLeft then
                .node .black (.node .red xl xk xr) p.key (.node .red p.other g.key uncle)
              else
                .node .black (.node .red p.other p.key xl) xk (.node .red xr g.key uncle)
            else
              if p.wentLeft then
                .node .black (.node .red uncle g.key xl) xk (.node .red xr p.key p.other)
              else
                .node .black (.node .red uncle g.key p.other) p.key (.node .red xl xk xr))
            rest

/-- The last statement of `_Rb_tree_insert_and_rebalance`: the root is coloured black. -/
def RbTree.blacken : RbTree → RbTree
  | .leaf => .leaf
  | .node _ l k r => .node .black l k r

/-- The library routine `_M_insert_unique(k)`: the tree after the call and whether `k` was
inserted.  A new key becomes a red node at the place where the descent ended, and the tree
is rebalanced. -/
def RbTree.insertUnique (t : RbTree) (k : Point2f) : RbTree × Bool :=
  let path := RbTree.descend k t []
  if insertPosFree k path then
    (RbTree.blacken (rbFixup (.node .red .leaf k .leaf) path), true)
  else (t, false)

/-- Embedding of `struct GridMatcher`.  The member `imgSet`, a `std::set` ordered by
`ComparePoint2f(COMPARE_YX)`, is embedded by the list of the keys it holds, in the order of
their insertion; its search tree is the one these insertions build (see `setTree`). -/
structure GridMatcher where
  imagePts : List Point2f
  objectPts : List Point3f
  objTotals : Point3f
  imgTotals : Point2f
  imgSet : List Point2f
  vImagePts : List (List Point2f)
  vObjectPts : List (List Point3f)
  imgSize : Size
  imgSep : Point2f
  objSep : Point2f
  gridIndexes : Mat

/-- Key equivalence of a `std::set` with comparator `cmpYX`: neither key is ordered before
the other. -/
def keyEquiv (a b : Point2f) : Bool :=
  !ComparePoint2f .COMPARE_YX a b && !ComparePoint2f .COMPARE_YX b a

/-- The search tree of a set holding the keys `s`, inserted in this order into an empty
set. -/
def setTree (s : List Point2f) : RbTree :=
  s.foldl (fun t k => (t.insertUnique k).1) .leaf

/-- The test `imgSet.find(p) != imgSet.end()`, evaluated on the search tree of the set.  For
keys that `ComparePoint2f` orders as a strict weak ordering this is the presence of a key
equivalent to `p`; the comparator is not transitive in general, and then the search can
miss an equivalent key. -/
def setFind (s : List Point2f) (p : Point2f) : Bool := (setTree s).find p

/-- The call `imgSet.insert(p)`, evaluated on the search tree of the set: `p` is added
unless the insertion meets a key that is not ordered before `p` at its place. -/
def setInsert (s : List Point2f) (p : Point2f) : List Point2f :=
  if ((setTree s).insertUnique p).2 then s ++ [p] else s

/-- The constructor `GridMatcher(imgSize, imgSep, objSep)`: empty sequences, zero totals,
empty set, empty matrix. -/
def GridMatcher.new (imgSize : Size) (imgSep objSep : Point2f) : GridMatcher :=
  { imagePts := [], objectPts := [], objTotals := ⟨0, 0, 0⟩, imgTotals := ⟨0, 0⟩,
    imgSet := [], vImagePts := [], vObjectPts := [],
    imgSize := imgSize, imgSep := imgSep, objSep := objSep,
    gridIndexes := Mat.fill 0 0 0 }

/-- The method `GridMatcher::add`: the returned flag and the store after the call. -/
def GridMatcher.add (gm : GridMatcher) (ptImg : Point2f) (ptObj : Point3f) :
    Bool × GridMatcher :=
  if setFind gm.imgSet ptImg then (false, gm)
  else
    (true,
      { gm with
        objectPts := gm.objectPts ++ [ptObj]
        imagePts := gm.imagePts ++ [ptImg]
        objTotals := gm.objTotals.add ptObj
        imgTotals := gm.imgTotals.add ptImg
        imgSet := setInsert gm.imgSet ptImg })

/-- The method `GridMatcher::size`. -/
def GridMatcher.size (gm : GridMatcher) : Int := gm.objectPts.length

/-- A sequence of `add` calls, the returned flags dropped. -/
def GridMatcher.addAll (gm : GridMatcher) (ops : List (Point2f × Point3f)) : GridMatcher :=
  ops.foldl (fun g op => (g.add op.1 op.2).2) gm

/-- Result of a `float` division: a finite value, a signed infinity, or NaN. -/
inductive FVal where
  | finite (q : ℚ)
  | inf (negative : Bool)
  | nan
deriving DecidableEq, Repr

/-- The `float` quotient `a / n` of a finite `a` by an `int` `n`: a zero divisor gives NaN
for `a = 0` and a signed infinity otherwise. -/
def fdivInt (a : ℚ) (n : Int) : FVal :=
  if n = 0 then (if a = 0 then .nan else .inf (decide (a < 0))) else .finite (a / n)

/-- The method `GridMatcher::getImageCentroid`: both running totals divided by the count. -/
def GridMatcher.getImageCentroid (gm : GridMatcher) : FVal × FVal :=
  let n : Int := gm.objectPts.length
  (fdivInt gm.imgTotals.x n, fdivInt gm.imgTotals.y n)

/-- The method `GridMatcher::getObjectCentroid`: the three running totals divided by the
count. -/
def GridMatcher.getObjectCentroid (gm : GridMatcher) : FVal × FVal × FVal :=
  let n : Int := gm.objectPts.length
  (fdivInt gm.objTotals.x n, fdivInt gm.objTotals.y n, fdivInt gm.objTotals.z n)

/-- The integer grid coordinate `(c, r)` that `calcGridIndexes` reads from a stored object
point: `int c = objectPts[i].x` and `int r = objectPts[i].y`. -/
def gridCoord (p : Point3f) : Int × Int := (truncQ p.x, truncQ p.y)

/-- The body of the loop of `calcGridIndexes`, run over the object points still to visit;
`i` is the id of the first of them.  Both assertions are checked before the write. -/
def gridLoop : List Point3f → Nat → Mat → Option Mat
  | [], _, g => some g
  | p :: ps, i, g =>
    let r := truncQ p.y
    let c := truncQ p.x
    if 0 ≤ r ∧ r < g.rows then
      if 0 ≤ c ∧ c < g.cols then gridLoop ps (i + 1) (g.set r.toNat c.toNat i)
      else none
    else none

/-- The method `GridMatcher::calcGridIndexes`; `none` when the call does not complete (a
failed `assert`, or the matrix constructor refusing a negative dimension).  The loop counter
is a `short`: after id 32767 the increment wraps to -32768, which converted to `size_t` is
not below `objectPts.size()`, so the loop visits the ids `0 .. min(size, 32768) - 1`. -/
def GridMatcher.calcGridIndexes (gm : GridMatcher) : Option GridMatcher :=
  let ny := truncQ (gm.imgSize.height / gm.imgSep.y + 3 / 2)
  let nx := truncQ (gm.imgSize.width / gm.imgSep.x + 3 / 2)
  if ny < 0 ∨ nx < 0 then none
  else
    (gridLoop (gm.objectPts.take 32768) 0 (Mat.fill ny.toNat nx.toNat (-1))).map
      (fun g => { gm with gridIndexes := g })

/-- One iteration of the inner loop of `addSubImage` at window cell `(r, c)`: a cell holding
an id `0 <= index` appends that correspondence, the object point moved by `(cx, cy)` and
scaled by `objSep`.  `none` when the matrix or a sequence is read out of range. -/
def subImageCell (gm : GridMatcher) (row col : Int) (cx cy : ℚ) (r c : Nat)
    (acc : List Point2f × List Point3f) : Option (List Point2f × List Point3f) :=
  match gm.gridIndexes.at (r + row) (c + col) with
  | none => none
  | some index =>
    if 0 ≤ index then
      match gm.imagePts[index.toNat]?, gm.objectPts[index.toNat]? with
      | some ptImg, some ptObj =>
        let subObjPt : Point3f :=
          ⟨gm.objSep.x * (ptObj.x - cx), gm.objSep.y * (ptObj.y - cy), 0⟩
        some (acc.1 ++ [ptImg], acc.2 ++ [subObjPt])
      | _, _ => none
    else some acc

/-- The two nested loops of `addSubImage`: rows `0 .. rows-1`, and in each row columns
`0 .. cols-1`. -/
def subImageScan (gm : GridMatcher) (row col : Int) (cx cy : ℚ) (rows cols : Int) :
    Option (List Point2f × List Point3f) :=
  (List.range rows.toNat).foldlM
    (fun acc r => (List.range cols.toNat).foldlM
      (fun acc c => subImageCell gm row col cx cy r c acc) acc)
    ([], [])

/-- The comparison `size < minPts` of a `size_t` with an `int`: the `int` is converted to
`size_t`, so a negative `minPts` counts as `2^64 + minPts`. -/
def sizeLtInt (size : Nat) (minPts : Int) : Bool :=
  if minPts < 0 then decide ((size : Int) < 2 ^ 64 + minPts) else decide ((size : Int) < minPts)

/-- The method `GridMatcher::addSubImage`: the returned flag and the store after the call;
`none` when a read is out of range. -/
def GridMatcher.addSubImage (gm : GridMatcher) (row col rows cols minPts : Int) :
    Option (Bool × GridMatcher) :=
  let cy : ℚ := ((rows - 1 : Int) : ℚ) / 2
  let cx : ℚ := ((cols - 1 : Int) : ℚ) / 2
  match subImageScan gm row col cx cy rows cols with
  | none => none
  | some (subImgPts, subObjPts) =>
    if sizeLtInt subImgPts.length minPts then some (false, gm)
    else
      some (true,
        { gm with
          vObjectPts := gm.vObjectPts ++ [subObjPts]
          vImagePts := gm.vImagePts ++ [subImgPts] })

/-- The call `sort(points, cmp)` of `initializePointMaps`: the library sort is embedded by
its contract, a rearrangement ordered by the comparator, computed here by insertion.  For
points that the comparator orders totally the ordered rearrangement is unique. -/
def sortPoints (op : CompareOp) (pts : List Point2f) : List Point2f :=
  pts.insertionSort (fun a b => ComparePoint2f op a b = true)

/-- The function `initializePointMaps` on the entries of the `rects` array, an entry being
`some` point (the `json_real_value` of its `x` and `y`) when both are JSON numbers and `none`
otherwise: the pair `(pointsXY, pointsYX)`. -/
def initializePointMaps (rects : List (Option Point2f)) : List Point2f × List Point2f :=
  let pts := rects.filterMap id
  (sortPoints .COMPARE_XY pts, sortPoints .COMPARE_YX pts)

/-- The constant `FLT_MAX`. -/
def FLT_MAX : ℚ := 340282346638528859811704183484516925440

/-- The first loop of `identifyRows` / `identifyColumns`: the list of differences
`prevPt - *it` of the chosen coordinate over adjacent points. -/
def adjacentDeltas (coord : Point2f → ℚ) : List Point2f → List ℚ
  | a :: b :: rest => (coord a - coord b) :: adjacentDeltas coord (b :: rest)
  | _ => []

/-- The variables of the second loop of `identifyRows` / `identifyColumns`. -/
structure SpacingAcc where
  prevPt1 : Point2f
  prevPt2 : Point2f
  n : Nat
  tot1 : Point2f
  tot2 : Point2f
  count1 : Int
  count2 : Int

/-- One iteration of the second loop of `identifyRows` / `identifyColumns`.  The differences
`d1`, `d2` are `int` variables in the source, hence truncated. -/
def spacingStep (coord : Point2f → ℚ) (minD1 maxD1 minD2 maxD2 : ℚ) (acc : SpacingAcc)
    (curPt : Point2f) : SpacingAcc :=
  let acc :=
    if 0 < acc.n then
      let d1 : Int := truncQ (coord acc.prevPt1 - coord curPt)
      let acc :=
        if minD1 ≤ (d1 : ℚ) ∧ (d1 : ℚ) ≤ maxD1 then
          { acc with tot1 := acc.tot1.add (acc.prevPt1.sub curPt), count1 := acc.count1 + 1 }
        else acc
      if 1 < acc.n then
        let d2 : Int := truncQ (coord acc.prevPt2 - coord curPt)
        if minD2 ≤ (d2 : ℚ) ∧ (d2 : ℚ) ≤ maxD2 then
          { acc with tot2 := acc.tot2.add (acc.prevPt2.sub curPt), count2 := acc.count2 + 1 }
        else acc
      else acc
    else acc
  { acc with prevPt2 := acc.prevPt1, prevPt1 := curPt, n := acc.n + 1 }

/-- What `identifyRows` / `identifyColumns` return: the error message and the values of the
reference parameters after the call. -/
structure SpacingResult where
  errMsg : String
  median : ℚ
  tot1 : Point2f
  tot2 : Point2f
  count1 : Int
  count2 : Int
  grid : ℚ

/-- The common body of `identifyRows` and `identifyColumns`, which differ in the coordinate
they difference and in their messages.  The reference parameters enter with the values
`tot1 tot2 count1 count2 grid`.  `none` when the median is read from an empty list of
differences.  `sqrt` is embedded by `Rat.sqrt`, which is the square root only when the
radicand is the square of a rational (on any other radicand it takes the integer square
roots of numerator and denominator, rounded down), and the division by `sep` gives 0 for
`sep = 0`, where the source gets an infinite value: the field `grid` of a result with an
empty message stands for the value of the source only for a square radicand and a
non-zero `sep`. -/
def identifyAxis (coord : Point2f → ℚ) (msg1 msg2 : String) (points : List Point2f)
    (tot1 tot2 : Point2f) (count1 count2 : Int) (tolerance : ℚ) (sep : Int) (grid : ℚ) :
    Option SpacingResult :=
  let dList := (adjacentDeltas coord points).insertionSort (fun a b => a ≤ b)
  match dList[dList.length / 2]? with
  | none => none
  | some dMedian =>
    let maxTol := if dMedian < 0 then 1 - tolerance else 1 + tolerance
    let minTol := if dMedian < 0 then 1 + tolerance else 1 - tolerance
    let maxD1 := dMedian * maxTol
    let minD1 := dMedian * minTol
    let maxD2 := 2 * dMedian * maxTol
    let minD2 := 2 * dMedian * minTol
    let acc := points.foldl (spacingStep coord minD1 maxD1 minD2 maxD2)
      ⟨⟨0, 0⟩, ⟨0, 0⟩, 0, tot1, tot2, count1, count2⟩
    if acc.count1 = 0 then
      some ⟨msg1, dMedian, acc.tot1, acc.tot2, acc.count1, acc.count2, grid⟩
    else if acc.count2 = 0 then
      some ⟨msg2, dMedian, acc.tot1, acc.tot2, acc.count1, acc.count2, grid⟩
    else
      let dxAvg2 := acc.tot2.x / acc.count2 / 2
      let dyAvg2 := acc.tot2.y / acc.count2 / 2
      let normXY := Rat.sqrt (dxAvg2 * dxAvg2 + dyAvg2 * dyAvg2)
      some ⟨"", dMedian, acc.tot1, acc.tot2, acc.count1, acc.count2, normXY / sep⟩

/-- The function `identifyRows`: differences of `y` over `pointsXY`. -/
def identifyRows (pointsXY : List Point2f) (dyTot1 dyTot2 : Point2f) (dyCount1 dyCount2 : Int)
    (tolerance : ℚ) (sepY : Int) (gridY : ℚ) : Option SpacingResult :=
  identifyAxis (fun p => p.y)
    "No grid points matched within tolerance (level 1) dyCount1:0"
    "No grid points matched within tolerance (level 2) dyCount2:0"
    pointsXY dyTot1 dyTot2 dyCount1 dyCount2 tolerance sepY gridY

/-- The function `identifyColumns`: differences of `x` over `pointsYX`. -/
def identifyColumns (pointsYX : List Point2f) (dxTot1 dxTot2 : Point2f)
    (dxCount1 dxCount2 : Int) (tolerance : ℚ) (sepX : Int) (gridX : ℚ) : Option SpacingResult :=
  identifyAxis (fun p => p.x)
    "No grid points matched within tolerance (level 1) dxCount1:0"
    "No grid points matched within tolerance (level 2) dxCount2:0"
    pointsYX dxTot1 dxTot2 dxCount1 dxCount2 tolerance sepX gridX

/-- Rounding of a value to an integer, to the nearest one and to the even one of two that
are equally near. -/
def roundEven (q : ℚ) : Int :=
  if q - ⌊q⌋ < 1 / 2 then ⌊q⌋
  else if 1 / 2 < q - ⌊q⌋ then ⌊q⌋ + 1
  else if ⌊q⌋ % 2 = 0 then ⌊q⌋
  else ⌊q⌋ + 1

/-- The value a `float` (IEEE 754 binary32) takes for the exact result `q` of an operation:
the nearest multiple of the unit in the last place `2 ^ (e - 23)`, where `e` is the binary
exponent of `q` and at least `-126`, ties going to the even multiple.  Results beyond
`FLT_MAX`, which become infinite, are left as they are rounded. -/
def roundToFloat (q : ℚ) : ℚ :=
  if q = 0 then 0
  else
    (roundEven (q / (2 : ℚ) ^ (max (Int.log 2 |q|) (-126) - 23)) : ℚ) *
      (2 : ℚ) ^ (max (Int.log 2 |q|) (-126) - 23)

/-- The function `calcObjPointDiff`: each quotient is moved by one half away from zero and
truncated.  The difference, the quotient and the sum are `float` values, each the rounded
result of its operation; the sum is stored back into the `float` variable before the
conversion to `int`. -/
def calcObjPointDiff (curPt prevPt imgSep : Point2f) : Point3f :=
  let dObjX := roundToFloat (roundToFloat (curPt.x - prevPt.x) / imgSep.x)
  let dObjY := roundToFloat (roundToFloat (curPt.y - prevPt.y) / imgSep.y)
  let dObjX := roundToFloat (dObjX + (if dObjX < 0 then -(1 / 2) else 1 / 2))
  let dObjY := roundToFloat (dObjY + (if dObjY < 0 then -(1 / 2) else 1 / 2))
  ⟨truncQ dObjX, truncQ dObjY, 0⟩

/-- The variables shared by the two walks of `apply_matchGrid`. -/
structure WalkState where
  gm : GridMatcher
  ptImg : Point2f
  ptObj : Point3f

/-- One iteration of a walk of `apply_matchGrid`, for the adjacent pair `ptImg0`, `ptImg1`;
`coord` is `x` in the walk over `pointsYX` and `y` in the walk over `pointsXY`, and
`minD1`, `maxD1` is the one-step window of that axis. -/
def walkStep (coord : Point2f → ℚ) (minD1 maxD1 : ℚ) (imgSep : Point2f) (st : WalkState)
    (ptImg0 ptImg1 : Point2f) : WalkState :=
  let d1 : Int := truncQ (coord ptImg0 - coord ptImg1)
  if minD1 ≤ (d1 : ℚ) ∧ (d1 : ℚ) ≤ maxD1 then
    if st.gm.imagePts.length = 0 then
      let ptImg := ptImg0
      let ptObj : Point3f :=
        { st.ptObj with
          x := truncQ (ptImg.x / imgSep.x + 1 / 2)
          y := truncQ (ptImg.y / imgSep.y + 1 / 2) }
      let gm := (st.gm.add ptImg ptObj).2
      let ptObj := ptObj.add (calcObjPointDiff ptImg1 ptImg imgSep)
      let ptImg := ptImg1
      let gm := (gm.add ptImg ptObj).2
      ⟨gm, ptImg, ptObj⟩
    else
      let st : WalkState :=
        if st.ptImg ≠ ptImg0 then
          let ptObj := st.ptObj.add (calcObjPointDiff ptImg0 st.ptImg imgSep)
          let ptImg := ptImg0
          let gm := (st.gm.add ptImg ptObj).2
          ⟨gm, ptImg, ptObj⟩
        else st
      let ptObj := st.ptObj.add (calcObjPointDiff ptImg1 st.ptImg imgSep)
      let ptImg := ptImg1
      let gm := (st.gm.add ptImg ptObj).2
      ⟨gm, ptImg, ptObj⟩
  else st

/-- The loop `for (Point2f ptImg0 = *it; ++it != end; ) ... ptImg0 = ptImg1` over the points
after the first one. -/
def walkLoop (coord : Point2f → ℚ) (minD1 maxD1 : ℚ) (imgSep : Point2f) :
    WalkState → Point2f → List Point2f → WalkState
  | st, _, [] => st
  | st, ptImg0, ptImg1 :: rest =>
    walkLoop coord minD1 maxD1 imgSep (walkStep coord minD1 maxD1 imgSep st ptImg0 ptImg1)
      ptImg1 rest

/-- A walk of `apply_matchGrid` over a sorted sequence; `none` when the sequence is empty
(the source dereferences `begin()`). -/
def walk (coord : Point2f → ℚ) (median tolerance : ℚ) (imgSep : Point2f) (st : WalkState)
    (points : List Point2f) : Option WalkState :=
  let maxD1 := median * (if median < 0 then 1 - tolerance else 1 + tolerance)
  let minD1 := median * (if median < 0 then 1 + tolerance else 1 - tolerance)
  match points with
  | [] => none
  | p0 :: rest => some (walkLoop coord minD1 maxD1 imgSep st p0 rest)

/-- The combination of the two axis messages in `apply_matchGrid`. -/
def combineErrors (errMsg errMsg2 : String) : String :=
  if errMsg.isEmpty then errMsg2
  else if !errMsg2.isEmpty then errMsg ++ "; " ++ errMsg2
  else errMsg

/-- The method `Pipeline::apply_matchGrid` from the `rects` array (an entry is `some` point
when its `x` and `y` are numbers) up to the end of the two walks: `some (.error msg)` is a
stage failure with message `msg`, `some (.ok gm)` is the Grid Store handed to the centroid
queries and to `calibrateImage`, and `none` stands for a read the source leaves undefined. -/
def apply_matchGrid (imgSize : Size) (objSep : Point2f) (tolerance : ℚ)
    (rects : List (Option Point2f)) : Option (Except String GridMatcher) :=
  if rects.length < 2 then some (.error "Expected array of at least 2 rects to match")
  else
    let (pointsXY, pointsYX) := initializePointMaps rects
    match identifyColumns pointsYX ⟨0, 0⟩ ⟨0, 0⟩ 0 0 tolerance (truncQ objSep.x) FLT_MAX with
    | none => none
    | some col =>
      match identifyRows pointsXY ⟨0, 0⟩ ⟨0, 0⟩ 0 0 tolerance (truncQ objSep.y) FLT_MAX with
      | none => none
      | some row =>
        let errMsg := combineErrors col.errMsg row.errMsg
        if !errMsg.isEmpty then some (.error errMsg)
        else
          let imgSep : Point2f := ⟨col.grid * objSep.x, row.grid * objSep.y⟩
          let st : WalkState := ⟨GridMatcher.new imgSize imgSep objSep, ⟨0, 0⟩, ⟨0, 0, 0⟩⟩
          match walk (fun p => p.x) col.median tolerance imgSep st pointsYX with
          | none => none
          | some st =>
            match walk (fun p => p.y) row.median tolerance imgSep st pointsXY with
            | none => none
            | some st => some (.ok st.gm)

/-- The assertions of `calcGridIndexes` for one object point and a matrix of the given
dimensions. -/
def inGrid (rows cols : Nat) (p : Point3f) : Prop :=
  0 ≤ truncQ p.y ∧ truncQ p.y < rows ∧ 0 ≤ truncQ p.x ∧ truncQ p.x < cols

instance (rows cols : Nat) (p : Point3f) : Decidable (inGrid rows cols p) := by
  unfold inGrid
  infer_instance

/-- A Grid Store of 32769 correspondences on a 10x10 image with spacing 10: the image points
`(2 i, 0)`, the first 32768 of them at grid coordinate `(0, 0)` and the one with id 32768 at
the grid coordinate `last`. -/
def overflowStore (last : Point3f) : GridMatcher :=
  { imagePts := (List.range 32769).map (fun i => ⟨2 * (i : ℚ), 0⟩)
    objectPts := List.replicate 32768 ⟨0, 0, 0⟩ ++ [last]
    objTotals := last
    imgTotals := ⟨1073774592, 0⟩
    imgSet := (List.range 32769).map (fun i => ⟨2 * (i : ℚ), 0⟩)
    vImagePts := []
    vObjectPts := []
    imgSize := ⟨10, 10⟩
    imgSep := ⟨10, 10⟩
    objSep := ⟨5, 5⟩
    gridIndexes := Mat.fill 0 0 0 }

/-- A Grid Store of four correspondences on a 20x10 image with spacing 10, at the grid
coordinates `(1,0)`, `(2,0)`, `(1,1)`, `(2,1)`. -/
def fourPointStore : GridMatcher :=
  (GridMatcher.new ⟨20, 10⟩ ⟨10, 10⟩ ⟨5, 5⟩).addAll
    [(⟨10, 0⟩, ⟨1, 0, 0⟩), (⟨20, 0⟩, ⟨2, 0, 0⟩), (⟨10, 10⟩, ⟨1, 1, 0⟩), (⟨20, 10⟩, ⟨2, 1, 0⟩)]

/-- A lookup grid over the store: every cell holds the marker `-1` or the id of a stored
correspondence. -/
def IsLookupGrid (gm : GridMatcher) : Prop :=
  ∀ r c : Nat, r < gm.gridIndexes.rows → c < gm.gridIndexes.cols →
    gm.gridIndexes.cell r c = -1 ∨
      (0 ≤ gm.gridIndexes.cell r c ∧ (gm.gridIndexes.cell r c).toNat < gm.imagePts.length ∧
        (gm.gridIndexes.cell r c).toNat < gm.objectPts.length)

/-- The number of non-empty cells (cells not holding `-1`) of the window of `rows` by `cols`
cells whose first cell is `(row, col)`. -/
def nonEmptyCount (g : Mat) (row col rows cols : Int) : Nat :=
  ((Finset.range rows.toNat ×ˢ Finset.range cols.toNat).filter
    (fun rc => g.cell ((rc.1 : Int) + row).toNat ((rc.2 : Int) + col).toNat ≠ -1)).card

/-- The store `fourPointStore` with the lookup grid that `calcGridIndexes` builds for it: two
rows and three columns, column 0 empty. -/
def fourPointGrid : GridMatcher :=
  { fourPointStore with
    gridIndexes := ((((Mat.fill 2 3 (-1)).set 0 1 0).set 0 2 1).set 1 1 2).set 1 2 3 }

/-- The point of a regular grid with origin `(x0, y0)` and spacing 10 pixels in both axes, in
column `i` and row `j`. -/
def gridPoint (x0 y0 : ℚ) (i j : Int) : Point2f := ⟨x0 + 10 * i, y0 + 10 * j⟩

/-- The nine points of the 3x3 grid with origin `(x0, y0)` and spacing 10 pixels. -/
def grid3x3 (x0 y0 : ℚ) : List Point2f :=
  [gridPoint x0 y0 0 0, gridPoint x0 y0 1 0, gridPoint x0 y0 2 0,
   gridPoint x0 y0 0 1, gridPoint x0 y0 1 1, gridPoint x0 y0 2 1,
   gridPoint x0 y0 0 2, gridPoint x0 y0 1 2, gridPoint x0 y0 2 2]

/-- The nine points of `grid3x3` in x-major order, as `sort(pointsXY, cmpXY)` leaves them. -/
def grid3x3XY (x0 y0 : ℚ) : List Point2f :=
  [gridPoint x0 y0 0 0, gridPoint x0 y0 0 1, gridPoint x0 y0 0 2,
   gridPoint x0 y0 1 0, gridPoint x0 y0 1 1, gridPoint x0 y0 1 2,
   gridPoint x0 y0 2 0, gridPoint x0 y0 2 1, gridPoint x0 y0 2 2]

/-- The nine correspondences of the 3x3 scenario: the grid point in column `i` and row `j`
with the grid coordinate `(a + i, b + j, 0)`. -/
def grid3x3Correspondences (x0 y0 : ℚ) (a b : Int) : List (Point2f × Point3f) :=
  [((0 : Int), (0 : Int)), (1, 0), (2, 0), (0, 1), (1, 1), (2, 1), (0, 2), (1, 2), (2, 2)].map
    (fun ij => (gridPoint x0 y0 ij.1 ij.2, ⟨((a + ij.1 : Int) : ℚ), ((b + ij.2 : Int) : ℚ), 0⟩))


/-- A `cv::Point2f` whose coordinates may be NaN: `none` stands for NaN, `some q` for the
finite value `q`. -/
structure Point2fNaN where
  x : Option ℚ
  y : Option ℚ
deriving DecidableEq, Repr

/-- What a call of the comparator does: it aborts on a failed `assert`, it returns an ordering
result, or it converts a NaN difference to `int`, which has no defined value. -/
inductive CompareOutcome where
  | assertionFailed
  | result (b : Bool)
  | undefinedConversion
deriving DecidableEq, Repr

/-- The call operator of `ComparePoint2f` on points that may hold NaN.  The two assertions
test `lhs.x` and `rhs.x` only.  A difference with a NaN operand is NaN; the secondary
difference is computed only when the truncated primary difference is zero. -/
def ComparePoint2fChecked (op : CompareOp) (lhs rhs : Point2fNaN) : CompareOutcome :=
  match lhs.x, rhs.x with
  | none, _ => .assertionFailed
  | some _, none => .assertionFailed
  | some lx, some rx =>
    match op with
    | .COMPARE_XY =>
      let cmp := truncQ (lx - rx)
      if cmp = 0 then
        match lhs.y, rhs.y with
        | some ly, some ry => .result (decide (truncQ (ly - ry) < 0))
        | _, _ => .undefinedConversion
      else .result (decide (cmp < 0))
    | .COMPARE_YX =>
      match lhs.y, rhs.y with
      | some ly, some ry =>
        let cmp := truncQ (ly - ry)
        let cmp := if cmp = 0 then truncQ (lx - rx) else cmp
        .result (decide (cmp < 0))
      | _, _ => .undefinedConversion


/-- The second loop of `identifyRows` / `identifyColumns` for the median `dMedian`: the loop
variables after the last point, the reference parameters entering with
`tot1 tot2 count1 count2`. -/
def spacingPass (coord : Point2f → ℚ) (dMedian tolerance : ℚ) (points : List Point2f)
    (tot1 tot2 : Point2f) (count1 count2 : Int) : SpacingAcc :=
  points.foldl
    (spacingStep coord
      (dMedian * (if dMedian < 0 then 1 + tolerance else 1 - tolerance))
      (dMedian * (if dMedian < 0 then 1 - tolerance else 1 + tolerance))
      (2 * dMedian * (if dMedian < 0 then 1 + tolerance else 1 - tolerance))
      (2 * dMedian * (if dMedian < 0 then 1 - tolerance else 1 + tolerance)))
    ⟨⟨0, 0⟩, ⟨0, 0⟩, 0, tot1, tot2, count1, count2⟩

/-- The entries that `identifyRows` sets in the stage model with `json_object_set`, from the
values the call leaves in its reference parameters. -/
def identifyRowsJson (r : SpacingResult) : List (String × ℚ) :=
  [("dyMedian", r.median), ("dyCount1", (r.count1 : ℚ)), ("dyCount2", (r.count2 : ℚ))] ++
    (if r.count1 = 0 then []
     else if r.count2 = 0 then
       [("dxAvg1", r.tot1.x / r.count1), ("dyAvg1", r.tot1.y / r.count1)]
     else
       [("dydxAvg1", r.tot1.x / r.count1), ("dydyAvg1", r.tot1.y / r.count1),
        ("dydxAvg2", r.tot2.x / r.count2 / 2), ("dydyAvg2", r.tot2.y / r.count2 / 2),
        ("gridY", r.grid)])

/-- The entries that `identifyColumns` sets in the stage model with `json_object_set`, from
the values the call leaves in its reference parameters. -/
def identifyColumnsJson (r : SpacingResult) : List (String × ℚ) :=
  [("dxMedian", r.median), ("dxCount1", (r.count1 : ℚ)), ("dxCount2", (r.count2 : ℚ))] ++
    (if r.count1 = 0 then []
     else if r.count2 = 0 then
       [("dxAvg1", r.tot1.x / r.count1), ("dyAvg1", r.tot1.y / r.count1)]
     else
       [("dxdxAvg1", r.tot1.x / r.count1), ("dxdyAvg1", r.tot1.y / r.count1),
        ("dxdxAvg2", r.tot2.x / r.count2 / 2), ("dxdyAvg2", r.tot2.y / r.count2 / 2),
        ("gridX", r.grid)])

/-- The error levels of a spacing estimator whose messages are `msg1` (level 1) and `msg2`
(level 2), for the result `r` of a call entered with the grid scale `gridIn`. -/
def ErrorLevels (msg1 msg2 : String) (gridIn : ℚ) (r : SpacingResult) : Prop :=
  (r.errMsg = msg1 ↔ r.count1 = 0) ∧
  (r.errMsg = msg2 ↔ 0 < r.count1 ∧ r.count2 = 0) ∧
  (r.errMsg = "" ↔ 0 < r.count1 ∧ 0 < r.count2) ∧
  (r.errMsg ≠ "" → r.grid = gridIn)

/-- The perfectly regular row of `N` points `(x0 + i d, y0)`, `i = 0 .. N-1`. -/
def regularRow (x0 y0 d : ℚ) (N : Nat) : List Point2f :=
  (List.range N).map (fun (i : Nat) => ⟨x0 + (i : ℚ) * d, y0⟩)

/-- The perfectly regular column of `N` points `(x0, y0 + i d)`, `i = 0 .. N-1`. -/
def regularColumn (x0 y0 d : ℚ) (N : Nat) : List Point2f :=
  (List.range N).map (fun (i : Nat) => ⟨x0, y0 + (i : ℚ) * d⟩)

/-- A row of eight points sorted along `x` with spacing `d = 21/2`: five gaps of `d` and, around
the outlier point `(63, 0)`, two gaps of `3 d`. -/
def outlierRow : List Point2f :=
  [⟨0, 0⟩, ⟨21 / 2, 0⟩, ⟨21, 0⟩, ⟨63 / 2, 0⟩, ⟨63, 0⟩, ⟨189 / 2, 0⟩, ⟨105, 0⟩, ⟨231 / 2, 0⟩]

/-- A regular 3x3 grid with pixel spacing `19/10` in both axes, in y-major order. -/
def fineGrid3x3 : List Point2f :=
  [⟨0, 0⟩, ⟨19 / 10, 0⟩, ⟨19 / 5, 0⟩, ⟨0, 19 / 10⟩, ⟨19 / 10, 19 / 10⟩, ⟨19 / 5, 19 / 10⟩,
   ⟨0, 19 / 5⟩, ⟨19 / 10, 19 / 5⟩, ⟨19 / 5, 19 / 5⟩]


/-- The flags returned by a sequence of `add` calls, in call order. -/
def GridMatcher.addAllFlags (gm : GridMatcher) : List (Point2f × Point3f) → List Bool
  | [] => []
  | op :: ops => (gm.add op.1 op.2).1 :: (gm.add op.1 op.2).2.addAllFlags ops

/-- The arguments of those calls of a sequence of `add` calls that returned `true`, in call
order. -/
def GridMatcher.acceptedOps (gm : GridMatcher) :
    List (Point2f × Point3f) → List (Point2f × Point3f)
  | [] => []
  | op :: ops =>
    if (gm.add op.1 op.2).1 then op :: (gm.add op.1 op.2).2.acceptedOps ops
    else (gm.add op.1 op.2).2.acceptedOps ops

/-- The fourteen windows `(row, col, rows, cols)` that `subImageCrossFactory(dMajor, dMinor)`
passes to `addSubImage`, in call order, for a lookup grid of `gridRows` by `gridCols` cells.
The quotients `rLast/2` and `cLast/2` are `int` divisions, which truncate toward zero. -/
def crossWindows (gridRows gridCols dMajor dMinor : Int) : List (Int × Int × Int × Int) :=
  let rLast := gridRows - dMajor
  let cLast := gridCols - dMajor
  [(Int.tdiv rLast 2, Int.tdiv cLast 2, dMinor, dMajor),
   (Int.tdiv rLast 2, Int.tdiv cLast 2, dMajor, dMinor),
   (Int.tdiv rLast 2, max 0 (Int.tdiv cLast 2 - 1), dMinor, dMajor),
   (Int.tdiv rLast 2, min cLast (Int.tdiv cLast 2 + 1), dMinor, dMajor),
   (max 0 (Int.tdiv rLast 2 - 1), Int.tdiv cLast 2, dMajor, dMinor),
   (min rLast (Int.tdiv rLast 2 + 1), Int.tdiv cLast 2, dMajor, dMinor),
   (Int.tdiv rLast 2, max 0 (Int.tdiv cLast 2 - 2), dMinor, dMajor),
   (Int.tdiv rLast 2, min cLast (Int.tdiv cLast 2 + 2), dMinor, dMajor),
   (max 0 (Int.tdiv rLast 2 - 2), Int.tdiv cLast 2, dMajor, dMinor),
   (min rLast (Int.tdiv rLast 2 + 2), Int.tdiv cLast 2, dMajor, dMinor),
   (Int.tdiv rLast 2, max 0 (Int.tdiv cLast 2 - 3), dMinor, dMajor),
   (Int.tdiv rLast 2, min cLast (Int.tdiv cLast 2 + 3), dMinor, dMajor),
   (max 0 (Int.tdiv rLast 2 - 3), Int.tdiv cLast 2, dMajor, dMinor),
   (min rLast (Int.tdiv rLast 2 + 3), Int.tdiv cLast 2, dMajor, dMinor)]

/-- A sequence of `addSubImage` calls with the same `minPts`, the returned flags dropped (as
`subImageCrossFactory` drops them); `none` when a read is out of range. -/
def GridMatcher.addSubImages (gm : GridMatcher) (windows : List (Int × Int × Int × Int))
    (minPts : Int) : Option GridMatcher :=
  windows.foldlM
    (fun g w => (g.addSubImage w.1 w.2.1 w.2.2.1 w.2.2.2 minPts).map Prod.snd) gm

/-- The method `GridMatcher::subImageCrossFactory`: `minPts = 4` and the fourteen calls of
`addSubImage` on the windows `crossWindows`; `addSubImage` leaves `gridIndexes` as it is, so
`rLast` and `cLast` are those of the grid at entry. -/
def GridMatcher.subImageCrossFactory (gm : GridMatcher) (dMajor dMinor : Int) :
    Option GridMatcher :=
  gm.addSubImages (crossWindows gm.gridIndexes.rows gm.gridIndexes.cols dMajor dMinor) 4

/-- A window `(row, col, rows, cols)` lies inside the matrix `g`: every cell that
`addSubImage` reads for it exists. -/
def WindowInGrid (g : Mat) (w : Int × Int × Int × Int) : Prop :=
  0 ≤ w.1 ∧ w.1 + w.2.2.1 ≤ g.rows ∧ 0 ≤ w.2.1 ∧ w.2.1 + w.2.2.2 ≤ g.cols

instance (g : Mat) (w : Int × Int × Int × Int) : Decidable (WindowInGrid g w) := by
  unfold WindowInGrid
  infer_instance

/-- A Grid Store of four correspondences on a 50x50 image with spacing 10, at the grid
coordinates `(2,1)`, `(3,1)`, `(2,2)`, `(3,2)`, with the lookup grid of 6 rows and 6 columns
that `calcGridIndexes` builds for it and no subsets yet. -/
def crossStore : GridMatcher :=
  { imagePts := [⟨20, 10⟩, ⟨30, 10⟩, ⟨20, 20⟩, ⟨30, 20⟩]
    objectPts := [⟨2, 1, 0⟩, ⟨3, 1, 0⟩, ⟨2, 2, 0⟩, ⟨3, 2, 0⟩]
    objTotals := ⟨10, 6, 0⟩
    imgTotals := ⟨100, 60⟩
    imgSet := [⟨20, 10⟩, ⟨30, 10⟩, ⟨20, 20⟩, ⟨30, 20⟩]
    vImagePts := []
    vObjectPts := []
    imgSize := ⟨50, 50⟩
    imgSep := ⟨10, 10⟩
    objSep := ⟨5, 5⟩
    gridIndexes := ((((Mat.fill 6 6 (-1)).set 1 2 0).set 1 3 1).set 2 2 2).set 2 3 3 }

/-- The values `cx`, `cx2`, `cy`, `cy2`, `xodd`, `yodd` that `matRing` computes from the image
dimensions before its loops. -/
structure RingGeom where
  cx : Int
  cx2 : Int
  cy : Int
  cy2 : Int
  xodd : Bool
  yodd : Bool
deriving DecidableEq, Repr

/-- The head of `matRing`: `mx = cols - 1`, `my = rows - 1`, `xodd = cols & 1`,
`yodd = rows & 1`, `cx = mx/2`, `cx2 = xodd ? cx : cx+1`, and likewise for `y`. -/
def ringGeom (rows cols : Int) : RingGeom :=
  let mx := cols - 1
  let my := rows - 1
  let xodd := decide (cols % 2 = 1)
  let yodd := decide (rows % 2 = 1)
  let cx := Int.tdiv mx 2
  let cy := Int.tdiv my 2
  { cx := cx, cx2 := if xodd then cx else cx + 1,
    cy := cy, cy2 := if yodd then cy else cy + 1,
    xodd := xodd, yodd := yodd }

/-- Conversion of an `int` value to `short` (16 bits, two's complement). -/
def wrapShort (n : Int) : Int := (n + 32768) % 65536 - 32768

/-- The variables `rcSum` and `rcCount` of one iteration of the accumulation loop of
`matRing`, with the list of the pixels `(row, col)` read by that iteration, in order. -/
structure RingCell where
  rcSum : Int
  rcCount : Int
  reads : List (Int × Int)

/-- One iteration of the accumulation loop of `matRing`, at `(c, r)`: the top-left pixel is
always read, the other three under the conditions of the source. -/
def ringCell (image : Int → Int → Int) (g : RingGeom) (c r : Int) : RingCell :=
  let s : RingCell := ⟨image (g.cy - r) (g.cx - c), 1, [(g.cy - r, g.cx - c)]⟩
  let s : RingCell :=
    if !g.xodd || decide (c ≠ 0) then
      ⟨s.rcSum + image (g.cy - r) (g.cx2 + c), s.rcCount + 1, s.reads ++ [(g.cy - r, g.cx2 + c)]⟩
    else s
  let s : RingCell :=
    if !g.yodd || decide (r ≠ 0) then
      ⟨s.rcSum + image (g.cy2 + r) (g.cx - c), s.rcCount + 1, s.reads ++ [(g.cy2 + r, g.cx - c)]⟩
    else s
  if (decide (r ≠ 0) && decide (c ≠ 0)) || (!g.xodd && !g.yodd) then
    ⟨s.rcSum + image (g.cy2 + r) (g.cx2 + c), s.rcCount + 1, s.reads ++ [(g.cy2 + r, g.cx2 + c)]⟩
  else s

/-- The arrays `sum1D` and `count1D` of `matRing` (arrays of `short`, indexed by the ring
number), with the list of all pixels read so far. -/
structure RingAcc where
  sum1D : Nat → Int
  count1D : Nat → Int
  reads : List (Int × Int)

/-- The body of the accumulation loop of `matRing` after the four reads:
`d = ringMap[r][c]; count1D[d] += rcCount; sum1D[d] += rcSum`. -/
def ringStep (image : Int → Int → Int) (ringMap : Nat → Nat → Nat) (g : RingGeom)
    (c r : Nat) (acc : RingAcc) : RingAcc :=
  let cell := ringCell image g c r
  let d := ringMap r c
  { sum1D := fun i => if i = d then wrapShort (acc.sum1D d + cell.rcSum) else acc.sum1D i
    count1D := fun i => if i = d then wrapShort (acc.count1D d + cell.rcCount) else acc.count1D i
    reads := acc.reads ++ cell.reads }

/-- The accumulation loop of `matRing` over an image of `rows` by `cols` pixels:
`c = 0 .. cx` and, for each `c`, `r = 0 .. cy`, from zeroed arrays. -/
def matRingAccumulate (image : Int → Int → Int) (ringMap : Nat → Nat → Nat)
    (rows cols : Int) : RingAcc :=
  let g := ringGeom rows cols
  (List.range (g.cx + 1).toNat).foldl
    (fun acc c => (List.range (g.cy + 1).toNat).foldl
      (fun acc r => ringStep image ringMap g c r acc) acc)
    ⟨fun _ => 0, fun _ => 0, []⟩

/-- The pixels of an image of `rows` by `cols` pixels, row by row. -/
def allPixels (rows cols : Nat) : List (Int × Int) :=
  (List.range rows).flatMap (fun r => (List.range cols).map (fun c => ((r : Int), (c : Int))))

theorem truncQ_zero : truncQ 0 = 0 := by
  norm_num [truncQ]

theorem truncQ_neg (q : ℚ) : truncQ (-q) = -truncQ q := by
  unfold truncQ
  rcases lt_trichotomy q 0 with h | h | h
  · have h1 : 0 ≤ -q := by linarith
    have h2 : ¬ 0 ≤ q := by linarith
    simp [h1, h2]
  · subst h; simp
  · have h1 : ¬ 0 ≤ -q := by linarith
    have h2 : 0 ≤ q := by linarith
    simp [h1, h2]

theorem truncQ_intCast (n : Int) : truncQ (n : ℚ) = n := by
  unfold truncQ
  split_ifs with h
  · exact Int.floor_intCast n
  · rw [← Int.cast_neg, Int.floor_intCast]; ring

theorem ComparePoint2f_irrefl (op : CompareOp) (p : Point2f) : ComparePoint2f op p p = false := by
  cases op <;> simp [ComparePoint2f, truncQ_zero]

theorem ComparePoint2f_asymm (op : CompareOp) (a b : Point2f)
    (h : ComparePoint2f op a b = true) : ComparePoint2f op b a = false := by
  have hx : truncQ (b.x - a.x) = -truncQ (a.x - b.x) := by rw [← truncQ_neg]; congr 1; ring
  have hy : truncQ (b.y - a.y) = -truncQ (a.y - b.y) := by rw [← truncQ_neg]; congr 1; ring
  cases op <;> simp only [ComparePoint2f, hx, hy, decide_eq_true_eq, decide_eq_false_iff_not] at h ⊢
    <;> split_ifs at h ⊢ <;> omega

theorem keyEquiv_self (p : Point2f) : keyEquiv p p = true := by
  simp [keyEquiv, ComparePoint2f_irrefl]

theorem setTree_nil : setTree [] = .leaf := rfl

theorem setTree_concat (s : List Point2f) (k : Point2f) :
    setTree (s ++ [k]) = ((setTree s).insertUnique k).1 := by
  simp [setTree, List.foldl_append]

theorem setFind_nil (p : Point2f) : setFind [] p = false := rfl

theorem setInsert_nil (p : Point2f) : setInsert [] p = [p] := rfl

/-! ## Grid Store: `add` -/

theorem add_of_found (gm : GridMatcher) (p : Point2f) (g : Point3f)
    (h : setFind gm.imgSet p = true) : gm.add p g = (false, gm) := by
  unfold GridMatcher.add
  rw [if_pos h]

theorem duplicateStore_adds (imgSize : Size) (imgSep objSep : Point2f) (g : Point3f) :
    (GridMatcher.new imgSize imgSep objSep).add ⟨1, 1⟩ g =
      (true, { GridMatcher.new imgSize imgSep objSep with
        imagePts := [⟨1, 1⟩]
        objectPts := [g]
        objTotals := Point3f.add ⟨0, 0, 0⟩ g
        imgTotals := ⟨1, 1⟩
        imgSet := [⟨1, 1⟩] }) ∧
    GridMatcher.add { GridMatcher.new imgSize imgSep objSep with
        imagePts := [⟨1, 1⟩]
        objectPts := [g]
        objTotals := Point3f.add ⟨0, 0, 0⟩ g
        imgTotals := ⟨1, 1⟩
        imgSet := [⟨1, 1⟩] } ⟨0, 3 / 2⟩ g =
      (true, { GridMatcher.new imgSize imgSep objSep with
        imagePts := [⟨1, 1⟩, ⟨0, 3 / 2⟩]
        objectPts := [g, g]
        objTotals := Point3f.add (Point3f.add ⟨0, 0, 0⟩ g) g
        imgTotals := ⟨1, 5 / 2⟩
        imgSet := [⟨1, 1⟩, ⟨0, 3 / 2⟩] }) ∧
    setFind [⟨1, 1⟩, ⟨0, 3 / 2⟩] ⟨1, 1 / 8⟩ = false ∧
    setInsert [⟨1, 1⟩, ⟨0, 3 / 2⟩] ⟨1, 1 / 8⟩ = [⟨1, 1⟩, ⟨0, 3 / 2⟩] := by
  refine ⟨?_, ?_, ?_, ?_⟩
  · norm_num [GridMatcher.add, GridMatcher.new, setFind, setInsert, setTree,
      RbTree.find, RbTree.lowerBound, RbTree.insertUnique, RbTree.descend, insertPosFree,
      rbFixup, RbTree.plug, RbTree.blacken, ComparePoint2f, truncQ, Point2f.add]
  · norm_num [GridMatcher.add, GridMatcher.new, setFind, setInsert, setTree,
      RbTree.find, RbTree.lowerBound, RbTree.insertUnique, RbTree.descend, insertPosFree,
      rbFixup, RbTree.plug, RbTree.blacken, ComparePoint2f, truncQ, Point2f.add]
  · norm_num [setFind, setTree, RbTree.find, RbTree.lowerBound, RbTree.insertUnique,
      RbTree.descend, insertPosFree, rbFixup, RbTree.plug, RbTree.blacken, ComparePoint2f,
      truncQ]
  · norm_num [setInsert, setTree, RbTree.insertUnique, RbTree.descend, insertPosFree, rbFixup,
      RbTree.plug, RbTree.blacken, ComparePoint2f, truncQ]

/-- C10 (fails on the code): for both axis orderings, the distinct non-NaN points
`(1/2, 0)` and `(0, 0)` are ordered neither way by `ComparePoint2f`, because the coordinate
differences are truncated to `int` before they are compared with zero. -/
theorem ComparePoint2f_orders_neither_way (op : CompareOp) :
    (⟨1 / 2, 0⟩ : Point2f) ≠ ⟨0, 0⟩ ∧
    ComparePoint2f op ⟨1 / 2, 0⟩ ⟨0, 0⟩ = false ∧
    ComparePoint2f op ⟨0, 0⟩ ⟨1 / 2, 0⟩ = false := by
  refine ⟨by simp, ?_, ?_⟩ <;> cases op <;> norm_num [ComparePoint2f, truncQ]

/-- C2 (fails on the code): in the store reached by `add((1,1), g)` and `add((0,3/2), g)`,
the call `add((1,1/8), g1)` returns `true` and a second call `add((1,1/8), g2)` returns
`true` again and stores the point a second time.  The set search goes from the root `(1,1)`
to its left child `(0,3/2)` and ends there, and `(1,1/8)` is ordered before `(0,3/2)`, so
the point is not found; the insertion goes right from the root, meets `(1,1)`, which the
truncating comparator does not order before `(1,1/8)`, and stores no key.  The comparator is
not transitive: `(1,1/8)` is ordered before `(0,3/2)` and `(0,3/2)` before `(1,1)`, but
`(1,1/8)` is not ordered before `(1,1)`; the two are equivalent keys. -/
theorem add_same_point_accepted_twice (imgSize : Size) (imgSep objSep : Point2f)
    (g g1 g2 : Point3f) :
    let gm := (GridMatcher.new imgSize imgSep objSep).addAll [(⟨1, 1⟩, g), (⟨0, 3 / 2⟩, g)]
    (gm.add ⟨1, 1 / 8⟩ g1).1 = true ∧
    ((gm.add ⟨1, 1 / 8⟩ g1).2.add ⟨1, 1 / 8⟩ g2).1 = true ∧
    ((gm.add ⟨1, 1 / 8⟩ g1).2.add ⟨1, 1 / 8⟩ g2).2.imagePts =
      [⟨1, 1⟩, ⟨0, 3 / 2⟩, ⟨1, 1 / 8⟩, ⟨1, 1 / 8⟩] ∧
    ((gm.add ⟨1, 1 / 8⟩ g1).2.add ⟨1, 1 / 8⟩ g2).2.objectPts = [g, g, g1, g2] ∧
    ((gm.add ⟨1, 1 / 8⟩ g1).2.add ⟨1, 1 / 8⟩ g2).2.imgSet = [⟨1, 1⟩, ⟨0, 3 / 2⟩] ∧
    ComparePoint2f .COMPARE_YX ⟨1, 1 / 8⟩ ⟨0, 3 / 2⟩ = true ∧
    ComparePoint2f .COMPARE_YX ⟨0, 3 / 2⟩ ⟨1, 1⟩ = true ∧
    ComparePoint2f .COMPARE_YX ⟨1, 1 / 8⟩ ⟨1, 1⟩ = false ∧
    keyEquiv ⟨1, 1 / 8⟩ ⟨1, 1⟩ = true := by
  obtain ⟨h1, h2, h3, h4⟩ := duplicateStore_adds imgSize imgSep objSep g
  intro gm
  simp only [gm, GridMatcher.addAll, List.foldl_cons, List.foldl_nil, h1, h2]
  simp only [GridMatcher.add, h3, h4, Bool.false_eq_true, if_false, List.cons_append,
    List.nil_append, true_and]
  norm_num [keyEquiv, ComparePoint2f, truncQ]

/-- C3 (fails on the code): in the store reached by `add((0,0), g)`, the call
`add((1/2,0), g2)` returns `false` and stores nothing although no stored image point equals
`(1/2, 0)`: the set lookup uses the truncating comparator, under which the two points are
equivalent keys. -/
theorem add_rejects_absent_point (imgSize : Size) (imgSep objSep : Point2f) (g g2 : Point3f) :
    let gm := (GridMatcher.new imgSize imgSep objSep).addAll [(⟨0, 0⟩, g)]
    gm.imagePts = [⟨0, 0⟩] ∧ (⟨1 / 2, 0⟩ : Point2f) ∉ gm.imagePts ∧
    (gm.add ⟨1 / 2, 0⟩ g2).1 = false ∧ (gm.add ⟨1 / 2, 0⟩ g2).2.imagePts = [⟨0, 0⟩] := by
  norm_num [GridMatcher.addAll, GridMatcher.add, GridMatcher.new, setFind, setInsert, setTree,
    RbTree.find, RbTree.lowerBound, RbTree.insertUnique, RbTree.descend, insertPosFree, rbFixup,
    RbTree.plug, RbTree.blacken, ComparePoint2f, truncQ]

/-- C4 (fails on the code): after the calls `add((1,1), g)`, `add((0,3/2), g)`,
`add((1,1/8), g)`, `add((1,1/8), g)` on a freshly constructed Grid Store every call has
returned `true` and `imagePts` is `(1,1), (0,3/2), (1,1/8), (1,1/8)`: the image locations are
not pairwise distinct.  The set itself holds only `(1,1)` and `(0,3/2)`. -/
theorem imagePts_hold_a_point_twice (imgSize : Size) (imgSep objSep : Point2f) (g : Point3f) :
    let ops : List (Point2f × Point3f) :=
      [(⟨1, 1⟩, g), (⟨0, 3 / 2⟩, g), (⟨1, 1 / 8⟩, g), (⟨1, 1 / 8⟩, g)]
    (GridMatcher.new imgSize imgSep objSep).addAllFlags ops = [true, true, true, true] ∧
    ((GridMatcher.new imgSize imgSep objSep).addAll ops).imagePts =
      [⟨1, 1⟩, ⟨0, 3 / 2⟩, ⟨1, 1 / 8⟩, ⟨1, 1 / 8⟩] ∧
    ((GridMatcher.new imgSize imgSep objSep).addAll ops).imgSet = [⟨1, 1⟩, ⟨0, 3 / 2⟩] ∧
    ¬ ((GridMatcher.new imgSize imgSep objSep).addAll ops).imagePts.Pairwise
      (fun a b => a ≠ b) := by
  obtain ⟨h1, h2, h3, h4⟩ := duplicateStore_adds imgSize imgSep objSep g
  intro ops
  simp only [ops, GridMatcher.addAllFlags, GridMatcher.addAll, List.foldl_cons, List.foldl_nil,
    h1, h2]
  simp only [GridMatcher.add, h3, h4, Bool.false_eq_true, if_false, List.cons_append,
    List.nil_append, true_and]
  simp

/-- C9 (fails on the code): on the freshly constructed store, which holds zero
correspondences, both centroid queries return a value, every component of which is the NaN
obtained by dividing a zero total by the count zero. -/
theorem centroid_of_empty_store_is_nan :
    (GridMatcher.new ⟨640, 480⟩ ⟨10, 10⟩ ⟨5, 5⟩).size = 0 ∧
    (GridMatcher.new ⟨640, 480⟩ ⟨10, 10⟩ ⟨5, 5⟩).getImageCentroid = (.nan, .nan) ∧
    (GridMatcher.new ⟨640, 480⟩ ⟨10, 10⟩ ⟨5, 5⟩).getObjectCentroid = (.nan, .nan, .nan) := by
  simp [GridMatcher.new, GridMatcher.size, GridMatcher.getImageCentroid,
    GridMatcher.getObjectCentroid, fdivInt]

/-- C9 (amended): on a Grid Store with zero stored correspondences the centroid queries make
no emptiness check and signal no error: they return the running totals divided by the
count zero, so no component is a finite value, and each component whose total is zero (as
all are in a store that never stored anything) is NaN. -/
theorem centroid_unguarded (gm : GridMatcher) (h : gm.size = 0) :
    gm.getImageCentroid = (fdivInt gm.imgTotals.x 0, fdivInt gm.imgTotals.y 0) ∧
    gm.getObjectCentroid =
      (fdivInt gm.objTotals.x 0, fdivInt gm.objTotals.y 0, fdivInt gm.objTotals.z 0) ∧
    (∀ a q, fdivInt a 0 ≠ .finite q) ∧ fdivInt 0 0 = .nan := by
  have hn : (gm.objectPts.length : Int) = 0 := h
  refine ⟨?_, ?_, ?_, ?_⟩
  · simp [GridMatcher.getImageCentroid, hn]
  · simp [GridMatcher.getObjectCentroid, hn]
  · intro a q
    simp only [fdivInt, if_true]
    split_ifs <;> simp
  · simp [fdivInt]

/-- The amended C9 at the freshly constructed store of a 640x480 image. -/
theorem centroid_unguarded_witness :
    (GridMatcher.new ⟨640, 480⟩ ⟨10, 10⟩ ⟨5, 5⟩).size = 0 ∧
    (GridMatcher.new ⟨640, 480⟩ ⟨10, 10⟩ ⟨5, 5⟩).getImageCentroid =
      (fdivInt 0 0, fdivInt 0 0) :=
  ⟨rfl, (centroid_unguarded (GridMatcher.new ⟨640, 480⟩ ⟨10, 10⟩ ⟨5, 5⟩) rfl).1⟩


/-! ## Lookup grid -/

theorem Mat.at_natCast (g : Mat) (r c : Nat) (hr : r < g.rows) (hc : c < g.cols) :
    g.at r c = some (g.cell r c) := by
  unfold Mat.at
  rw [if_pos ⟨by omega, by omega, by omega, by omega⟩]
  simp

theorem gridLoop_cons (p : Point3f) (ps : List Point3f) (i : Nat) (g : Mat) :
    gridLoop (p :: ps) i g =
      if inGrid g.rows g.cols p then
        gridLoop ps (i + 1) (g.set (truncQ p.y).toNat (truncQ p.x).toNat i)
      else none := by
  unfold inGrid
  conv_lhs => unfold gridLoop
  by_cases h1 : 0 ≤ truncQ p.y ∧ truncQ p.y < g.rows
  · by_cases h2 : 0 ≤ truncQ p.x ∧ truncQ p.x < g.cols
    · simp only [if_pos h1, if_pos h2]
      rw [if_pos ⟨h1.1, h1.2, h2.1, h2.2⟩]
    · simp only [if_pos h1, if_neg h2]
      rw [if_neg (fun h => h2 ⟨h.2.2.1, h.2.2.2⟩)]
  · simp only [if_neg h1]
    rw [if_neg (fun h => h1 ⟨h.1, h.2.1⟩)]

theorem gridLoop_dims (ps : List Point3f) (i : Nat) (g g1 : Mat)
    (h : gridLoop ps i g = some g1) : g1.rows = g.rows ∧ g1.cols = g.cols := by
  induction ps generalizing i g with
  | nil => simp [gridLoop] at h; subst h; exact ⟨rfl, rfl⟩
  | cons p ps ih =>
    rw [gridLoop_cons] at h
    split_ifs at h with hp
    simpa [Mat.set] using ih _ _ h

theorem gridLoop_eq_none_iff (ps : List Point3f) (i : Nat) (g : Mat) :
    gridLoop ps i g = none ↔ ∃ p ∈ ps, ¬ inGrid g.rows g.cols p := by
  induction ps generalizing i g with
  | nil => simp [gridLoop]
  | cons p ps ih =>
    rw [gridLoop_cons]
    split_ifs with hp
    · rw [ih]
      simp only [Mat.set, List.mem_cons, exists_eq_or_imp, hp, not_true_eq_false, false_or]
    · simp [hp]

theorem gridLoop_untouched (ps : List Point3f) (i : Nat) (g g1 : Mat) (r c : Nat)
    (h : gridLoop ps i g = some g1) (hno : ∀ p ∈ ps, gridCoord p ≠ ((c : Int), (r : Int))) :
    g1.cell r c = g.cell r c := by
  induction ps generalizing i g with
  | nil => simp [gridLoop] at h; subst h; rfl
  | cons p ps ih =>
    rw [gridLoop_cons] at h
    split_ifs at h with hp
    rw [ih _ _ h (fun q hq => hno q (List.mem_cons_of_mem _ hq))]
    have hne := hno p (List.mem_cons_self _ _)
    simp only [Mat.set]
    rw [if_neg]
    rintro ⟨hr, hc⟩
    apply hne
    obtain ⟨h1, _, h3, _⟩ := hp
    simp only [gridCoord, Prod.mk.injEq]
    omega

theorem gridLoop_last (ps : List Point3f) (i : Nat) (g g1 : Mat) (r c j : Nat) (p : Point3f)
    (h : gridLoop ps i g = some g1) (hj : ps[j]? = some p)
    (hp : gridCoord p = ((c : Int), (r : Int)))
    (hlast : ∀ k q, j < k → ps[k]? = some q → gridCoord q ≠ ((c : Int), (r : Int))) :
    g1.cell r c = ((i + j : Nat) : Int) := by
  induction ps generalizing i g j with
  | nil => simp at hj
  | cons a ps ih =>
    rw [gridLoop_cons] at h
    split_ifs at h with ha
    cases j with
    | zero =>
      simp only [List.getElem?_cons_zero, Option.some.injEq] at hj
      subst hj
      have hno : ∀ q ∈ ps, gridCoord q ≠ ((c : Int), (r : Int)) := by
        intro q hq
        obtain ⟨k, hk⟩ := List.getElem?_of_mem hq
        exact hlast (k + 1) q (Nat.succ_pos k) (by simpa using hk)
      rw [gridLoop_untouched ps _ _ g1 r c h hno]
      simp only [gridCoord, Prod.mk.injEq] at hp
      obtain ⟨h1, _, h3, _⟩ := ha
      simp only [Mat.set]
      rw [if_pos ⟨by omega, by omega⟩]
      simp
    | succ j =>
      simp only [List.getElem?_cons_succ] at hj
      have := ih (i + 1) _ j h hj (fun k q hk hq => hlast (k + 1) q (by omega) (by simpa using hq))
      rw [this]
      congr 1
      omega

theorem gridLoop_cell_cases (ps : List Point3f) (i : Nat) (g g1 : Mat) (r c : Nat)
    (h : gridLoop ps i g = some g1) :
    g1.cell r c = g.cell r c ∨
      ∃ j p, ps[j]? = some p ∧ gridCoord p = ((c : Int), (r : Int)) ∧
        g1.cell r c = ((i + j : Nat) : Int) := by
  induction ps generalizing i g with
  | nil => simp [gridLoop] at h; subst h; exact Or.inl rfl
  | cons a ps ih =>
    rw [gridLoop_cons] at h
    split_ifs at h with ha
    rcases ih _ _ h with h1 | ⟨j, p, hj, hp, hc⟩
    · rw [h1]
      simp only [Mat.set]
      split_ifs with hrc
      · right
        refine ⟨0, a, by simp, ?_, by simp⟩
        obtain ⟨h1, _, h3, _⟩ := ha
        simp only [gridCoord, Prod.mk.injEq]
        omega
      · exact Or.inl rfl
    · right
      refine ⟨j + 1, p, by simpa using hj, hp, ?_⟩
      rw [hc]
      congr 1
      omega

theorem exists_last_of_exists {α : Type} (P : α → Prop) (ps : List α) (h : ∃ p ∈ ps, P p) :
    ∃ j p, ps[j]? = some p ∧ P p ∧ ∀ (k : Nat) (q : α), j < k → ps[k]? = some q → ¬ P q := by
  induction ps with
  | nil => simp at h
  | cons a ps ih =>
    by_cases ht : ∃ p ∈ ps, P p
    · obtain ⟨j, p, hj, hp, hl⟩ := ih ht
      refine ⟨j + 1, p, by simpa using hj, hp, ?_⟩
      intro k q hk hq
      cases k with
      | zero => omega
      | succ k => exact hl k q (by omega) (by simpa using hq)
    · have ha : P a := by
        obtain ⟨p, hp, hP⟩ := h
        rcases List.mem_cons.mp hp with rfl | hp
        · exact hP
        · exact absurd ⟨p, hp, hP⟩ ht
      refine ⟨0, a, by simp, ha, ?_⟩
      intro k q hk hq hP
      cases k with
      | zero => omega
      | succ k =>
        apply ht
        refine ⟨q, List.getElem?_mem (by simpa using hq), hP⟩

theorem calcGridIndexes_eq_some_iff (gm gm1 : GridMatcher) :
    gm.calcGridIndexes = some gm1 ↔
      0 ≤ truncQ (gm.imgSize.height / gm.imgSep.y + 3 / 2) ∧
      0 ≤ truncQ (gm.imgSize.width / gm.imgSep.x + 3 / 2) ∧
      ∃ g, gridLoop (gm.objectPts.take 32768) 0
            (Mat.fill (truncQ (gm.imgSize.height / gm.imgSep.y + 3 / 2)).toNat
              (truncQ (gm.imgSize.width / gm.imgSep.x + 3 / 2)).toNat (-1)) = some g ∧
          gm1 = { gm with gridIndexes := g } := by
  unfold GridMatcher.calcGridIndexes
  simp only
  split_ifs with h
  · constructor
    · intro h1; exact absurd h1 (by simp)
    · rintro ⟨h1, h2, _⟩; omega
  · rw [Option.map_eq_some']
    constructor
    · rintro ⟨g, hg, rfl⟩
      exact ⟨by omega, by omega, g, hg, rfl⟩
    · rintro ⟨_, _, g, hg, rfl⟩
      exact ⟨g, hg, rfl⟩

theorem take_of_short (l : List Point3f) (h : l.length ≤ 32768) : l.take 32768 = l :=
  List.take_of_length_le h

@[simp] theorem Mat.set_rows (m : Mat) (r c : Nat) (v : Int) : (m.set r c v).rows = m.rows := rfl

@[simp] theorem Mat.set_cols (m : Mat) (r c : Nat) (v : Int) : (m.set r c v).cols = m.cols := rfl

@[simp] theorem Mat.fill_rows (rows cols : Nat) (v : Int) : (Mat.fill rows cols v).rows = rows := rfl

@[simp] theorem Mat.fill_cols (rows cols : Nat) (v : Int) : (Mat.fill rows cols v).cols = cols := rfl

theorem toNat_two : Int.toNat 2 = 2 := rfl

theorem toNat_three : Int.toNat 3 = 3 := rfl

theorem fourPointStore_calc :
    fourPointStore.calcGridIndexes = some
      { fourPointStore with
        gridIndexes := ((((Mat.fill 2 3 (-1)).set 0 1 0).set 0 2 1).set 1 1 2).set 1 2 3 } := by
  rw [calcGridIndexes_eq_some_iff]
  norm_num [fourPointStore, GridMatcher.addAll, GridMatcher.add, GridMatcher.new, setFind, setInsert, setTree,
    RbTree.find, RbTree.lowerBound, RbTree.insertUnique, RbTree.descend, insertPosFree, rbFixup,
    RbTree.plug, RbTree.blacken, ComparePoint2f, truncQ, gridLoop, Point3f.add, Point2f.add, toNat_two, toNat_three]

theorem overflowStore_take (last : Point3f) :
    (overflowStore last).objectPts.take 32768 = List.replicate 32768 ⟨0, 0, 0⟩ := by
  show (List.replicate 32768 (⟨0, 0, 0⟩ : Point3f) ++ [last]).take 32768 = _
  exact List.take_left' (List.length_replicate _ _)

theorem getElem?_replicate_append (n : Nat) (a b : Point3f) :
    (List.replicate n a ++ [b])[n]? = some b := by
  rw [List.getElem?_append_right (le_of_eq (List.length_replicate _ _)), List.length_replicate]
  simp

theorem overflowStore_calc (last : Point3f) :
    ∃ g, (overflowStore last).calcGridIndexes = some { overflowStore last with gridIndexes := g } ∧
      g.rows = 2 ∧ g.cols = 2 ∧ g.cell 0 1 = -1 := by
  have hny : truncQ (((overflowStore last).imgSize.height : ℚ) / (overflowStore last).imgSep.y + 3 / 2)
      = 2 := by norm_num [overflowStore, truncQ]
  have hnx : truncQ (((overflowStore last).imgSize.width : ℚ) / (overflowStore last).imgSep.x + 3 / 2)
      = 2 := by norm_num [overflowStore, truncQ]
  have hin : ∀ p ∈ List.replicate 32768 (⟨0, 0, 0⟩ : Point3f), inGrid 2 2 p := by
    intro p hp
    rw [List.eq_of_mem_replicate hp]
    norm_num [inGrid, truncQ]
  have hne : gridLoop (List.replicate 32768 ⟨0, 0, 0⟩) 0 (Mat.fill 2 2 (-1)) ≠ none := by
    rw [Ne, gridLoop_eq_none_iff]
    rintro ⟨p, hp, hnot⟩
    exact hnot (hin p hp)
  obtain ⟨g, hg⟩ := Option.ne_none_iff_exists'.mp hne
  refine ⟨g, ?_, ?_, ?_, ?_⟩
  · rw [calcGridIndexes_eq_some_iff, hny, hnx, overflowStore_take]
    exact ⟨by decide, by decide, g, hg, rfl⟩
  · exact (gridLoop_dims _ _ _ _ hg).1
  · exact (gridLoop_dims _ _ _ _ hg).2
  · rw [gridLoop_untouched _ _ _ _ 0 1 hg]
    · rfl
    · intro p hp
      rw [List.eq_of_mem_replicate hp]
      simp only [gridCoord, Prod.mk.injEq, ne_eq]
      norm_num [truncQ]

/-- C7 (fails on the code): in a store of 32769 correspondences whose last one (id 32768)
is alone at grid coordinate `(1, 0)`, `calcGridIndexes` completes and cell `(0, 1)` still
holds `-1`: the 16-bit loop counter never reaches id 32768. -/
theorem calcGridIndexes_misses_late_id :
    ∃ gm1, (overflowStore ⟨1, 0, 0⟩).calcGridIndexes = some gm1 ∧
      (overflowStore ⟨1, 0, 0⟩).objectPts[32768]? = some ⟨1, 0, 0⟩ ∧
      gridCoord ⟨1, 0, 0⟩ = (1, 0) ∧
      gm1.gridIndexes.at 0 1 = some (-1) := by
  obtain ⟨g, hg, hr, hc, hcell⟩ := overflowStore_calc ⟨1, 0, 0⟩
  refine ⟨_, hg, ?_, by norm_num [gridCoord, truncQ], ?_⟩
  · exact getElem?_replicate_append 32768 _ _
  · have := Mat.at_natCast g 0 1 (by omega) (by omega)
    simpa [hcell] using this

/-- C7 (amended): for a store of at most 32768 correspondences, whenever `calcGridIndexes`
completes, the store is otherwise unchanged and every cell `(r, c)` of `gridIndexes` holds
`-1` if no stored correspondence has grid coordinate `(c, r)` and otherwise the largest id
of a stored correspondence with grid coordinate `(c, r)`; every stored correspondence whose
grid coordinate is unique is found at its own cell. -/
theorem calcGridIndexes_cells (gm gm1 : GridMatcher) (hlen : gm.objectPts.length ≤ 32768)
    (h : gm.calcGridIndexes = some gm1) :
    gm1 = { gm with gridIndexes := gm1.gridIndexes } ∧
    (∀ r c : Nat, r < gm1.gridIndexes.rows → c < gm1.gridIndexes.cols →
      ((∀ p ∈ gm.objectPts, gridCoord p ≠ ((c : Int), (r : Int))) →
        gm1.gridIndexes.at r c = some (-1)) ∧
      ((∃ p ∈ gm.objectPts, gridCoord p = ((c : Int), (r : Int))) →
        ∃ (j : Nat) (p : Point3f), gm1.gridIndexes.at r c = some (j : Int) ∧
          gm.objectPts[j]? = some p ∧ gridCoord p = ((c : Int), (r : Int)) ∧
          ∀ (k : Nat) (q : Point3f), j < k → gm.objectPts[k]? = some q →
            gridCoord q ≠ ((c : Int), (r : Int)))) ∧
    (∀ (j : Nat) (p : Point3f), gm.objectPts[j]? = some p →
      (∀ (k : Nat) (q : Point3f), k ≠ j → gm.objectPts[k]? = some q →
        gridCoord q ≠ gridCoord p) →
      gm1.gridIndexes.at (truncQ p.y) (truncQ p.x) = some (j : Int)) := by
  rw [calcGridIndexes_eq_some_iff, take_of_short _ hlen] at h
  obtain ⟨_, _, g, hg, rfl⟩ := h
  obtain ⟨hrows, hcols⟩ := gridLoop_dims _ _ _ _ hg
  refine ⟨rfl, ?_, ?_⟩
  · intro r c hr hc
    simp only at hr hc
    rw [Mat.at_natCast g r c hr hc]
    constructor
    · intro hno
      rw [gridLoop_untouched _ _ _ _ r c hg hno]
      rfl
    · intro hex
      obtain ⟨j, p, hj, hp, hl⟩ :=
        exists_last_of_exists (fun p => gridCoord p = ((c : Int), (r : Int))) _ hex
      refine ⟨j, p, ?_, hj, hp, hl⟩
      rw [gridLoop_last _ _ _ _ r c j p hg hj hp hl]
      simp
  · intro j p hj huniq
    have hin : inGrid g.rows g.cols p := by
      by_contra hnot
      have hnone : gridLoop gm.objectPts 0
          (Mat.fill (truncQ (gm.imgSize.height / gm.imgSep.y + 3 / 2)).toNat
            (truncQ (gm.imgSize.width / gm.imgSep.x + 3 / 2)).toNat (-1)) = none := by
        rw [gridLoop_eq_none_iff]
        refine ⟨p, List.getElem?_mem hj, ?_⟩
        rw [← hrows, ← hcols]
        exact hnot
      rw [hnone] at hg
      exact absurd hg (by simp)
    obtain ⟨h1, h2, h3, h4⟩ := hin
    have hy : truncQ p.y = ((truncQ p.y).toNat : Int) := (Int.toNat_of_nonneg h1).symm
    have hx : truncQ p.x = ((truncQ p.x).toNat : Int) := (Int.toNat_of_nonneg h3).symm
    have hcell := gridLoop_last _ _ _ _ (truncQ p.y).toNat (truncQ p.x).toNat j p hg hj
      (by simp only [gridCoord, Prod.mk.injEq]; omega)
      (fun k q hk hq => by
        have := huniq k q (by omega) hq
        simp only [gridCoord, Prod.mk.injEq, ne_eq] at this ⊢
        omega)
    rw [hy, hx, Mat.at_natCast g _ _ (by omega) (by omega), hcell]
    simp

/-- The amended C7 at `fourPointStore`: the correspondence with id 3, alone at grid
coordinate `(2, 1)`, is found at cell `(1, 2)`. -/
theorem calcGridIndexes_cells_witness :
    fourPointStore.objectPts.length ≤ 32768 ∧
    fourPointStore.calcGridIndexes = some
      { fourPointStore with
        gridIndexes := ((((Mat.fill 2 3 (-1)).set 0 1 0).set 0 2 1).set 1 1 2).set 1 2 3 } ∧
    fourPointStore.objectPts[3]? = some ⟨2, 1, 0⟩ ∧
    ({ fourPointStore with
        gridIndexes := ((((Mat.fill 2 3 (-1)).set 0 1 0).set 0 2 1).set 1 1 2).set 1 2 3
      } : GridMatcher).gridIndexes.at (truncQ (1 : ℚ)) (truncQ (2 : ℚ)) = some ((3 : Nat) : Int) := by
  have hlen : fourPointStore.objectPts.length ≤ 32768 := by
    norm_num [fourPointStore, GridMatcher.addAll, GridMatcher.add, GridMatcher.new, setFind, setInsert, setTree,
    RbTree.find, RbTree.lowerBound, RbTree.insertUnique, RbTree.descend, insertPosFree, rbFixup,
    RbTree.plug, RbTree.blacken, ComparePoint2f, truncQ]
  have hobj : fourPointStore.objectPts = [⟨1, 0, 0⟩, ⟨2, 0, 0⟩, ⟨1, 1, 0⟩, ⟨2, 1, 0⟩] := by
    norm_num [fourPointStore, GridMatcher.addAll, GridMatcher.add, GridMatcher.new, setFind, setInsert, setTree,
    RbTree.find, RbTree.lowerBound, RbTree.insertUnique, RbTree.descend, insertPosFree, rbFixup,
    RbTree.plug, RbTree.blacken, ComparePoint2f, truncQ]
  have h3 : fourPointStore.objectPts[3]? = some ⟨2, 1, 0⟩ := by rw [hobj]; rfl
  refine ⟨hlen, fourPointStore_calc, h3, ?_⟩
  refine (calcGridIndexes_cells fourPointStore _ hlen fourPointStore_calc).2.2 3 ⟨2, 1, 0⟩ h3 ?_
  intro k q hk hq
  rw [hobj] at hq
  match k, hk, hq with
  | 0, _, hq =>
    simp at hq; subst hq
    simp only [gridCoord, Prod.mk.injEq, ne_eq]
    norm_num [truncQ]
  | 1, _, hq =>
    simp at hq; subst hq
    simp only [gridCoord, Prod.mk.injEq, ne_eq]
    norm_num [truncQ]
  | 2, _, hq =>
    simp at hq; subst hq
    simp only [gridCoord, Prod.mk.injEq, ne_eq]
    norm_num [truncQ]
  | 3, hk, _ => exact absurd rfl hk
  | (n + 4), _, hq => simp at hq

theorem fourPointStore_eq :
    fourPointStore =
      { imagePts := [⟨10, 0⟩, ⟨20, 0⟩, ⟨10, 10⟩, ⟨20, 10⟩]
        objectPts := [⟨1, 0, 0⟩, ⟨2, 0, 0⟩, ⟨1, 1, 0⟩, ⟨2, 1, 0⟩]
        objTotals := ⟨6, 2, 0⟩
        imgTotals := ⟨60, 20⟩
        imgSet := [⟨10, 0⟩, ⟨20, 0⟩, ⟨10, 10⟩, ⟨20, 10⟩]
        vImagePts := []
        vObjectPts := []
        imgSize := ⟨20, 10⟩
        imgSep := ⟨10, 10⟩
        objSep := ⟨5, 5⟩
        gridIndexes := Mat.fill 0 0 0 } := by
  norm_num [fourPointStore, GridMatcher.addAll, GridMatcher.add, GridMatcher.new, setFind, setInsert, setTree,
    RbTree.find, RbTree.lowerBound, RbTree.insertUnique, RbTree.descend, insertPosFree, rbFixup,
    RbTree.plug, RbTree.blacken, ComparePoint2f, truncQ, Point3f.add, Point2f.add]

theorem truncQ_of_nonneg (q : ℚ) (h : 0 ≤ q) : truncQ q = ⌊q⌋ := by
  unfold truncQ
  rw [if_pos h]

/-- C8 (fails on the code): in a store of 32769 correspondences on a 2x2 lookup grid whose
last one (id 32768) has column 5, outside `[0, 2)`, `calcGridIndexes` completes without a
failed assertion: the 16-bit loop counter never reaches id 32768. -/
theorem calcGridIndexes_accepts_late_outlier :
    (∃ p ∈ (overflowStore ⟨5, 0, 0⟩).objectPts,
      ¬ ((gridCoord p).1 <
        ⌊((overflowStore ⟨5, 0, 0⟩).imgSize.width : ℚ) / (overflowStore ⟨5, 0, 0⟩).imgSep.x + 3 / 2⌋)) ∧
    (overflowStore ⟨5, 0, 0⟩).calcGridIndexes ≠ none := by
  constructor
  · refine ⟨⟨5, 0, 0⟩, ?_, ?_⟩
    · show _ ∈ List.replicate 32768 (⟨0, 0, 0⟩ : Point3f) ++ [⟨5, 0, 0⟩]
      exact List.mem_append_right _ (List.mem_singleton_self _)
    · have hw : (overflowStore ⟨5, 0, 0⟩).imgSize.width = 10 := rfl
      have hs : (overflowStore ⟨5, 0, 0⟩).imgSep.x = 10 := rfl
      rw [hw, hs]
      norm_num [gridCoord, truncQ]
  · obtain ⟨g, hg, _⟩ := overflowStore_calc ⟨5, 0, 0⟩
    rw [hg]
    exact Option.some_ne_none _

/-- C8 (amended): for a store of at most 32768 correspondences, a positive `imgSep` and a
non-negative image size, with `rows = floor(imgSize.height/imgSep.y + 1.5)` and
`cols = floor(imgSize.width/imgSep.x + 1.5)`, `calcGridIndexes` fails if and only if some
stored grid coordinate has its row outside `[0, rows)` or its column outside `[0, cols)`;
when it completes, the grid has these dimensions and every cell that holds an id holds the
id of a stored correspondence whose grid coordinate is that cell. -/
theorem calcGridIndexes_fails_iff (gm : GridMatcher) (hlen : gm.objectPts.length ≤ 32768)
    (hsx : 0 < gm.imgSep.x) (hsy : 0 < gm.imgSep.y)
    (hw : 0 ≤ gm.imgSize.width) (hh : 0 ≤ gm.imgSize.height) :
    (gm.calcGridIndexes = none ↔
      ∃ p ∈ gm.objectPts,
        ¬ (0 ≤ (gridCoord p).2 ∧ (gridCoord p).2 < ⌊(gm.imgSize.height : ℚ) / gm.imgSep.y + 3 / 2⌋ ∧
           0 ≤ (gridCoord p).1 ∧ (gridCoord p).1 < ⌊(gm.imgSize.width : ℚ) / gm.imgSep.x + 3 / 2⌋)) ∧
    (∀ gm1, gm.calcGridIndexes = some gm1 →
      (gm1.gridIndexes.rows : Int) = ⌊(gm.imgSize.height : ℚ) / gm.imgSep.y + 3 / 2⌋ ∧
      (gm1.gridIndexes.cols : Int) = ⌊(gm.imgSize.width : ℚ) / gm.imgSep.x + 3 / 2⌋ ∧
      ∀ (r c : Nat) (i : Int), r < gm1.gridIndexes.rows → c < gm1.gridIndexes.cols →
        gm1.gridIndexes.at r c = some i → i ≠ -1 →
        0 ≤ i ∧ ∃ p, gm.objectPts[i.toNat]? = some p ∧ gridCoord p = ((c : Int), (r : Int))) := by
  have hqy : (0 : ℚ) ≤ (gm.imgSize.height : ℚ) / gm.imgSep.y + 3 / 2 := by
    have : (0 : ℚ) ≤ (gm.imgSize.height : ℚ) / gm.imgSep.y :=
      div_nonneg (by exact_mod_cast hh) hsy.le
    linarith
  have hqx : (0 : ℚ) ≤ (gm.imgSize.width : ℚ) / gm.imgSep.x + 3 / 2 := by
    have : (0 : ℚ) ≤ (gm.imgSize.width : ℚ) / gm.imgSep.x :=
      div_nonneg (by exact_mod_cast hw) hsx.le
    linarith
  have hty := truncQ_of_nonneg _ hqy
  have htx := truncQ_of_nonneg _ hqx
  have hfy : 0 ≤ ⌊(gm.imgSize.height : ℚ) / gm.imgSep.y + 3 / 2⌋ := Int.floor_nonneg.mpr hqy
  have hfx : 0 ≤ ⌊(gm.imgSize.width : ℚ) / gm.imgSep.x + 3 / 2⌋ := Int.floor_nonneg.mpr hqx
  constructor
  · unfold GridMatcher.calcGridIndexes
    simp only [hty, htx, take_of_short _ hlen]
    rw [if_neg (by omega), Option.map_eq_none', gridLoop_eq_none_iff]
    simp only [Mat.fill_rows, Mat.fill_cols, inGrid, gridCoord]
    constructor
    · rintro ⟨p, hp, hnot⟩
      refine ⟨p, hp, fun hin => hnot ⟨hin.1, ?_, hin.2.2.1, ?_⟩⟩
      · have := hin.2.1; omega
      · have := hin.2.2.2; omega
    · rintro ⟨p, hp, hnot⟩
      refine ⟨p, hp, fun hin => hnot ⟨hin.1, ?_, hin.2.2.1, ?_⟩⟩
      · have := hin.2.1; omega
      · have := hin.2.2.2; omega
  · intro gm1 h
    rw [calcGridIndexes_eq_some_iff, take_of_short _ hlen, hty, htx] at h
    obtain ⟨_, _, g, hg, rfl⟩ := h
    obtain ⟨hrows, hcols⟩ := gridLoop_dims _ _ _ _ hg
    simp only [Mat.fill_rows, Mat.fill_cols] at hrows hcols
    refine ⟨?_, ?_, ?_⟩
    · simp only [hrows]; omega
    · simp only [hcols]; omega
    · intro r c i hr hc hat hi
      simp only at hr hc hat
      rw [Mat.at_natCast g r c hr hc, Option.some.injEq] at hat
      rcases gridLoop_cell_cases _ _ _ _ r c hg with h1 | ⟨j, p, hj, hp, hcell⟩
      · rw [h1] at hat
        exact absurd hat.symm hi
      · rw [hcell] at hat
        subst hat
        refine ⟨by omega, p, ?_, hp⟩
        simpa using hj

/-- The amended C8 at `fourPointStore`. -/
theorem calcGridIndexes_fails_iff_witness :
    fourPointStore.objectPts.length ≤ 32768 ∧ 0 < fourPointStore.imgSep.x ∧
    0 < fourPointStore.imgSep.y ∧ 0 ≤ fourPointStore.imgSize.width ∧
    0 ≤ fourPointStore.imgSize.height ∧
    (fourPointStore.calcGridIndexes = none ↔
      ∃ p ∈ fourPointStore.objectPts,
        ¬ (0 ≤ (gridCoord p).2 ∧
           (gridCoord p).2 < ⌊(fourPointStore.imgSize.height : ℚ) / fourPointStore.imgSep.y + 3 / 2⌋ ∧
           0 ≤ (gridCoord p).1 ∧
           (gridCoord p).1 < ⌊(fourPointStore.imgSize.width : ℚ) / fourPointStore.imgSep.x + 3 / 2⌋)) := by
  have hlen : fourPointStore.objectPts.length ≤ 32768 := by
    rw [fourPointStore_eq]; simp
  have h1 : 0 < fourPointStore.imgSep.x := by
    rw [fourPointStore_eq]; norm_num
  have h2 : 0 < fourPointStore.imgSep.y := by
    rw [fourPointStore_eq]; norm_num
  have h3 : 0 ≤ fourPointStore.imgSize.width := by
    rw [fourPointStore_eq]; norm_num
  have h4 : 0 ≤ fourPointStore.imgSize.height := by
    rw [fourPointStore_eq]; norm_num
  exact ⟨hlen, h1, h2, h3, h4, (calcGridIndexes_fails_iff fourPointStore hlen h1 h2 h3 h4).1⟩

/-! ## Sub-image windows -/

theorem subImageCell_length (gm : GridMatcher) (hgrid : IsLookupGrid gm) (row col : Int)
    (cx cy : ℚ) (r c : Nat) (acc : List Point2f × List Point3f)
    (hr0 : 0 ≤ row) (hc0 : 0 ≤ col)
    (hr : (r : Int) + row < gm.gridIndexes.rows) (hc : (c : Int) + col < gm.gridIndexes.cols) :
    ∃ acc1, subImageCell gm row col cx cy r c acc = some acc1 ∧
      acc1.1.length = acc.1.length +
        (if gm.gridIndexes.cell ((r : Int) + row).toNat ((c : Int) + col).toNat ≠ -1 then 1 else 0) ∧
      acc1.2.length = acc.2.length +
        (if gm.gridIndexes.cell ((r : Int) + row).toNat ((c : Int) + col).toNat ≠ -1 then 1 else 0) := by
  have hat : gm.gridIndexes.at ((r : Int) + row) ((c : Int) + col) =
      some (gm.gridIndexes.cell ((r : Int) + row).toNat ((c : Int) + col).toNat) := by
    unfold Mat.at
    rw [if_pos ⟨by omega, hr, by omega, hc⟩]
  unfold subImageCell
  rw [hat]
  simp only
  rcases hgrid ((r : Int) + row).toNat ((c : Int) + col).toNat (by omega) (by omega) with
    hcell | ⟨h0, h1, h2⟩
  · rw [hcell]
    simp
  · have hne : gm.gridIndexes.cell ((r : Int) + row).toNat ((c : Int) + col).toNat ≠ -1 := by
      omega
    rw [if_pos h0, List.getElem?_eq_getElem h1, List.getElem?_eq_getElem h2]
    simp [hne]

theorem subImageRow_length (gm : GridMatcher) (hgrid : IsLookupGrid gm) (row col : Int)
    (cx cy : ℚ) (r : Nat) (hr0 : 0 ≤ row) (hc0 : 0 ≤ col)
    (hr : (r : Int) + row < gm.gridIndexes.rows) (n : Nat)
    (hn : (n : Int) + col ≤ gm.gridIndexes.cols) (acc : List Point2f × List Point3f) :
    ∃ acc1, (List.range n).foldlM (fun acc c => subImageCell gm row col cx cy r c acc) acc
        = some acc1 ∧
      acc1.1.length = acc.1.length + ∑ c in Finset.range n,
        (if gm.gridIndexes.cell ((r : Int) + row).toNat ((c : Int) + col).toNat ≠ -1 then 1 else 0) ∧
      acc1.2.length = acc.2.length + ∑ c in Finset.range n,
        (if gm.gridIndexes.cell ((r : Int) + row).toNat ((c : Int) + col).toNat ≠ -1 then 1 else 0) := by
  induction n with
  | zero => exact ⟨acc, by simp⟩
  | succ n ih =>
    obtain ⟨acc1, h1, hl1, hl2⟩ := ih (by omega)
    obtain ⟨acc2, h2, hm1, hm2⟩ :=
      subImageCell_length gm hgrid row col cx cy r n acc1 hr0 hc0 hr (by omega)
    refine ⟨acc2, ?_, ?_, ?_⟩
    · rw [List.range_succ, List.foldlM_append, h1]
      simpa using h2
    · rw [hm1, hl1, Finset.sum_range_succ]; omega
    · rw [hm2, hl2, Finset.sum_range_succ]; omega

theorem subImageScan_length (gm : GridMatcher) (hgrid : IsLookupGrid gm) (row col : Int)
    (cx cy : ℚ) (rows cols : Int) (hr0 : 0 ≤ row) (hc0 : 0 ≤ col) (hrows : 0 ≤ rows)
    (hcols : 0 ≤ cols) (hr : row + rows ≤ gm.gridIndexes.rows)
    (hc : col + cols ≤ gm.gridIndexes.cols) :
    ∃ acc1, subImageScan gm row col cx cy rows cols = some acc1 ∧
      acc1.1.length = nonEmptyCount gm.gridIndexes row col rows cols ∧
      acc1.2.length = nonEmptyCount gm.gridIndexes row col rows cols := by
  have key : ∀ m : Nat, (m : Int) + row ≤ gm.gridIndexes.rows →
      ∀ acc : List Point2f × List Point3f,
      ∃ acc1, (List.range m).foldlM
          (fun acc r => (List.range cols.toNat).foldlM
            (fun acc c => subImageCell gm row col cx cy r c acc) acc) acc = some acc1 ∧
        acc1.1.length = acc.1.length + ∑ r in Finset.range m, ∑ c in Finset.range cols.toNat,
          (if gm.gridIndexes.cell ((r : Int) + row).toNat ((c : Int) + col).toNat ≠ -1
            then 1 else 0) ∧
        acc1.2.length = acc.2.length + ∑ r in Finset.range m, ∑ c in Finset.range cols.toNat,
          (if gm.gridIndexes.cell ((r : Int) + row).toNat ((c : Int) + col).toNat ≠ -1
            then 1 else 0) := by
    intro m
    induction m with
    | zero => intro _ acc; exact ⟨acc, by simp⟩
    | succ m ih =>
      intro hm acc
      obtain ⟨acc1, h1, hl1, hl2⟩ := ih (by omega) acc
      obtain ⟨acc2, h2, hm1, hm2⟩ :=
        subImageRow_length gm hgrid row col cx cy m hr0 hc0 (by omega) cols.toNat
          (by omega) acc1
      refine ⟨acc2, ?_, ?_, ?_⟩
      · rw [List.range_succ, List.foldlM_append, h1]
        simpa using h2
      · rw [hm1, hl1, Finset.sum_range_succ]; omega
      · rw [hm2, hl2, Finset.sum_range_succ]; omega
  obtain ⟨acc1, h1, hl1, hl2⟩ := key rows.toNat (by omega) ([], [])
  have hcount : nonEmptyCount gm.gridIndexes row col rows cols =
      ∑ r in Finset.range rows.toNat, ∑ c in Finset.range cols.toNat,
        (if gm.gridIndexes.cell ((r : Int) + row).toNat ((c : Int) + col).toNat ≠ -1
          then 1 else 0) := by
    unfold nonEmptyCount
    rw [Finset.card_filter, Finset.sum_product]
  refine ⟨acc1, h1, ?_, ?_⟩
  · rw [hl1, hcount]; simp
  · rw [hl2, hcount]; simp

/-- C5: for a lookup grid, a window `(row, col, rows, cols)` lying inside it and
`minPts >= 0`, `addSubImage` returns `true` and appends one subset (of as many object as image
points as there are non-empty cells in the window) exactly when that number is at least
`minPts`; otherwise it returns `false` and the store, `vObjectPts` and `vImagePts` included,
is unchanged.  So a window with `minPts - 1` non-empty cells is rejected and one with
`minPts` is accepted. -/
theorem addSubImage_accepts_iff (gm : GridMatcher) (row col rows cols minPts : Int)
    (hgrid : IsLookupGrid gm) (hr0 : 0 ≤ row) (hc0 : 0 ≤ col) (hrows : 0 ≤ rows)
    (hcols : 0 ≤ cols) (hr : row + rows ≤ gm.gridIndexes.rows)
    (hc : col + cols ≤ gm.gridIndexes.cols) (hmin : 0 ≤ minPts) :
    (∃ flag gm1, gm.addSubImage row col rows cols minPts = some (flag, gm1) ∧
      (flag = true ↔ minPts ≤ nonEmptyCount gm.gridIndexes row col rows cols)) ∧
    (minPts ≤ nonEmptyCount gm.gridIndexes row col rows cols →
      ∃ subImgPts subObjPts,
        subImgPts.length = nonEmptyCount gm.gridIndexes row col rows cols ∧
        subObjPts.length = nonEmptyCount gm.gridIndexes row col rows cols ∧
        gm.addSubImage row col rows cols minPts = some (true,
          { gm with vObjectPts := gm.vObjectPts ++ [subObjPts]
                    vImagePts := gm.vImagePts ++ [subImgPts] })) ∧
    ((nonEmptyCount gm.gridIndexes row col rows cols : Int) < minPts →
      gm.addSubImage row col rows cols minPts = some (false, gm)) := by
  obtain ⟨⟨imgs, objs⟩, hscan, hl1, hl2⟩ :=
    subImageScan_length gm hgrid row col (((cols - 1 : Int) : ℚ) / 2) (((rows - 1 : Int) : ℚ) / 2)
      rows cols hr0 hc0 hrows hcols hr hc
  simp only at hl1 hl2
  have hlt : sizeLtInt imgs.length minPts =
      decide ((nonEmptyCount gm.gridIndexes row col rows cols : Int) < minPts) := by
    unfold sizeLtInt
    rw [if_neg (by omega), hl1]
  have hrej : (nonEmptyCount gm.gridIndexes row col rows cols : Int) < minPts →
      gm.addSubImage row col rows cols minPts = some (false, gm) := by
    intro h
    unfold GridMatcher.addSubImage
    simp only [hscan, hlt, h, decide_True, if_true]
  have hacc : minPts ≤ nonEmptyCount gm.gridIndexes row col rows cols →
      gm.addSubImage row col rows cols minPts = some (true,
          { gm with vObjectPts := gm.vObjectPts ++ [objs]
                    vImagePts := gm.vImagePts ++ [imgs] }) := by
    intro h
    have h1 : ¬ ((nonEmptyCount gm.gridIndexes row col rows cols : Int) < minPts) := by omega
    unfold GridMatcher.addSubImage
    simp only [hscan, hlt, h1, decide_False]
    rfl
  refine ⟨?_, fun h => ⟨imgs, objs, hl1, hl2, hacc h⟩, hrej⟩
  by_cases h : minPts ≤ nonEmptyCount gm.gridIndexes row col rows cols
  · exact ⟨true, _, hacc h, by simp [h]⟩
  · exact ⟨false, _, hrej (by omega), by simp [h]⟩

theorem fourPointGrid_calc : fourPointStore.calcGridIndexes = some fourPointGrid :=
  fourPointStore_calc

theorem fourPointGrid_isLookupGrid : IsLookupGrid fourPointGrid := by
  intro r c hr hc
  have hr2 : r < 2 := hr
  have hc3 : c < 3 := hc
  simp only [fourPointGrid, fourPointStore_eq]
  interval_cases r <;> interval_cases c <;> simp [Mat.set, Mat.fill]

theorem fourPointGrid_count : nonEmptyCount fourPointGrid.gridIndexes 0 1 2 2 = 4 := by
  decide

/-- C5 at the window `(row 0, col 1, rows 2, cols 2)` of `fourPointGrid`, which has four
non-empty cells: rejected for `minPts = 5`, accepted for `minPts = 4`. -/
theorem addSubImage_accepts_iff_witness :
    IsLookupGrid fourPointGrid ∧
    (0 : Int) + 2 ≤ fourPointGrid.gridIndexes.rows ∧
    (1 : Int) + 2 ≤ fourPointGrid.gridIndexes.cols ∧
    nonEmptyCount fourPointGrid.gridIndexes 0 1 2 2 = 4 ∧
    fourPointGrid.addSubImage 0 1 2 2 5 = some (false, fourPointGrid) ∧
    (∃ gm1, fourPointGrid.addSubImage 0 1 2 2 4 = some (true, gm1)) := by
  have h := fun minPts hmin =>
    addSubImage_accepts_iff fourPointGrid 0 1 2 2 minPts fourPointGrid_isLookupGrid
      (by decide) (by decide) (by decide) (by decide) (by decide) (by decide) hmin
  refine ⟨fourPointGrid_isLookupGrid, by decide, by decide, fourPointGrid_count, ?_, ?_⟩
  · exact (h 5 (by decide)).2.2 (by rw [fourPointGrid_count]; decide)
  · obtain ⟨_, _, _, _, h4⟩ := (h 4 (by decide)).2.1 (by rw [fourPointGrid_count]; decide)
    exact ⟨_, h4⟩

/-- C6 (fails on the code): on the lookup grid built by `calcGridIndexes` for
`fourPointStore` (`objSep = (5, 5)`), the accepted window `(row 0, col 1, rows 2, cols 2)`
emits for its cell `(0, 0)` the object point `(5/2, -5/2, 0)`, which is
`objSep.x * (col + c - (cols-1)/2)` with the window offset `col = 1` still in it, and not
the centre-relative `objSep.x * (c - (cols-1)/2) = -5/2`. -/
theorem addSubImage_keeps_window_offset :
    fourPointStore.calcGridIndexes = some fourPointGrid ∧
    (fourPointGrid.addSubImage 0 1 2 2 4).map (fun res => (res.1, res.2.vObjectPts)) =
      some (true, [[⟨5 / 2, -5 / 2, 0⟩, ⟨15 / 2, -5 / 2, 0⟩, ⟨5 / 2, 5 / 2, 0⟩, ⟨15 / 2, 5 / 2, 0⟩]]) ∧
    fourPointGrid.objSep.x * ((0 : ℚ) - ((2 - 1 : Int) : ℚ) / 2) = -5 / 2 := by
  refine ⟨fourPointGrid_calc, ?_, ?_⟩
  · simp only [fourPointGrid, fourPointStore_eq]
    norm_num [GridMatcher.addSubImage, subImageScan, subImageCell, Mat.at, Mat.set, Mat.fill,
      List.range_succ, sizeLtInt, List.foldlM, toNat_two, toNat_three]
  · simp only [fourPointGrid, fourPointStore_eq]
    norm_num

/-! ## Rounding to `float` -/

theorem roundEven_intCast (n : Int) : roundEven (n : ℚ) = n := by
  unfold roundEven
  rw [Int.floor_intCast]
  norm_num

theorem roundToFloat_zero : roundToFloat 0 = 0 := by
  unfold roundToFloat
  rw [if_pos rfl]

theorem roundToFloat_of_mantissa (m s : Int) (hm : |m| < 2 ^ 24) (hs : -149 ≤ s) :
    roundToFloat ((m : ℚ) * (2 : ℚ) ^ s) = (m : ℚ) * (2 : ℚ) ^ s := by
  have h2 : (0 : ℚ) < 2 := by norm_num
  have hpow : ∀ k : Int, (0 : ℚ) < (2 : ℚ) ^ k := fun k => zpow_pos h2 k
  by_cases hm0 : m = 0
  · subst hm0
    simp [roundToFloat_zero]
  have hq : (m : ℚ) * (2 : ℚ) ^ s ≠ 0 :=
    mul_ne_zero (by exact_mod_cast hm0) (ne_of_gt (hpow s))
  have habs : |(m : ℚ) * (2 : ℚ) ^ s| < (2 : ℚ) ^ (s + 24) := by
    rw [abs_mul, abs_of_pos (hpow s), zpow_add₀ (ne_of_gt h2), mul_comm]
    have : |(m : ℚ)| < (2 : ℚ) ^ (24 : Int) := by
      have h3 : ((|m| : Int) : ℚ) < (((2 : Int) ^ 24 : Int) : ℚ) := by exact_mod_cast hm
      rw [Int.cast_abs] at h3
      norm_num at h3 ⊢
      exact h3
    exact mul_lt_mul_of_pos_left this (hpow s)
  have hlog : Int.log 2 |(m : ℚ) * (2 : ℚ) ^ s| < s + 24 := by
    have := (Int.lt_zpow_iff_log_lt (b := 2) (by norm_num) (abs_pos.mpr hq)).mp
      (by simpa using habs)
    exact this
  unfold roundToFloat
  rw [if_neg hq]
  generalize he : max (Int.log 2 |(m : ℚ) * (2 : ℚ) ^ s|) (-126) = e
  have hes : e ≤ s + 23 := by
    rw [← he]
    exact max_le (by omega) (by omega)
  obtain ⟨d, hd⟩ : ∃ d : Nat, (d : Int) = s + 23 - e := ⟨(s + 23 - e).toNat, by omega⟩
  have hsplit : (2 : ℚ) ^ s = (2 : ℚ) ^ (d : Int) * (2 : ℚ) ^ (e - 23) := by
    rw [← zpow_add₀ (ne_of_gt h2)]
    congr 1
    omega
  have hquot : (m : ℚ) * (2 : ℚ) ^ s / (2 : ℚ) ^ (e - 23) = ((m * 2 ^ d : Int) : ℚ) := by
    rw [hsplit, ← mul_assoc, mul_div_assoc, div_self (ne_of_gt (hpow _)), mul_one]
    push_cast
    rw [zpow_natCast]
  rw [hquot, roundEven_intCast, hsplit]
  push_cast
  rw [zpow_natCast]
  ring

theorem roundToFloat_intCast (n : Int) (h : |n| < 2 ^ 24) : roundToFloat (n : ℚ) = n := by
  have := roundToFloat_of_mantissa n 0 h (by decide)
  simpa using this

theorem roundToFloat_add_half (n : Int) (h : |n| < 2 ^ 22) :
    roundToFloat ((n : ℚ) + 1 / 2) = (n : ℚ) + 1 / 2 ∧
    roundToFloat ((n : ℚ) + -(1 / 2)) = (n : ℚ) + -(1 / 2) := by
  have hb := abs_lt.mp h
  have h1 := roundToFloat_of_mantissa (2 * n + 1) (-1) (abs_lt.mpr ⟨by omega, by omega⟩)
    (by decide)
  have h2 := roundToFloat_of_mantissa (2 * n - 1) (-1) (abs_lt.mpr ⟨by omega, by omega⟩)
    (by decide)
  have e1 : ((2 * n + 1 : Int) : ℚ) * (2 : ℚ) ^ (-1 : Int) = (n : ℚ) + 1 / 2 := by
    push_cast
    rw [zpow_neg_one]
    ring
  have e2 : ((2 * n - 1 : Int) : ℚ) * (2 : ℚ) ^ (-1 : Int) = (n : ℚ) + -(1 / 2) := by
    push_cast
    rw [zpow_neg_one]
    ring
  rw [e1] at h1
  rw [e2] at h2
  exact ⟨h1, h2⟩

/-! ## The 3x3 scenario -/

theorem sqrt_hundred : Rat.sqrt (100 : ℚ) = 10 := by
  have h : (100 : ℚ) = 10 * 10 := by norm_num
  rw [h, Rat.sqrt_eq]
  norm_num

theorem gridPoint_x_sub (x0 y0 : ℚ) (i j i1 j1 : Int) :
    (gridPoint x0 y0 i j).x - (gridPoint x0 y0 i1 j1).x = ((10 * (i - i1) : Int) : ℚ) := by
  simp only [gridPoint]; push_cast; ring

theorem gridPoint_y_sub (x0 y0 : ℚ) (i j i1 j1 : Int) :
    (gridPoint x0 y0 i j).y - (gridPoint x0 y0 i1 j1).y = ((10 * (j - j1) : Int) : ℚ) := by
  simp only [gridPoint]; push_cast; ring

theorem gridPoint_eq_iff (x0 y0 : ℚ) (i j i1 j1 : Int) :
    gridPoint x0 y0 i j = gridPoint x0 y0 i1 j1 ↔ i = i1 ∧ j = j1 := by
  simp only [gridPoint, Point2f.mk.injEq, add_right_inj]
  constructor
  · rintro ⟨h1, h2⟩
    have h1 : (i : ℚ) = i1 := by linarith
    have h2 : (j : ℚ) = j1 := by linarith
    exact ⟨by exact_mod_cast h1, by exact_mod_cast h2⟩
  · rintro ⟨rfl, rfl⟩; exact ⟨rfl, rfl⟩

theorem ComparePoint2f_gridPoint (op : CompareOp) (x0 y0 : ℚ) (i j i1 j1 : Int) :
    ComparePoint2f op (gridPoint x0 y0 i j) (gridPoint x0 y0 i1 j1) =
      match op with
      | .COMPARE_XY => decide (i < i1 ∨ (i = i1 ∧ j < j1))
      | .COMPARE_YX => decide (j < j1 ∨ (j = j1 ∧ i < i1)) := by
  cases op <;>
    simp only [ComparePoint2f, gridPoint_x_sub, gridPoint_y_sub, truncQ_intCast] <;>
    rw [decide_eq_decide] <;> split_ifs <;> omega

theorem keyEquiv_gridPoint (x0 y0 : ℚ) (i j i1 j1 : Int) :
    keyEquiv (gridPoint x0 y0 i j) (gridPoint x0 y0 i1 j1) = decide (i = i1 ∧ j = j1) := by
  simp only [keyEquiv, ComparePoint2f_gridPoint]
  by_cases h1 : i = i1 <;> by_cases h2 : j = j1 <;> simp [h1, h2] <;> omega

/-! ## The search tree of the 3x3 scenario -/

theorem setTree_grid1 (x0 y0 : ℚ) :
    setTree [gridPoint x0 y0 0 0] =
      (.node .black .leaf (gridPoint x0 y0 0 0) .leaf) := by
  show setTree ([] ++ [gridPoint x0 y0 0 0]) = _
  rw [setTree_concat, setTree_nil]
  simp [RbTree.insertUnique, RbTree.descend, insertPosFree, rbFixup, RbTree.plug,
    RbTree.blacken, ComparePoint2f_gridPoint]

theorem setTree_grid2 (x0 y0 : ℚ) :
    setTree [gridPoint x0 y0 0 0, gridPoint x0 y0 1 0] =
      (.node .black .leaf (gridPoint x0 y0 0 0) (.node .red .leaf (gridPoint x0 y0 1 0) .leaf)) := by
  show setTree ([gridPoint x0 y0 0 0] ++ [gridPoint x0 y0 1 0]) = _
  rw [setTree_concat, setTree_grid1]
  simp [RbTree.insertUnique, RbTree.descend, insertPosFree, rbFixup, RbTree.plug,
    RbTree.blacken, ComparePoint2f_gridPoint]

theorem setTree_grid3 (x0 y0 : ℚ) :
    setTree [gridPoint x0 y0 0 0, gridPoint x0 y0 1 0, gridPoint x0 y0 2 0] =
      (.node .black (.node .red .leaf (gridPoint x0 y0 0 0) .leaf) (gridPoint x0 y0 1 0) (.node .red .leaf (gridPoint x0 y0 2 0) .leaf)) := by
  show setTree ([gridPoint x0 y0 0 0, gridPoint x0 y0 1 0] ++ [gridPoint x0 y0 2 0]) = _
  rw [setTree_concat, setTree_grid2]
  simp [RbTree.insertUnique, RbTree.descend, insertPosFree, rbFixup, RbTree.plug,
    RbTree.blacken, ComparePoint2f_gridPoint]

theorem setTree_grid4 (x0 y0 : ℚ) :
    setTree [gridPoint x0 y0 0 0, gridPoint x0 y0 1 0, gridPoint x0 y0 2 0, gridPoint x0 y0 0 1] =
      (.node .black (.node .black .leaf (gridPoint x0 y0 0 0) .leaf) (gridPoint x0 y0 1 0) (.node .black .leaf (gridPoint x0 y0 2 0) (.node .red .leaf (gridPoint x0 y0 0 1) .leaf))) := by
  show setTree ([gridPoint x0 y0 0 0, gridPoint x0 y0 1 0, gridPoint x0 y0 2 0] ++ [gridPoint x0 y0 0 1]) = _
  rw [setTree_concat, setTree_grid3]
  simp [RbTree.insertUnique, RbTree.descend, insertPosFree, rbFixup, RbTree.plug,
    RbTree.blacken, ComparePoint2f_gridPoint]

theorem setTree_grid5 (x0 y0 : ℚ) :
    setTree [gridPoint x0 y0 0 0, gridPoint x0 y0 1 0, gridPoint x0 y0 2 0, gridPoint x0 y0 0 1, gridPoint x0 y0 1 1] =
      (.node .black (.node .black .leaf (gridPoint x0 y0 0 0) .leaf) (gridPoint x0 y0 1 0) (.node .black (.node .red .leaf (gridPoint x0 y0 2 0) .leaf) (gridPoint x0 y0 0 1) (.node .red .leaf (gridPoint x0 y0 1 1) .leaf))) := by
  show setTree ([gridPoint x0 y0 0 0, gridPoint x0 y0 1 0, gridPoint x0 y0 2 0, gridPoint x0 y0 0 1] ++ [gridPoint x0 y0 1 1]) = _
  rw [setTree_concat, setTree_grid4]
  simp [RbTree.insertUnique, RbTree.descend, insertPosFree, rbFixup, RbTree.plug,
    RbTree.blacken, ComparePoint2f_gridPoint]

theorem setTree_grid6 (x0 y0 : ℚ) :
    setTree [gridPoint x0 y0 0 0, gridPoint x0 y0 1 0, gridPoint x0 y0 2 0, gridPoint x0 y0 0 1, gridPoint x0 y0 1 1, gridPoint x0 y0 2 1] =
      (.node .black (.node .black .leaf (gridPoint x0 y0 0 0) .leaf) (gridPoint x0 y0 1 0) (.node .red (.node .black .leaf (gridPoint x0 y0 2 0) .leaf) (gridPoint x0 y0 0 1) (.node .black .leaf (gridPoint x0 y0 1 1) (.node .red .leaf (gridPoint x0 y0 2 1) .leaf)))) := by
  show setTree ([gridPoint x0 y0 0 0, gridPoint x0 y0 1 0, gridPoint x0 y0 2 0, gridPoint x0 y0 0 1, gridPoint x0 y0 1 1] ++ [gridPoint x0 y0 2 1]) = _
  rw [setTree_concat, setTree_grid5]
  simp [RbTree.insertUnique, RbTree.descend, insertPosFree, rbFixup, RbTree.plug,
    RbTree.blacken, ComparePoint2f_gridPoint]

theorem setTree_grid7 (x0 y0 : ℚ) :
    setTree [gridPoint x0 y0 0 0, gridPoint x0 y0 1 0, gridPoint x0 y0 2 0, gridPoint x0 y0 0 1, gridPoint x0 y0 1 1, gridPoint x0 y0 2 1, gridPoint x0 y0 0 2] =
      (.node .black (.node .black .leaf (gridPoint x0 y0 0 0) .leaf) (gridPoint x0 y0 1 0) (.node .red (.node .black .leaf (gridPoint x0 y0 2 0) .leaf) (gridPoint x0 y0 0 1) (.node .black (.node .red .leaf (gridPoint x0 y0 1 1) .leaf) (gridPoint x0 y0 2 1) (.node .red .leaf (gridPoint x0 y0 0 2) .leaf)))) := by
  show setTree ([gridPoint x0 y0 0 0, gridPoint x0 y0 1 0, gridPoint x0 y0 2 0, gridPoint x0 y0 0 1, gridPoint x0 y0 1 1, gridPoint x0 y0 2 1] ++ [gridPoint x0 y0 0 2]) = _
  rw [setTree_concat, setTree_grid6]
  simp [RbTree.insertUnique, RbTree.descend, insertPosFree, rbFixup, RbTree.plug,
    RbTree.blacken, ComparePoint2f_gridPoint]

theorem setTree_grid8 (x0 y0 : ℚ) :
    setTree [gridPoint x0 y0 0 0, gridPoint x0 y0 1 0, gridPoint x0 y0 2 0, gridPoint x0 y0 0 1, gridPoint x0 y0 1 1, gridPoint x0 y0 2 1, gridPoint x0 y0 0 2, gridPoint x0 y0 1 2] =
      (.node .black (.node .red (.node .black .leaf (gridPoint x0 y0 0 0) .leaf) (gridPoint x0 y0 1 0) (.node .black .leaf (gridPoint x0 y0 2 0) .leaf)) (gridPoint x0 y0 0 1) (.node .red (.node .black .leaf (gridPoint x0 y0 1 1) .leaf) (gridPoint x0 y0 2 1) (.node .black .leaf (gridPoint x0 y0 0 2) (.node .red .leaf (gridPoint x0 y0 1 2) .leaf)))) := by
  show setTree ([gridPoint x0 y0 0 0, gridPoint x0 y0 1 0, gridPoint x0 y0 2 0, gridPoint x0 y0 0 1, gridPoint x0 y0 1 1, gridPoint x0 y0 2 1, gridPoint x0 y0 0 2] ++ [gridPoint x0 y0 1 2]) = _
  rw [setTree_concat, setTree_grid7]
  simp [RbTree.insertUnique, RbTree.descend, insertPosFree, rbFixup, RbTree.plug,
    RbTree.blacken, ComparePoint2f_gridPoint]

theorem setTree_grid9 (x0 y0 : ℚ) :
    setTree [gridPoint x0 y0 0 0, gridPoint x0 y0 1 0, gridPoint x0 y0 2 0, gridPoint x0 y0 0 1, gridPoint x0 y0 1 1, gridPoint x0 y0 2 1, gridPoint x0 y0 0 2, gridPoint x0 y0 1 2, gridPoint x0 y0 2 2] =
      (.node .black (.node .red (.node .black .leaf (gridPoint x0 y0 0 0) .leaf) (gridPoint x0 y0 1 0) (.node .black .leaf (gridPoint x0 y0 2 0) .leaf)) (gridPoint x0 y0 0 1) (.node .red (.node .black .leaf (gridPoint x0 y0 1 1) .leaf) (gridPoint x0 y0 2 1) (.node .black (.node .red .leaf (gridPoint x0 y0 0 2) .leaf) (gridPoint x0 y0 1 2) (.node .red .leaf (gridPoint x0 y0 2 2) .leaf)))) := by
  show setTree ([gridPoint x0 y0 0 0, gridPoint x0 y0 1 0, gridPoint x0 y0 2 0, gridPoint x0 y0 0 1, gridPoint x0 y0 1 1, gridPoint x0 y0 2 1, gridPoint x0 y0 0 2, gridPoint x0 y0 1 2] ++ [gridPoint x0 y0 2 2]) = _
  rw [setTree_concat, setTree_grid8]
  simp [RbTree.insertUnique, RbTree.descend, insertPosFree, rbFixup, RbTree.plug,
    RbTree.blacken, ComparePoint2f_gridPoint]

theorem setFind_grid0 (x0 y0 : ℚ) :
    setFind [] (gridPoint x0 y0 0 0) = false := by
  rfl

theorem setInsert_grid0 (x0 y0 : ℚ) :
    setInsert [] (gridPoint x0 y0 0 0) =
      [gridPoint x0 y0 0 0] := by
  rfl

theorem setFind_grid1 (x0 y0 : ℚ) :
    setFind [gridPoint x0 y0 0 0] (gridPoint x0 y0 1 0) = false := by
  rw [setFind, setTree_grid1]
  simp [RbTree.find, RbTree.lowerBound, ComparePoint2f_gridPoint]

theorem setInsert_grid1 (x0 y0 : ℚ) :
    setInsert [gridPoint x0 y0 0 0] (gridPoint x0 y0 1 0) =
      [gridPoint x0 y0 0 0, gridPoint x0 y0 1 0] := by
  rw [setInsert, setTree_grid1]
  simp [RbTree.insertUnique, RbTree.descend, insertPosFree, ComparePoint2f_gridPoint]

theorem setFind_grid2 (x0 y0 : ℚ) :
    setFind [gridPoint x0 y0 0 0, gridPoint x0 y0 1 0] (gridPoint x0 y0 2 0) = false := by
  rw [setFind, setTree_grid2]
  simp [RbTree.find, RbTree.lowerBound, ComparePoint2f_gridPoint]

theorem setInsert_grid2 (x0 y0 : ℚ) :
    setInsert [gridPoint x0 y0 0 0, gridPoint x0 y0 1 0] (gridPoint x0 y0 2 0) =
      [gridPoint x0 y0 0 0, gridPoint x0 y0 1 0, gridPoint x0 y0 2 0] := by
  rw [setInsert, setTree_grid2]
  simp [RbTree.insertUnique, RbTree.descend, insertPosFree, ComparePoint2f_gridPoint]

theorem setFind_grid3 (x0 y0 : ℚ) :
    setFind [gridPoint x0 y0 0 0, gridPoint x0 y0 1 0, gridPoint x0 y0 2 0] (gridPoint x0 y0 0 1) = false := by
  rw [setFind, setTree_grid3]
  simp [RbTree.find, RbTree.lowerBound, ComparePoint2f_gridPoint]

theorem setInsert_grid3 (x0 y0 : ℚ) :
    setInsert [gridPoint x0 y0 0 0, gridPoint x0 y0 1 0, gridPoint x0 y0 2 0] (gridPoint x0 y0 0 1) =
      [gridPoint x0 y0 0 0, gridPoint x0 y0 1 0, gridPoint x0 y0 2 0, gridPoint x0 y0 0 1] := by
  rw [setInsert, setTree_grid3]
  simp [RbTree.insertUnique, RbTree.descend, insertPosFree, ComparePoint2f_gridPoint]

theorem setFind_grid4 (x0 y0 : ℚ) :
    setFind [gridPoint x0 y0 0 0, gridPoint x0 y0 1 0, gridPoint x0 y0 2 0, gridPoint x0 y0 0 1] (gridPoint x0 y0 1 1) = false := by
  rw [setFind, setTree_grid4]
  simp [RbTree.find, RbTree.lowerBound, ComparePoint2f_gridPoint]

theorem setInsert_grid4 (x0 y0 : ℚ) :
    setInsert [gridPoint x0 y0 0 0, gridPoint x0 y0 1 0, gridPoint x0 y0 2 0, gridPoint x0 y0 0 1] (gridPoint x0 y0 1 1) =
      [gridPoint x0 y0 0 0, gridPoint x0 y0 1 0, gridPoint x0 y0 2 0, gridPoint x0 y0 0 1, gridPoint x0 y0 1 1] := by
  rw [setInsert, setTree_grid4]
  simp [RbTree.insertUnique, RbTree.descend, insertPosFree, ComparePoint2f_gridPoint]

theorem setFind_grid5 (x0 y0 : ℚ) :
    setFind [gridPoint x0 y0 0 0, gridPoint x0 y0 1 0, gridPoint x0 y0 2 0, gridPoint x0 y0 0 1, gridPoint x0 y0 1 1] (gridPoint x0 y0 2 1) = false := by
  rw [setFind, setTree_grid5]
  simp [RbTree.find, RbTree.lowerBound, ComparePoint2f_gridPoint]

theorem setInsert_grid5 (x0 y0 : ℚ) :
    setInsert [gridPoint x0 y0 0 0, gridPoint x0 y0 1 0, gridPoint x0 y0 2 0, gridPoint x0 y0 0 1, gridPoint x0 y0 1 1] (gridPoint x0 y0 2 1) =
      [gridPoint x0 y0 0 0, gridPoint x0 y0 1 0, gridPoint x0 y0 2 0, gridPoint x0 y0 0 1, gridPoint x0 y0 1 1, gridPoint x0 y0 2 1] := by
  rw [setInsert, setTree_grid5]
  simp [RbTree.insertUnique, RbTree.descend, insertPosFree, ComparePoint2f_gridPoint]

theorem setFind_grid6 (x0 y0 : ℚ) :
    setFind [gridPoint x0 y0 0 0, gridPoint x0 y0 1 0, gridPoint x0 y0 2 0, gridPoint x0 y0 0 1, gridPoint x0 y0 1 1, gridPoint x0 y0 2 1] (gridPoint x0 y0 0 2) = false := by
  rw [setFind, setTree_grid6]
  simp [RbTree.find, RbTree.lowerBound, ComparePoint2f_gridPoint]

theorem setInsert_grid6 (x0 y0 : ℚ) :
    setInsert [gridPoint x0 y0 0 0, gridPoint x0 y0 1 0, gridPoint x0 y0 2 0, gridPoint x0 y0 0 1, gridPoint x0 y0 1 1, gridPoint x0 y0 2 1] (gridPoint x0 y0 0 2) =
      [gridPoint x0 y0 0 0, gridPoint x0 y0 1 0, gridPoint x0 y0 2 0, gridPoint x0 y0 0 1, gridPoint x0 y0 1 1, gridPoint x0 y0 2 1, gridPoint x0 y0 0 2] := by
  rw [setInsert, setTree_grid6]
  simp [RbTree.insertUnique, RbTree.descend, insertPosFree, ComparePoint2f_gridPoint]

theorem setFind_grid7 (x0 y0 : ℚ) :
    setFind [gridPoint x0 y0 0 0, gridPoint x0 y0 1 0, gridPoint x0 y0 2 0, gridPoint x0 y0 0 1, gridPoint x0 y0 1 1, gridPoint x0 y0 2 1, gridPoint x0 y0 0 2] (gridPoint x0 y0 1 2) = false := by
  rw [setFind, setTree_grid7]
  simp [RbTree.find, RbTree.lowerBound, ComparePoint2f_gridPoint]

theorem setInsert_grid7 (x0 y0 : ℚ) :
    setInsert [gridPoint x0 y0 0 0, gridPoint x0 y0 1 0, gridPoint x0 y0 2 0, gridPoint x0 y0 0 1, gridPoint x0 y0 1 1, gridPoint x0 y0 2 1, gridPoint x0 y0 0 2] (gridPoint x0 y0 1 2) =
      [gridPoint x0 y0 0 0, gridPoint x0 y0 1 0, gridPoint x0 y0 2 0, gridPoint x0 y0 0 1, gridPoint x0 y0 1 1, gridPoint x0 y0 2 1, gridPoint x0 y0 0 2, gridPoint x0 y0 1 2] := by
  rw [setInsert, setTree_grid7]
  simp [RbTree.insertUnique, RbTree.descend, insertPosFree, ComparePoint2f_gridPoint]

theorem setFind_grid8 (x0 y0 : ℚ) :
    setFind [gridPoint x0 y0 0 0, gridPoint x0 y0 1 0, gridPoint x0 y0 2 0, gridPoint x0 y0 0 1, gridPoint x0 y0 1 1, gridPoint x0 y0 2 1, gridPoint x0 y0 0 2, gridPoint x0 y0 1 2] (gridPoint x0 y0 2 2) = false := by
  rw [setFind, setTree_grid8]
  simp [RbTree.find, RbTree.lowerBound, ComparePoint2f_gridPoint]

theorem setInsert_grid8 (x0 y0 : ℚ) :
    setInsert [gridPoint x0 y0 0 0, gridPoint x0 y0 1 0, gridPoint x0 y0 2 0, gridPoint x0 y0 0 1, gridPoint x0 y0 1 1, gridPoint x0 y0 2 1, gridPoint x0 y0 0 2, gridPoint x0 y0 1 2] (gridPoint x0 y0 2 2) =
      [gridPoint x0 y0 0 0, gridPoint x0 y0 1 0, gridPoint x0 y0 2 0, gridPoint x0 y0 0 1, gridPoint x0 y0 1 1, gridPoint x0 y0 2 1, gridPoint x0 y0 0 2, gridPoint x0 y0 1 2, gridPoint x0 y0 2 2] := by
  rw [setInsert, setTree_grid8]
  simp [RbTree.insertUnique, RbTree.descend, insertPosFree, ComparePoint2f_gridPoint]

theorem setFind_grid9 (x0 y0 : ℚ) (i j : Int) :
    setFind [gridPoint x0 y0 0 0, gridPoint x0 y0 1 0, gridPoint x0 y0 2 0, gridPoint x0 y0 0 1, gridPoint x0 y0 1 1, gridPoint x0 y0 2 1, gridPoint x0 y0 0 2, gridPoint x0 y0 1 2, gridPoint x0 y0 2 2] (gridPoint x0 y0 i j) =
      decide (0 ≤ i ∧ i ≤ 2 ∧ 0 ≤ j ∧ j ≤ 2) := by
  rw [setFind, setTree_grid9]
  simp only [RbTree.find, RbTree.lowerBound, ComparePoint2f_gridPoint, Bool.not_eq_true',
    decide_eq_false_iff_not, decide_eq_true_eq]
  split_ifs <;>
    first
    | (simp only [Bool.false_eq, decide_eq_false_iff_not]; omega)
    | (simp only [ComparePoint2f_gridPoint, ← decide_not, decide_eq_decide]; omega)

/-! ## The walks of the 3x3 scenario -/

theorem truncQ_round_int (n : Int) :
    truncQ ((n : ℚ) + (if (n : ℚ) < 0 then -(1 / 2) else 1 / 2)) = n := by
  by_cases h : (n : ℚ) < 0
  · rw [if_pos h]
    have hn : n < 0 := by exact_mod_cast h
    have h1 : ¬ (0 : ℚ) ≤ (n : ℚ) + -(1 / 2) := by linarith
    unfold truncQ
    rw [if_neg h1]
    have : ⌊-((n : ℚ) + -(1 / 2))⌋ = -n := by
      rw [Int.floor_eq_iff]
      push_cast
      constructor <;> linarith
    rw [this]; ring
  · rw [if_neg h]
    have h1 : (0 : ℚ) ≤ (n : ℚ) + 1 / 2 := by linarith
    unfold truncQ
    rw [if_pos h1, Int.floor_eq_iff]
    constructor <;> linarith

theorem calcObjPointDiff_gridPoint (x0 y0 : ℚ) (i j i1 j1 : Int)
    (hi : -1000 < i - i1 ∧ i - i1 < 1000) (hj : -1000 < j - j1 ∧ j - j1 < 1000) :
    calcObjPointDiff (gridPoint x0 y0 i j) (gridPoint x0 y0 i1 j1) ⟨10, 10⟩ =
      ⟨((i - i1 : Int) : ℚ), ((j - j1 : Int) : ℚ), 0⟩ := by
  have key : ∀ k : Int, -1000 < k ∧ k < 1000 →
      truncQ (roundToFloat (roundToFloat (roundToFloat (((10 * k : Int) : ℚ)) / 10) +
        (if roundToFloat (roundToFloat (((10 * k : Int) : ℚ)) / 10) < 0 then -(1 / 2)
          else 1 / 2))) = k := by
    intro k hk
    have h1 : roundToFloat (((10 * k : Int) : ℚ)) = ((10 * k : Int) : ℚ) :=
      roundToFloat_intCast _ (abs_lt.mpr ⟨by omega, by omega⟩)
    have h2 : (((10 * k : Int) : ℚ)) / 10 = (k : ℚ) := by push_cast; ring
    have h3 : roundToFloat (k : ℚ) = k :=
      roundToFloat_intCast _ (abs_lt.mpr ⟨by omega, by omega⟩)
    obtain ⟨h4, h5⟩ := roundToFloat_add_half k (abs_lt.mpr ⟨by omega, by omega⟩)
    rw [h1, h2, h3]
    have h6 : roundToFloat ((k : ℚ) + (if (k : ℚ) < 0 then -(1 / 2) else 1 / 2)) =
        (k : ℚ) + (if (k : ℚ) < 0 then -(1 / 2) else 1 / 2) := by
      split_ifs
      · exact h5
      · exact h4
    rw [h6, truncQ_round_int]
  simp only [calcObjPointDiff, gridPoint_x_sub, gridPoint_y_sub, key _ hi, key _ hj]

theorem truncQ_gridPoint_x_sub (x0 y0 : ℚ) (i j i1 j1 : Int) :
    truncQ ((gridPoint x0 y0 i j).x - (gridPoint x0 y0 i1 j1).x) = 10 * (i - i1) := by
  rw [gridPoint_x_sub, truncQ_intCast]

theorem truncQ_gridPoint_y_sub (x0 y0 : ℚ) (i j i1 j1 : Int) :
    truncQ ((gridPoint x0 y0 i j).y - (gridPoint x0 y0 i1 j1).y) = 10 * (j - j1) := by
  rw [gridPoint_y_sub, truncQ_intCast]

theorem window_3x3 (d : Int) :
    ((-27 / 2 : ℚ) ≤ ((10 * d : Int) : ℚ) ∧ ((10 * d : Int) : ℚ) ≤ -13 / 2) ↔ d = -1 := by
  constructor
  · rintro ⟨h1, h2⟩
    push_cast at h1 h2
    have h3 : (-2 : ℚ) < d := by linarith
    have h4 : (d : ℚ) < 0 := by linarith
    have h5 : -2 < d := by exact_mod_cast h3
    have h6 : d < 0 := by exact_mod_cast h4
    omega
  · rintro rfl
    norm_num

theorem point3f_add_cast (a b c d : Int) (z : ℚ) :
    Point3f.add ⟨(a : ℚ), (b : ℚ), z⟩ ⟨(c : ℚ), (d : ℚ), 0⟩ =
      ⟨((a + c : Int) : ℚ), ((b + d : Int) : ℚ), z⟩ := by
  simp [Point3f.add]

theorem walk_x_3x3 (imgSize : Size) (x0 y0 m1 m2 : ℚ) (sep : Point2f) (hm1 : m1 = -27 / 2)
    (hm2 : m2 = -13 / 2) (hsep : sep = ⟨10, 10⟩) :
    walkLoop (fun p => p.x) m1 m2 sep
      ⟨GridMatcher.new imgSize sep ⟨5, 5⟩, ⟨0, 0⟩, ⟨0, 0, 0⟩⟩ (gridPoint x0 y0 0 0)
      [gridPoint x0 y0 1 0, gridPoint x0 y0 2 0,
       gridPoint x0 y0 0 1, gridPoint x0 y0 1 1, gridPoint x0 y0 2 1,
       gridPoint x0 y0 0 2, gridPoint x0 y0 1 2, gridPoint x0 y0 2 2] =
    ⟨(GridMatcher.new imgSize ⟨10, 10⟩ ⟨5, 5⟩).addAll
        (grid3x3Correspondences x0 y0 (truncQ ((gridPoint x0 y0 0 0).x / 10 + 1 / 2))
          (truncQ ((gridPoint x0 y0 0 0).y / 10 + 1 / 2))),
      gridPoint x0 y0 2 2,
      ⟨((truncQ ((gridPoint x0 y0 0 0).x / 10 + 1 / 2) + 2 : Int) : ℚ),
       ((truncQ ((gridPoint x0 y0 0 0).y / 10 + 1 / 2) + 2 : Int) : ℚ), 0⟩⟩ := by
  subst hm1 hm2 hsep
  simp only [walkLoop, walkStep, truncQ_gridPoint_x_sub, window_3x3, GridMatcher.new,
    GridMatcher.add, GridMatcher.addAll, grid3x3Correspondences, List.map_cons, List.map_nil,
    List.foldl_cons, List.foldl_nil,
    setFind_grid0, setFind_grid1, setFind_grid2, setFind_grid3, setFind_grid4, setFind_grid5,
    setFind_grid6, setFind_grid7, setFind_grid8, setInsert_grid0, setInsert_grid1,
    setInsert_grid2, setInsert_grid3, setInsert_grid4, setInsert_grid5, setInsert_grid6,
    setInsert_grid7, setInsert_grid8, calcObjPointDiff_gridPoint, gridPoint_eq_iff,
    point3f_add_cast, Int.reduceSub, Int.reduceAdd, Int.reduceNeg, Int.reduceEq, Int.reduceLT,
    and_self,
    List.length_nil, List.length_cons, List.any_nil, List.any_cons,
    if_true, if_false, Bool.false_eq_true, decide_True, decide_False, and_true, and_false,
    true_and, false_and, List.nil_append, List.cons_append, Bool.or_false, Bool.or_true,
    Bool.false_or, Bool.true_or, ne_eq, not_true_eq_false, not_false_eq_true,
    Nat.succ_ne_zero, reduceCtorEq, add_zero, zero_add, Int.add_assoc, Nat.reduceAdd,
    OfNat.ofNat_ne_zero, Nat.reduceEqDiff]

theorem walk_y_3x3 (gm : GridMatcher) (x0 y0 m1 m2 : ℚ) (a b : Int) (sep : Point2f)
    (hm1 : m1 = -27 / 2) (hm2 : m2 = -13 / 2) (hsep : sep = ⟨10, 10⟩)
    (hset : gm.imgSet = grid3x3 x0 y0) (hlen : gm.imagePts.length = 9) :
    walkLoop (fun p => p.y) m1 m2 sep
      ⟨gm, gridPoint x0 y0 2 2, ⟨((a + 2 : Int) : ℚ), ((b + 2 : Int) : ℚ), 0⟩⟩
      (gridPoint x0 y0 0 0)
      [gridPoint x0 y0 0 1, gridPoint x0 y0 0 2,
       gridPoint x0 y0 1 0, gridPoint x0 y0 1 1, gridPoint x0 y0 1 2,
       gridPoint x0 y0 2 0, gridPoint x0 y0 2 1, gridPoint x0 y0 2 2] =
    ⟨gm, gridPoint x0 y0 2 2, ⟨((a + 2 : Int) : ℚ), ((b + 2 : Int) : ℚ), 0⟩⟩ := by
  subst hm1 hm2 hsep
  simp only [walkLoop, walkStep, truncQ_gridPoint_y_sub, window_3x3, hset, hlen, grid3x3,
    GridMatcher.add,
    setFind_grid9, Int.reduceLE, decide_True, calcObjPointDiff_gridPoint, gridPoint_eq_iff,
    point3f_add_cast, Int.reduceSub, Int.reduceAdd, Int.reduceNeg, Int.reduceEq, Int.reduceLT,
    and_self,
    List.length_nil, List.length_cons, List.any_nil, List.any_cons,
    if_true, if_false, Bool.false_eq_true, decide_True, decide_False, and_true, and_false,
    true_and, false_and, List.nil_append, List.cons_append, Bool.or_false, Bool.or_true,
    Bool.false_or, Bool.true_or, ne_eq, not_true_eq_false, not_false_eq_true,
    Nat.succ_ne_zero, reduceCtorEq, add_zero, zero_add, Int.add_assoc, Nat.reduceAdd,
    OfNat.ofNat_ne_zero, Nat.reduceEqDiff]

theorem orderedInsert_middle {α : Type} (r : α → α → Prop) [DecidableRel r] (a : α)
    (s u : List α) (hs : ∀ b ∈ s, ¬ r a b) (hu : ∀ c ∈ u, r a c) :
    List.orderedInsert r a (s ++ u) = s ++ a :: u := by
  induction s with
  | nil =>
    cases u with
    | nil => rfl
    | cons c u =>
      simp only [List.nil_append, List.orderedInsert]
      rw [if_pos (hu c (List.mem_cons_self _ _))]
  | cons b s ih =>
    rw [List.cons_append, List.orderedInsert, if_neg (hs b (List.mem_cons_self _ _)),
      ih (fun b1 hb1 => hs b1 (List.mem_cons_of_mem _ hb1)), List.cons_append]

theorem insertionSort_eq_of_perm {α : Type} (r : α → α → Prop) [DecidableRel r]
    (hasym : ∀ a b, r a b → ¬ r b a) (l target : List α) (hp : l.Perm target)
    (hs : target.Pairwise r) : l.insertionSort r = target := by
  induction l generalizing target with
  | nil =>
    have ht : target = [] := hp.symm.eq_nil
    subst ht
    rfl
  | cons a l ih =>
    have ha : a ∈ target := hp.subset (List.mem_cons_self _ _)
    obtain ⟨s, u, rfl⟩ := List.append_of_mem ha
    have hp1 : l.Perm (s ++ u) := (hp.trans List.perm_middle).cons_inv
    have hs1 : (s ++ u).Pairwise r := by
      rw [List.pairwise_append] at hs ⊢
      refine ⟨hs.1, (List.pairwise_cons.mp hs.2.1).2, fun x hx y hy => hs.2.2 x hx y ?_⟩
      exact List.mem_cons_of_mem _ hy
    rw [List.insertionSort, ih (s ++ u) hp1 hs1]
    apply orderedInsert_middle
    · intro b hb
      rw [List.pairwise_append] at hs
      exact hasym _ _ (hs.2.2 b hb a (List.mem_cons_self _ _))
    · intro c hc
      rw [List.pairwise_append] at hs
      exact (List.pairwise_cons.mp hs.2.1).1 c hc

theorem sortPoints_eq_of_perm (op : CompareOp) (l target : List Point2f) (hp : l.Perm target)
    (hs : target.Pairwise (fun a b => ComparePoint2f op a b = true)) :
    sortPoints op l = target := by
  apply insertionSort_eq_of_perm _ _ l target hp hs
  intro a b hab hba
  rw [ComparePoint2f_asymm op a b hab] at hba
  exact absurd hba (by simp)

theorem grid3x3_sorted_YX (x0 y0 : ℚ) :
    (grid3x3 x0 y0).Pairwise (fun a b => ComparePoint2f .COMPARE_YX a b = true) := by
  simp [grid3x3, ComparePoint2f_gridPoint]

theorem grid3x3XY_sorted_XY (x0 y0 : ℚ) :
    (grid3x3XY x0 y0).Pairwise (fun a b => ComparePoint2f .COMPARE_XY a b = true) := by
  simp [grid3x3XY, ComparePoint2f_gridPoint]

theorem grid3x3XY_perm (x0 y0 : ℚ) : (grid3x3 x0 y0).Perm (grid3x3XY x0 y0) := by
  apply List.perm_of_nodup_nodup_toFinset_eq
  · simp [grid3x3, gridPoint_eq_iff]
  · simp [grid3x3XY, gridPoint_eq_iff]
  · ext p
    simp only [grid3x3, grid3x3XY, List.toFinset_cons, List.toFinset_nil, Finset.mem_insert,
      Finset.mem_singleton, insert_emptyc_eq]
    tauto
theorem identifyAxis_unfold (coord : Point2f → ℚ) (msg1 msg2 : String) (points : List Point2f)
    (tot1 tot2 : Point2f) (count1 count2 : Int) (tolerance : ℚ) (sep : Int) (grid : ℚ)
    (dMedian : ℚ) (acc : SpacingAcc)
    (hmed : ((adjacentDeltas coord points).insertionSort (fun a b => a ≤ b))[
      ((adjacentDeltas coord points).insertionSort (fun a b => a ≤ b)).length / 2]? = some dMedian)
    (hacc : points.foldl
      (spacingStep coord
        (dMedian * (if dMedian < 0 then 1 + tolerance else 1 - tolerance))
        (dMedian * (if dMedian < 0 then 1 - tolerance else 1 + tolerance))
        (2 * dMedian * (if dMedian < 0 then 1 + tolerance else 1 - tolerance))
        (2 * dMedian * (if dMedian < 0 then 1 - tolerance else 1 + tolerance)))
      ⟨⟨0, 0⟩, ⟨0, 0⟩, 0, tot1, tot2, count1, count2⟩ = acc) :
    identifyAxis coord msg1 msg2 points tot1 tot2 count1 count2 tolerance sep grid =
      if acc.count1 = 0 then
        some ⟨msg1, dMedian, acc.tot1, acc.tot2, acc.count1, acc.count2, grid⟩
      else if acc.count2 = 0 then
        some ⟨msg2, dMedian, acc.tot1, acc.tot2, acc.count1, acc.count2, grid⟩
      else
        some ⟨"", dMedian, acc.tot1, acc.tot2, acc.count1, acc.count2,
          Rat.sqrt (acc.tot2.x / acc.count2 / 2 * (acc.tot2.x / acc.count2 / 2) +
            acc.tot2.y / acc.count2 / 2 * (acc.tot2.y / acc.count2 / 2)) / sep⟩ := by
  unfold identifyAxis
  simp only [hmed, hacc]

theorem sorted_deltas_3x3 :
    ([-10, -10, 20, -10, -10, 20, -10, -10] : List ℚ).insertionSort (fun a b => a ≤ b) =
      [-10, -10, -10, -10, -10, -10, 20, 20] := by
  norm_num [List.insertionSort, List.orderedInsert]

theorem identifyColumns_3x3 (x0 y0 : ℚ) :
    identifyColumns (grid3x3 x0 y0) ⟨0, 0⟩ ⟨0, 0⟩ 0 0 (7 / 20) 5 FLT_MAX =
      some ⟨"", -10, ⟨-60, 0⟩, ⟨-60, 0⟩, 6, 3, 2⟩ := by
  have hd : adjacentDeltas (fun p => p.x) (grid3x3 x0 y0) =
      [-10, -10, 20, -10, -10, 20, -10, -10] := by
    norm_num [grid3x3, gridPoint, adjacentDeltas]
  unfold identifyColumns
  rw [identifyAxis_unfold _ _ _ _ _ _ _ _ _ _ _ (-10)
    ⟨gridPoint x0 y0 2 2, gridPoint x0 y0 1 2, 9, ⟨-60, 0⟩, ⟨-60, 0⟩, 6, 3⟩]
  · norm_num [sqrt_hundred]
  · rw [hd, sorted_deltas_3x3]
    rfl
  · norm_num [grid3x3, gridPoint, spacingStep, truncQ, Point2f.add, Point2f.sub]

theorem identifyRows_3x3 (x0 y0 : ℚ) :
    identifyRows (grid3x3XY x0 y0) ⟨0, 0⟩ ⟨0, 0⟩ 0 0 (7 / 20) 5 FLT_MAX =
      some ⟨"", -10, ⟨0, -60⟩, ⟨0, -60⟩, 6, 3, 2⟩ := by
  have hd : adjacentDeltas (fun p => p.y) (grid3x3XY x0 y0) =
      [-10, -10, 20, -10, -10, 20, -10, -10] := by
    norm_num [grid3x3XY, gridPoint, adjacentDeltas]
  unfold identifyRows
  rw [identifyAxis_unfold _ _ _ _ _ _ _ _ _ _ _ (-10)
    ⟨gridPoint x0 y0 2 2, gridPoint x0 y0 2 1, 9, ⟨0, -60⟩, ⟨0, -60⟩, 6, 3⟩]
  · norm_num [sqrt_hundred]
  · rw [hd, sorted_deltas_3x3]
    rfl
  · norm_num [grid3x3XY, gridPoint, spacingStep, truncQ, Point2f.add, Point2f.sub]
theorem isEmpty_literal_empty : "".isEmpty = true := by decide

theorem addAll_grid3x3_fields (imgSize : Size) (x0 y0 : ℚ) (a b : Int) :
    ((GridMatcher.new imgSize ⟨10, 10⟩ ⟨5, 5⟩).addAll (grid3x3Correspondences x0 y0 a b)).imgSet
      = grid3x3 x0 y0 ∧
    ((GridMatcher.new imgSize ⟨10, 10⟩ ⟨5, 5⟩).addAll (grid3x3Correspondences x0 y0 a b)).imagePts
      = (grid3x3Correspondences x0 y0 a b).map Prod.fst ∧
    ((GridMatcher.new imgSize ⟨10, 10⟩ ⟨5, 5⟩).addAll (grid3x3Correspondences x0 y0 a b)).objectPts
      = (grid3x3Correspondences x0 y0 a b).map Prod.snd ∧
    ((GridMatcher.new imgSize ⟨10, 10⟩ ⟨5, 5⟩).addAll (grid3x3Correspondences x0 y0 a b)).imgSep
      = ⟨10, 10⟩ := by
  simp [GridMatcher.new, GridMatcher.add, GridMatcher.addAll, grid3x3Correspondences, grid3x3,
    setFind_grid0, setFind_grid1, setFind_grid2, setFind_grid3, setFind_grid4, setFind_grid5,
    setFind_grid6, setFind_grid7, setFind_grid8, setInsert_grid0, setInsert_grid1,
    setInsert_grid2, setInsert_grid3, setInsert_grid4, setInsert_grid5, setInsert_grid6,
    setInsert_grid7, setInsert_grid8]

theorem truncQ_nonneg_of_nonneg (q : ℚ) (h : 0 ≤ q) : 0 ≤ truncQ q := by
  rw [truncQ_of_nonneg q h]
  exact Int.floor_nonneg.mpr h

/-- C1: for every origin `(x0, y0)` with non-negative coordinates and the nine points
`(x0 + 10 i, y0 + 10 j)`, `i, j` in `0..2`, given in any order, with tolerance 0.35 and
`sepX = sepY = 5`: both spacing estimators succeed (median -10, grid scale 2), so
`imgSep = (10, 10)`, and the two walks of `apply_matchGrid` leave a store of exactly nine
correspondences, the point `(x0 + 10 i, y0 + 10 j)` with the grid coordinate
`(a + i, b + j, 0)` for the one integer translation `a = floor(x0/10 + 1/2)`,
`b = floor(y0/10 + 1/2)`. -/
theorem matchGrid_3x3 (x0 y0 : ℚ) (hx : 0 ≤ x0) (hy : 0 ≤ y0) (imgSize : Size)
    (pts : List Point2f) (hp : pts.Perm (grid3x3 x0 y0)) :
    ∃ (a b : Int) (gm : GridMatcher),
      a = ⌊x0 / 10 + 1 / 2⌋ ∧ b = ⌊y0 / 10 + 1 / 2⌋ ∧ 0 ≤ a ∧ 0 ≤ b ∧
      identifyColumns (initializePointMaps (pts.map some)).2 ⟨0, 0⟩ ⟨0, 0⟩ 0 0 (7 / 20) 5 FLT_MAX
        = some ⟨"", -10, ⟨-60, 0⟩, ⟨-60, 0⟩, 6, 3, 2⟩ ∧
      identifyRows (initializePointMaps (pts.map some)).1 ⟨0, 0⟩ ⟨0, 0⟩ 0 0 (7 / 20) 5 FLT_MAX
        = some ⟨"", -10, ⟨0, -60⟩, ⟨0, -60⟩, 6, 3, 2⟩ ∧
      apply_matchGrid imgSize ⟨5, 5⟩ (7 / 20) (pts.map some) = some (.ok gm) ∧
      gm.imgSep = ⟨10, 10⟩ ∧ gm.size = 9 ∧
      gm.imagePts.zip gm.objectPts = grid3x3Correspondences x0 y0 a b := by
  have hfm : (pts.map some).filterMap id = pts := by
    rw [List.filterMap_map]
    simp
  have hYX : sortPoints .COMPARE_YX pts = grid3x3 x0 y0 :=
    sortPoints_eq_of_perm _ _ _ hp (grid3x3_sorted_YX x0 y0)
  have hXY : sortPoints .COMPARE_XY pts = grid3x3XY x0 y0 :=
    sortPoints_eq_of_perm _ _ _ (hp.trans (grid3x3XY_perm x0 y0)) (grid3x3XY_sorted_XY x0 y0)
  have hinit : initializePointMaps (pts.map some) = (grid3x3XY x0 y0, grid3x3 x0 y0) := by
    simp only [initializePointMaps, hfm, hXY, hYX]
  have hlen : ¬ (pts.map some).length < 2 := by
    rw [List.length_map, hp.length_eq]
    simp [grid3x3]
  have hqx : (0 : ℚ) ≤ x0 / 10 + 1 / 2 := by positivity
  have hqy : (0 : ℚ) ≤ y0 / 10 + 1 / 2 := by positivity
  have hgx : (gridPoint x0 y0 0 0).x = x0 := by simp [gridPoint]
  have hgy : (gridPoint x0 y0 0 0).y = y0 := by simp [gridPoint]
  obtain ⟨h1, h2, h3, h4⟩ :=
    addAll_grid3x3_fields imgSize x0 y0 (truncQ (x0 / 10 + 1 / 2)) (truncQ (y0 / 10 + 1 / 2))
  refine ⟨truncQ (x0 / 10 + 1 / 2), truncQ (y0 / 10 + 1 / 2),
    (GridMatcher.new imgSize ⟨10, 10⟩ ⟨5, 5⟩).addAll
      (grid3x3Correspondences x0 y0 (truncQ (x0 / 10 + 1 / 2)) (truncQ (y0 / 10 + 1 / 2))),
    truncQ_of_nonneg _ hqx, truncQ_of_nonneg _ hqy, truncQ_nonneg_of_nonneg _ hqx,
    truncQ_nonneg_of_nonneg _ hqy, ?_, ?_, ?_, h4, ?_, ?_⟩
  · rw [hinit]; exact identifyColumns_3x3 x0 y0
  · rw [hinit]; exact identifyRows_3x3 x0 y0
  · have h5 : truncQ (5 : ℚ) = 5 := by norm_num [truncQ]
    have hw1 := fun m1 m2 sep h1 h2 h3 => walk_x_3x3 imgSize x0 y0 m1 m2 sep h1 h2 h3
    rw [hgx, hgy] at hw1
    unfold apply_matchGrid
    rw [if_neg hlen, hinit]
    simp only [h5, identifyColumns_3x3, identifyRows_3x3, combineErrors, isEmpty_literal_empty]
    simp only [walk, grid3x3, grid3x3XY]
    rw [hw1 _ _ _ (by norm_num) (by norm_num) (by norm_num),
      walk_y_3x3 _ x0 y0 _ _ _ _ _ (by norm_num) (by norm_num) (by norm_num) h1
        (by rw [h2]; simp [grid3x3Correspondences])]
    simp [isEmpty_literal_empty]
  · show ((_ : GridMatcher).objectPts.length : Int) = 9
    rw [h3]
    simp [grid3x3Correspondences]
  · rw [h2, h3]
    simp [grid3x3Correspondences]

/-- C1 at the origin `(0, 0)`, the nine points given in reverse order. -/
theorem matchGrid_3x3_witness :
    (0 : ℚ) ≤ 0 ∧ (grid3x3 0 0).reverse.Perm (grid3x3 0 0) ∧
    ∃ gm, apply_matchGrid ⟨100, 100⟩ ⟨5, 5⟩ (7 / 20) ((grid3x3 0 0).reverse.map some) = some (.ok gm) ∧
      gm.imgSep = ⟨10, 10⟩ ∧ gm.size = 9 := by
  obtain ⟨a, b, gm, _, _, _, _, _, _, h1, h2, h3, _⟩ :=
    matchGrid_3x3 0 0 (le_refl 0) (le_refl 0) ⟨100, 100⟩ (grid3x3 0 0).reverse
      (List.reverse_perm _)
  exact ⟨le_refl 0, List.reverse_perm _, gm, h1, h2, h3⟩


/-! ## Point ordering: lexicographic order, strict order, NaN -/

theorem ComparePoint2fChecked_finite (op : CompareOp) (a b : Point2f) :
    ComparePoint2fChecked op ⟨some a.x, some a.y⟩ ⟨some b.x, some b.y⟩ =
      .result (ComparePoint2f op a b) := by
  cases op
  · simp only [ComparePoint2fChecked, ComparePoint2f]
    split_ifs <;> rfl
  · rfl

/-- C11 (fails on the code): with `COMPARE_XY` the points `a = (0, 0)`, `b = (1/2, 0)` have
`a.x < b.x` and yet `ComparePoint2f(a, b)` is false; with `COMPARE_YX` the points
`a = (0, 0)`, `b = (0, 1/2)` have `a.y < b.y` and yet `ComparePoint2f(a, b)` is false.  The
differences `-1/2` are truncated to the `int` 0. -/
theorem ComparePoint2f_not_lexicographic :
    ((0 : ℚ) < 1 / 2 ∧ ComparePoint2f .COMPARE_XY ⟨0, 0⟩ ⟨1 / 2, 0⟩ = false) ∧
    ((0 : ℚ) < 1 / 2 ∧ ComparePoint2f .COMPARE_YX ⟨0, 0⟩ ⟨0, 1 / 2⟩ = false) := by
  norm_num [ComparePoint2f, truncQ]

/-- C12 (fails on the code): under either axis ordering there are points with `a < b` and
`b < c` but not `a < c` (indeed `c < a`), so `ComparePoint2f` is not transitive; it is
irreflexive.  For `COMPARE_XY`: `a = (0, 5)`, `b = (1, 0)`, `c = (1/2, 3)`; for `COMPARE_YX`
the same points with the coordinates exchanged. -/
theorem ComparePoint2f_not_transitive :
    (ComparePoint2f .COMPARE_XY ⟨0, 5⟩ ⟨1, 0⟩ = true ∧
      ComparePoint2f .COMPARE_XY ⟨1, 0⟩ ⟨1 / 2, 3⟩ = true ∧
      ComparePoint2f .COMPARE_XY ⟨0, 5⟩ ⟨1 / 2, 3⟩ = false ∧
      ComparePoint2f .COMPARE_XY ⟨1 / 2, 3⟩ ⟨0, 5⟩ = true) ∧
    (ComparePoint2f .COMPARE_YX ⟨5, 0⟩ ⟨0, 1⟩ = true ∧
      ComparePoint2f .COMPARE_YX ⟨0, 1⟩ ⟨3, 1 / 2⟩ = true ∧
      ComparePoint2f .COMPARE_YX ⟨5, 0⟩ ⟨3, 1 / 2⟩ = false ∧
      ComparePoint2f .COMPARE_YX ⟨3, 1 / 2⟩ ⟨5, 0⟩ = true) ∧
    (∀ op p, ComparePoint2f op p p = false) := by
  refine ⟨?_, ?_, ComparePoint2f_irrefl⟩ <;> norm_num [ComparePoint2f, truncQ]

/-- C17 (fails on the code): a NaN in a `y` coordinate never fails the precondition check,
whatever the ordering and the other coordinates; for instance with `COMPARE_XY`,
`lhs = (0, NaN)` and `rhs = (5, 0)` the call returns the ordering result `true`.  A NaN in
an `x` coordinate does fail the check. -/
theorem ComparePoint2f_accepts_nan_y :
    ComparePoint2fChecked .COMPARE_XY ⟨some 0, none⟩ ⟨some 5, some 0⟩ = .result true ∧
    (∀ op lx rx ly ry,
      ComparePoint2fChecked op ⟨some lx, ly⟩ ⟨some rx, ry⟩ ≠ .assertionFailed) ∧
    (∀ op p q, ComparePoint2fChecked op ⟨none, p.y⟩ q = .assertionFailed ∧
      ComparePoint2fChecked op p ⟨none, q.y⟩ = .assertionFailed) := by
  refine ⟨?_, ?_, ?_⟩
  · norm_num [ComparePoint2fChecked, truncQ]
  · intro op lx rx ly ry
    cases op <;> simp only [ComparePoint2fChecked]
    · split_ifs
      · cases ly <;> cases ry <;> simp
      · simp
    · cases ly <;> cases ry <;> simp
  · intro op p q
    constructor
    · simp [ComparePoint2fChecked]
    · cases hp : p.x <;> simp [ComparePoint2fChecked, hp]


/-! ## Spacing estimators -/

theorem identifyAxis_eq (coord : Point2f → ℚ) (msg1 msg2 : String) (points : List Point2f)
    (tot1 tot2 : Point2f) (count1 count2 : Int) (tolerance : ℚ) (sep : Int) (grid : ℚ)
    (dMedian : ℚ)
    (hmed : ((adjacentDeltas coord points).insertionSort (fun a b => a ≤ b))[
      ((adjacentDeltas coord points).insertionSort (fun a b => a ≤ b)).length / 2]? = some dMedian) :
    identifyAxis coord msg1 msg2 points tot1 tot2 count1 count2 tolerance sep grid =
      if (spacingPass coord dMedian tolerance points tot1 tot2 count1 count2).count1 = 0 then
        some ⟨msg1, dMedian,
          (spacingPass coord dMedian tolerance points tot1 tot2 count1 count2).tot1,
          (spacingPass coord dMedian tolerance points tot1 tot2 count1 count2).tot2,
          (spacingPass coord dMedian tolerance points tot1 tot2 count1 count2).count1,
          (spacingPass coord dMedian tolerance points tot1 tot2 count1 count2).count2, grid⟩
      else if (spacingPass coord dMedian tolerance points tot1 tot2 count1 count2).count2 = 0 then
        some ⟨msg2, dMedian,
          (spacingPass coord dMedian tolerance points tot1 tot2 count1 count2).tot1,
          (spacingPass coord dMedian tolerance points tot1 tot2 count1 count2).tot2,
          (spacingPass coord dMedian tolerance points tot1 tot2 count1 count2).count1,
          (spacingPass coord dMedian tolerance points tot1 tot2 count1 count2).count2, grid⟩
      else
        some ⟨"", dMedian,
          (spacingPass coord dMedian tolerance points tot1 tot2 count1 count2).tot1,
          (spacingPass coord dMedian tolerance points tot1 tot2 count1 count2).tot2,
          (spacingPass coord dMedian tolerance points tot1 tot2 count1 count2).count1,
          (spacingPass coord dMedian tolerance points tot1 tot2 count1 count2).count2,
          Rat.sqrt
            ((spacingPass coord dMedian tolerance points tot1 tot2 count1 count2).tot2.x /
                (spacingPass coord dMedian tolerance points tot1 tot2 count1 count2).count2 / 2 *
              ((spacingPass coord dMedian tolerance points tot1 tot2 count1 count2).tot2.x /
                (spacingPass coord dMedian tolerance points tot1 tot2 count1 count2).count2 / 2) +
             (spacingPass coord dMedian tolerance points tot1 tot2 count1 count2).tot2.y /
                (spacingPass coord dMedian tolerance points tot1 tot2 count1 count2).count2 / 2 *
              ((spacingPass coord dMedian tolerance points tot1 tot2 count1 count2).tot2.y /
                (spacingPass coord dMedian tolerance points tot1 tot2 count1 count2).count2 / 2)) /
            sep⟩ :=
  identifyAxis_unfold coord msg1 msg2 points tot1 tot2 count1 count2 tolerance sep grid dMedian
    _ hmed rfl

theorem identifyAxis_median (coord : Point2f → ℚ) (msg1 msg2 : String) (points : List Point2f)
    (tot1 tot2 : Point2f) (count1 count2 : Int) (tolerance : ℚ) (sep : Int) (grid : ℚ)
    (dMedian : ℚ)
    (hmed : ((adjacentDeltas coord points).insertionSort (fun a b => a ≤ b))[
      ((adjacentDeltas coord points).insertionSort (fun a b => a ≤ b)).length / 2]? = some dMedian) :
    ∃ r, identifyAxis coord msg1 msg2 points tot1 tot2 count1 count2 tolerance sep grid = some r ∧
      r.median = dMedian := by
  rw [identifyAxis_eq _ _ _ _ _ _ _ _ _ _ _ dMedian hmed]
  split_ifs <;> exact ⟨_, rfl, rfl⟩

theorem adjacentDeltas_length (coord : Point2f → ℚ) (points : List Point2f) :
    (adjacentDeltas coord points).length = points.length - 1 := by
  induction points with
  | nil => rfl
  | cons a l ih =>
    cases l with
    | nil => rfl
    | cons b l =>
      rw [adjacentDeltas, List.length_cons, ih]
      simp

theorem median_exists (coord : Point2f → ℚ) (points : List Point2f) (h : 2 ≤ points.length) :
    ∃ m, ((adjacentDeltas coord points).insertionSort (fun a b => a ≤ b))[
      ((adjacentDeltas coord points).insertionSort (fun a b => a ≤ b)).length / 2]? = some m := by
  have hl : ((adjacentDeltas coord points).insertionSort (fun a b => a ≤ b)).length =
      points.length - 1 := by
    rw [List.length_insertionSort, adjacentDeltas_length]
  have hlt : ((adjacentDeltas coord points).insertionSort (fun a b => a ≤ b)).length / 2 <
      ((adjacentDeltas coord points).insertionSort (fun a b => a ≤ b)).length := by
    rw [hl]; omega
  exact ⟨_, List.getElem?_eq_getElem hlt⟩

theorem adjacentDeltas_map_range (coord : Point2f → ℚ) (f : Nat → Point2f) (c : ℚ)
    (h : ∀ i, coord (f i) - coord (f (i + 1)) = c) (n s : Nat) :
    adjacentDeltas coord ((List.range' s (n + 1)).map f) = List.replicate n c := by
  induction n generalizing s with
  | zero => rfl
  | succ n ih =>
    have h1 : List.range' s (n + 1 + 1) = s :: List.range' (s + 1) (n + 1) := rfl
    have h2 : List.range' (s + 1) (n + 1) = (s + 1) :: List.range' (s + 1 + 1) n := rfl
    rw [h1, List.map_cons]
    have h3 := ih (s + 1)
    rw [h2, List.map_cons] at h3 ⊢
    rw [adjacentDeltas, h3, h, List.replicate_succ]

theorem median_of_constant_deltas (coord : Point2f → ℚ) (f : Nat → Point2f) (c : ℚ)
    (h : ∀ i, coord (f i) - coord (f (i + 1)) = c) (N : Nat) (hN : 2 ≤ N) :
    ((adjacentDeltas coord ((List.range N).map f)).insertionSort (fun a b => a ≤ b))[
      ((adjacentDeltas coord ((List.range N).map f)).insertionSort (fun a b => a ≤ b)).length / 2]?
      = some c := by
  obtain ⟨n, rfl⟩ : ∃ n, N = n + 1 := ⟨N - 1, by omega⟩
  rw [List.range_eq_range', adjacentDeltas_map_range coord f c h n 0]
  have hs : (List.replicate n c).insertionSort (fun a b => a ≤ b) = List.replicate n c := by
    apply List.Sorted.insertionSort_eq
    unfold List.Sorted
    rw [List.pairwise_replicate]
    exact Or.inr (le_refl c)
  rw [hs, List.length_replicate]
  exact List.getElem?_replicate_of_lt (by omega)


theorem regularRow_delta (x0 y0 d : ℚ) (i : Nat) :
    (fun p : Point2f => p.x) ⟨x0 + (i : ℚ) * d, y0⟩ -
      (fun p : Point2f => p.x) ⟨x0 + ((i + 1 : Nat) : ℚ) * d, y0⟩ = -d := by
  push_cast; ring

theorem regularColumn_delta (x0 y0 d : ℚ) (i : Nat) :
    (fun p : Point2f => p.y) ⟨x0, y0 + (i : ℚ) * d⟩ -
      (fun p : Point2f => p.y) ⟨x0, y0 + ((i + 1 : Nat) : ℚ) * d⟩ = -d := by
  push_cast; ring

/-- C13 (fails on the code): for the regular row `(0,0), (10,0), (20,0)` (`N = 3`, `d = 10`)
`identifyColumns` sets `dxMedian` to `-10`, not to `10`: the differences are taken as
previous minus current over points sorted upward. -/
theorem median_of_regular_row_is_negative :
    ∃ r, identifyColumns (regularRow 0 0 10 3) ⟨0, 0⟩ ⟨0, 0⟩ 0 0 (7 / 20) 5 FLT_MAX = some r ∧
      r.median = -10 ∧ r.median ≠ 10 := by
  obtain ⟨r, hr, hm⟩ := identifyAxis_median (fun p => p.x)
    "No grid points matched within tolerance (level 1) dxCount1:0"
    "No grid points matched within tolerance (level 2) dxCount2:0"
    (regularRow 0 0 10 3) ⟨0, 0⟩ ⟨0, 0⟩ 0 0 (7 / 20) 5 FLT_MAX (-10)
    (median_of_constant_deltas _ _ _ (regularRow_delta 0 0 10) 3 (by decide))
  exact ⟨r, hr, hm, by rw [hm]; norm_num⟩

/-- C13 (amended): for every `N >= 3` and every `d > 0`, for the regular row
`(x0 + i d, y0)`, `i = 0 .. N-1`, `identifyColumns` returns with `dxMedian` equal to `-d`,
the negative of the spacing; likewise `identifyRows` sets `dyMedian` to `-d` for the regular
column `(x0, y0 + i d)`. -/
theorem median_of_regular_row (x0 y0 d : ℚ) (N : Nat) (hN : 3 ≤ N) (hd : 0 < d)
    (tot1 tot2 : Point2f) (count1 count2 : Int) (tolerance : ℚ) (sep : Int) (grid : ℚ) :
    (∃ r, identifyColumns (regularRow x0 y0 d N) tot1 tot2 count1 count2 tolerance sep grid
        = some r ∧ r.median = -d ∧ r.median < 0) ∧
    (∃ r, identifyRows (regularColumn x0 y0 d N) tot1 tot2 count1 count2 tolerance sep grid
        = some r ∧ r.median = -d ∧ r.median < 0) := by
  have hN2 : 2 ≤ N := by omega
  unfold regularRow regularColumn
  constructor
  · obtain ⟨r, hr, hm⟩ := identifyAxis_median (fun p => p.x)
      "No grid points matched within tolerance (level 1) dxCount1:0"
      "No grid points matched within tolerance (level 2) dxCount2:0"
      _ tot1 tot2 count1 count2 tolerance sep grid (-d)
      (median_of_constant_deltas _ _ _ (regularRow_delta x0 y0 d) N hN2)
    exact ⟨r, hr, hm, by rw [hm]; linarith⟩
  · obtain ⟨r, hr, hm⟩ := identifyAxis_median (fun p => p.y)
      "No grid points matched within tolerance (level 1) dyCount1:0"
      "No grid points matched within tolerance (level 2) dyCount2:0"
      _ tot1 tot2 count1 count2 tolerance sep grid (-d)
      (median_of_constant_deltas _ _ _ (regularColumn_delta x0 y0 d) N hN2)
    exact ⟨r, hr, hm, by rw [hm]; linarith⟩

/-- The amended C13 for the row `(1,2), (4,2), (7,2), (10,2)`, the estimator called as
`apply_matchGrid` calls it. -/
theorem median_of_regular_row_witness :
    3 ≤ 4 ∧ (0 : ℚ) < 3 ∧
    (∃ r, identifyColumns (regularRow 1 2 3 4) ⟨0, 0⟩ ⟨0, 0⟩ 0 0 (7 / 20) 5 FLT_MAX = some r ∧
      r.median = -3 ∧ r.median < 0) :=
  ⟨by decide, by norm_num,
    (median_of_regular_row 1 2 3 4 (by decide) (by norm_num) ⟨0, 0⟩ ⟨0, 0⟩ 0 0 (7 / 20) 5
      FLT_MAX).1⟩

theorem spacingStep_count1 (coord : Point2f → ℚ) (m1 m2 m3 m4 : ℚ) (acc : SpacingAcc)
    (p : Point2f) :
    acc.count1 ≤ (spacingStep coord m1 m2 m3 m4 acc p).count1 := by
  unfold spacingStep
  simp only
  split_ifs <;> simp

theorem spacingStep_count2 (coord : Point2f → ℚ) (m1 m2 m3 m4 : ℚ) (acc : SpacingAcc)
    (p : Point2f) :
    acc.count2 ≤ (spacingStep coord m1 m2 m3 m4 acc p).count2 := by
  unfold spacingStep
  simp only
  split_ifs <;> simp

theorem foldl_spacingStep_counts (coord : Point2f → ℚ) (m1 m2 m3 m4 : ℚ)
    (points : List Point2f) (acc : SpacingAcc) :
    acc.count1 ≤ (points.foldl (spacingStep coord m1 m2 m3 m4) acc).count1 ∧
    acc.count2 ≤ (points.foldl (spacingStep coord m1 m2 m3 m4) acc).count2 := by
  induction points generalizing acc with
  | nil => exact ⟨le_refl _, le_refl _⟩
  | cons p ps ih =>
    rw [List.foldl_cons]
    exact ⟨le_trans (spacingStep_count1 _ _ _ _ _ _ _) (ih _).1,
      le_trans (spacingStep_count2 _ _ _ _ _ _ _) (ih _).2⟩

theorem spacingPass_counts (coord : Point2f → ℚ) (dMedian tolerance : ℚ)
    (points : List Point2f) (tot1 tot2 : Point2f) (count1 count2 : Int) :
    count1 ≤ (spacingPass coord dMedian tolerance points tot1 tot2 count1 count2).count1 ∧
    count2 ≤ (spacingPass coord dMedian tolerance points tot1 tot2 count1 count2).count2 :=
  foldl_spacingStep_counts _ _ _ _ _ _ _

theorem identifyAxis_levels (coord : Point2f → ℚ) (msg1 msg2 : String) (points : List Point2f)
    (tot1 tot2 : Point2f) (count1 count2 : Int) (tolerance : ℚ) (sep : Int) (grid : ℚ)
    (hlen : 2 ≤ points.length) (hc1 : 0 ≤ count1) (hc2 : 0 ≤ count2)
    (h12 : msg1 ≠ msg2) (h1 : msg1 ≠ "") (h2 : msg2 ≠ "") :
    ∃ r, identifyAxis coord msg1 msg2 points tot1 tot2 count1 count2 tolerance sep grid = some r ∧
      ErrorLevels msg1 msg2 grid r := by
  obtain ⟨m, hm⟩ := median_exists coord points hlen
  rw [identifyAxis_eq _ _ _ _ _ _ _ _ _ _ _ m hm]
  obtain ⟨hp1, hp2⟩ := spacingPass_counts coord m tolerance points tot1 tot2 count1 count2
  generalize spacingPass coord m tolerance points tot1 tot2 count1 count2 = acc at hp1 hp2 ⊢
  have ha1 : 0 ≤ acc.count1 := le_trans hc1 hp1
  have ha2 : 0 ≤ acc.count2 := le_trans hc2 hp2
  split_ifs with hz1 hz2
  · refine ⟨_, rfl, ⟨fun _ => hz1, fun _ => rfl⟩, ⟨fun h => absurd h h12, ?_⟩,
      ⟨fun h => absurd h h1, ?_⟩, fun _ => rfl⟩
    · rintro ⟨h, _⟩
      exact absurd hz1 (ne_of_gt h)
    · rintro ⟨h, _⟩
      exact absurd hz1 (ne_of_gt h)
  · refine ⟨_, rfl, ⟨fun h => absurd h.symm h12, fun h => absurd h hz1⟩,
      ⟨fun _ => ⟨lt_of_le_of_ne ha1 (Ne.symm hz1), hz2⟩, fun _ => rfl⟩,
      ⟨fun h => absurd h h2, ?_⟩, fun _ => rfl⟩
    rintro ⟨_, h⟩
    exact absurd hz2 (ne_of_gt h)
  · refine ⟨_, rfl, ⟨fun h => absurd h.symm h1, fun h => absurd h hz1⟩,
      ⟨fun h => absurd h.symm h2, fun h => absurd h.2 hz2⟩,
      ⟨fun _ => ⟨lt_of_le_of_ne ha1 (Ne.symm hz1), lt_of_le_of_ne ha2 (Ne.symm hz2)⟩,
        fun _ => rfl⟩,
      fun h => absurd rfl h⟩


/-- C14 (fails on the code): for the row `outlierRow` (spacing `d = 21/2`, seven adjacent
pairs, two of them touching the outlier) and tolerance `1/25`, the median is `-21/2` and the
one-step pass of `identifyColumns` accepts no pair at all, `dxCount1 = 0` instead of
`7 - 2 = 5`: each regular difference `-21/2` is truncated to the `int` `-10`, which lies
outside the window `[-273/25, -252/25]`. -/
theorem identifyColumns_rejects_regular_pairs :
    adjacentDeltas (fun p => p.x) outlierRow =
      [-21 / 2, -21 / 2, -21 / 2, -63 / 2, -63 / 2, -21 / 2, -21 / 2] ∧
    identifyColumns outlierRow ⟨0, 0⟩ ⟨0, 0⟩ 0 0 (1 / 25) 5 FLT_MAX =
      some ⟨"No grid points matched within tolerance (level 1) dxCount1:0", -21 / 2,
        ⟨0, 0⟩, ⟨-63, 0⟩, 0, 3, FLT_MAX⟩ := by
  have hd : adjacentDeltas (fun p => p.x) outlierRow =
      [-21 / 2, -21 / 2, -21 / 2, -63 / 2, -63 / 2, -21 / 2, -21 / 2] := by
    norm_num [outlierRow, adjacentDeltas]
  have hs : ([-21 / 2, -21 / 2, -21 / 2, -63 / 2, -63 / 2, -21 / 2, -21 / 2] : List ℚ).insertionSort
      (fun a b => a ≤ b) = [-63 / 2, -63 / 2, -21 / 2, -21 / 2, -21 / 2, -21 / 2, -21 / 2] := by
    norm_num [List.insertionSort, List.orderedInsert]
  refine ⟨hd, ?_⟩
  unfold identifyColumns
  rw [identifyAxis_unfold _ _ _ _ _ _ _ _ _ _ _ (-21 / 2)
    ⟨⟨231 / 2, 0⟩, ⟨105, 0⟩, 8, ⟨0, 0⟩, ⟨-63, 0⟩, 0, 3⟩]
  · norm_num
  · rw [hd, hs]
    rfl
  · norm_num [outlierRow, spacingStep, truncQ, Point2f.add, Point2f.sub]

theorem identifyColumns_3x3_sep (x0 y0 : ℚ) (sep : Int) :
    identifyColumns (grid3x3 x0 y0) ⟨0, 0⟩ ⟨0, 0⟩ 0 0 (7 / 20) sep FLT_MAX =
      some ⟨"", -10, ⟨-60, 0⟩, ⟨-60, 0⟩, 6, 3, 10 / sep⟩ := by
  have hd : adjacentDeltas (fun p => p.x) (grid3x3 x0 y0) =
      [-10, -10, 20, -10, -10, 20, -10, -10] := by
    norm_num [grid3x3, gridPoint, adjacentDeltas]
  unfold identifyColumns
  rw [identifyAxis_unfold _ _ _ _ _ _ _ _ _ _ _ (-10)
    ⟨gridPoint x0 y0 2 2, gridPoint x0 y0 1 2, 9, ⟨-60, 0⟩, ⟨-60, 0⟩, 6, 3⟩]
  · norm_num [sqrt_hundred]
  · rw [hd, sorted_deltas_3x3]
    rfl
  · norm_num [grid3x3, gridPoint, spacingStep, truncQ, Point2f.add, Point2f.sub]

theorem identifyRows_3x3_sep (x0 y0 : ℚ) (sep : Int) :
    identifyRows (grid3x3XY x0 y0) ⟨0, 0⟩ ⟨0, 0⟩ 0 0 (7 / 20) sep FLT_MAX =
      some ⟨"", -10, ⟨0, -60⟩, ⟨0, -60⟩, 6, 3, 10 / sep⟩ := by
  have hd : adjacentDeltas (fun p => p.y) (grid3x3XY x0 y0) =
      [-10, -10, 20, -10, -10, 20, -10, -10] := by
    norm_num [grid3x3XY, gridPoint, adjacentDeltas]
  unfold identifyRows
  rw [identifyAxis_unfold _ _ _ _ _ _ _ _ _ _ _ (-10)
    ⟨gridPoint x0 y0 2 2, gridPoint x0 y0 2 1, 9, ⟨0, -60⟩, ⟨0, -60⟩, 6, 3⟩]
  · norm_num [sqrt_hundred]
  · rw [hd, sorted_deltas_3x3]
    rfl
  · norm_num [grid3x3XY, gridPoint, spacingStep, truncQ, Point2f.add, Point2f.sub]

theorem fineGrid3x3_columns :
    identifyColumns fineGrid3x3 ⟨0, 0⟩ ⟨0, 0⟩ 0 0 (7 / 20) 5 FLT_MAX =
      some ⟨"No grid points matched within tolerance (level 1) dxCount1:0", -19 / 10,
        ⟨0, 0⟩, ⟨-57 / 5, 0⟩, 0, 3, FLT_MAX⟩ := by
  have hd : adjacentDeltas (fun p => p.x) fineGrid3x3 =
      [-19 / 10, -19 / 10, 19 / 5, -19 / 10, -19 / 10, 19 / 5, -19 / 10, -19 / 10] := by
    norm_num [fineGrid3x3, adjacentDeltas]
  have hs : ([-19 / 10, -19 / 10, 19 / 5, -19 / 10, -19 / 10, 19 / 5, -19 / 10, -19 / 10] :
      List ℚ).insertionSort (fun a b => a ≤ b) =
      [-19 / 10, -19 / 10, -19 / 10, -19 / 10, -19 / 10, -19 / 10, 19 / 5, 19 / 5] := by
    norm_num [List.insertionSort, List.orderedInsert]
  unfold identifyColumns
  rw [identifyAxis_unfold _ _ _ _ _ _ _ _ _ _ _ (-19 / 10)
    ⟨⟨19 / 5, 19 / 5⟩, ⟨19 / 10, 19 / 5⟩, 9, ⟨0, 0⟩, ⟨-57 / 5, 0⟩, 0, 3⟩]
  · norm_num
  · rw [hd, hs]
    rfl
  · norm_num [fineGrid3x3, spacingStep, truncQ, Point2f.add, Point2f.sub]

/-- C15 (fails on the code): for the regular 3x3 grid with pixel spacing `px = py = 10`,
tolerance 0.35 and physical spacing `sepX = sepY = 5/2`, the estimators are called with the
`int` parameter `sepX = sepY = 2`, succeed, and return the grid scale `10 / 2 = 5`; so
`gridX * sepX = 25/2`, and `|gridX * sepX - px| = 5/2` is not below `0.01 * px`.  And for
the regular 3x3 grid with pixel spacing `19/10` and `sepX = 5`, `identifyColumns` does not
succeed: every one-step difference `-19/10` is truncated to the `int` `-1`, outside the
window, so it returns its level-1 message and leaves the grid scale at `FLT_MAX`. -/
theorem grid_scale_not_recovered :
    truncQ (5 / 2 : ℚ) = 2 ∧
    identifyColumns (grid3x3 0 0) ⟨0, 0⟩ ⟨0, 0⟩ 0 0 (7 / 20) (truncQ (5 / 2 : ℚ)) FLT_MAX =
      some ⟨"", -10, ⟨-60, 0⟩, ⟨-60, 0⟩, 6, 3, 5⟩ ∧
    identifyRows (grid3x3XY 0 0) ⟨0, 0⟩ ⟨0, 0⟩ 0 0 (7 / 20) (truncQ (5 / 2 : ℚ)) FLT_MAX =
      some ⟨"", -10, ⟨0, -60⟩, ⟨0, -60⟩, 6, 3, 5⟩ ∧
    ¬ (|(5 : ℚ) * (5 / 2) - 10| < 1 / 100 * 10) ∧
    identifyColumns fineGrid3x3 ⟨0, 0⟩ ⟨0, 0⟩ 0 0 (7 / 20) 5 FLT_MAX =
      some ⟨"No grid points matched within tolerance (level 1) dxCount1:0", -19 / 10,
        ⟨0, 0⟩, ⟨-57 / 5, 0⟩, 0, 3, FLT_MAX⟩ := by
  have h : truncQ (5 / 2 : ℚ) = 2 := by norm_num [truncQ]
  refine ⟨h, ?_, ?_, ?_, fineGrid3x3_columns⟩
  · rw [h, identifyColumns_3x3_sep]
    norm_num
  · rw [h, identifyRows_3x3_sep]
    norm_num
  · norm_num [abs_of_pos]

/-- C16: for every input of at least two points (the counts entering non-negative, as in
`apply_matchGrid`), `identifyRows` and `identifyColumns` return; the returned message is the
level-1 message exactly when the one-step count is 0, the level-2 message exactly when the
one-step count is positive and the two-step count is 0, and empty exactly when both counts
are positive; the grid scale keeps its incoming value whenever the message is not empty, so
it is assigned in the no-error case only; and in the level-2 case the entries `dxAvg1`,
`dyAvg1` with the one-step averages are published. -/
theorem identify_error_levels (points : List Point2f) (tot1 tot2 : Point2f)
    (count1 count2 : Int) (tolerance : ℚ) (sep : Int) (grid : ℚ)
    (hlen : 2 ≤ points.length) (hc1 : 0 ≤ count1) (hc2 : 0 ≤ count2) :
    (∃ r, identifyRows points tot1 tot2 count1 count2 tolerance sep grid = some r ∧
      ErrorLevels "No grid points matched within tolerance (level 1) dyCount1:0"
        "No grid points matched within tolerance (level 2) dyCount2:0" grid r ∧
      (r.errMsg = "No grid points matched within tolerance (level 2) dyCount2:0" →
        ("dxAvg1", r.tot1.x / r.count1) ∈ identifyRowsJson r ∧
        ("dyAvg1", r.tot1.y / r.count1) ∈ identifyRowsJson r)) ∧
    (∃ r, identifyColumns points tot1 tot2 count1 count2 tolerance sep grid = some r ∧
      ErrorLevels "No grid points matched within tolerance (level 1) dxCount1:0"
        "No grid points matched within tolerance (level 2) dxCount2:0" grid r ∧
      (r.errMsg = "No grid points matched within tolerance (level 2) dxCount2:0" →
        ("dxAvg1", r.tot1.x / r.count1) ∈ identifyColumnsJson r ∧
        ("dyAvg1", r.tot1.y / r.count1) ∈ identifyColumnsJson r)) := by
  constructor
  · obtain ⟨r, hr, hl⟩ := identifyAxis_levels (fun p => p.y)
      "No grid points matched within tolerance (level 1) dyCount1:0"
      "No grid points matched within tolerance (level 2) dyCount2:0"
      points tot1 tot2 count1 count2 tolerance sep grid hlen hc1 hc2
      (by decide) (by decide) (by decide)
    refine ⟨r, hr, hl, fun h => ?_⟩
    obtain ⟨h1, h2⟩ := hl.2.1.mp h
    have h3 : r.count1 ≠ 0 := ne_of_gt h1
    simp [identifyRowsJson, h3, h2]
  · obtain ⟨r, hr, hl⟩ := identifyAxis_levels (fun p => p.x)
      "No grid points matched within tolerance (level 1) dxCount1:0"
      "No grid points matched within tolerance (level 2) dxCount2:0"
      points tot1 tot2 count1 count2 tolerance sep grid hlen hc1 hc2
      (by decide) (by decide) (by decide)
    refine ⟨r, hr, hl, fun h => ?_⟩
    obtain ⟨h1, h2⟩ := hl.2.1.mp h
    have h3 : r.count1 ≠ 0 := ne_of_gt h1
    simp [identifyColumnsJson, h3, h2]

/-- C16 for the two points `(0,0)`, `(10,0)` as `apply_matchGrid` passes them. -/
theorem identify_error_levels_witness :
    2 ≤ ([⟨0, 0⟩, ⟨10, 0⟩] : List Point2f).length ∧ (0 : Int) ≤ 0 ∧
    (∃ r, identifyColumns [⟨0, 0⟩, ⟨10, 0⟩] ⟨0, 0⟩ ⟨0, 0⟩ 0 0 (7 / 20) 5 FLT_MAX = some r ∧
      ErrorLevels "No grid points matched within tolerance (level 1) dxCount1:0"
        "No grid points matched within tolerance (level 2) dxCount2:0" FLT_MAX r ∧
      (r.errMsg = "No grid points matched within tolerance (level 2) dxCount2:0" →
        ("dxAvg1", r.tot1.x / r.count1) ∈ identifyColumnsJson r ∧
        ("dyAvg1", r.tot1.y / r.count1) ∈ identifyColumnsJson r)) :=
  ⟨by decide, le_refl 0,
    (identify_error_levels [⟨0, 0⟩, ⟨10, 0⟩] ⟨0, 0⟩ ⟨0, 0⟩ 0 0 (7 / 20) 5 FLT_MAX (by decide)
      (le_refl 0) (le_refl 0)).2⟩


/-! ## `apply_matchGrid`: input size and error aggregation -/

theorem adjacentDeltas_of_short (coord : Point2f → ℚ) (points : List Point2f)
    (h : points.length < 2) : adjacentDeltas coord points = [] := by
  match points, h with
  | [], _ => rfl
  | [_], _ => rfl
  | _ :: _ :: _, h => simp only [List.length_cons] at h; omega

theorem identifyAxis_of_short (coord : Point2f → ℚ) (msg1 msg2 : String) (points : List Point2f)
    (tot1 tot2 : Point2f) (count1 count2 : Int) (tolerance : ℚ) (sep : Int) (grid : ℚ)
    (h : points.length < 2) :
    identifyAxis coord msg1 msg2 points tot1 tot2 count1 count2 tolerance sep grid = none := by
  unfold identifyAxis
  rw [adjacentDeltas_of_short coord points h]
  rfl

theorem sortPoints_length (op : CompareOp) (pts : List Point2f) :
    (sortPoints op pts).length = pts.length :=
  List.length_insertionSort _ _

/-- C18 (fails on the code): the guard of `apply_matchGrid` counts the entries of the `rects`
array, not the points they yield.  For the two-entry array whose second entry has no numeric
`x`, `y` only one point is left, no failure is reported, and `identifyColumns` reads the
median of an empty list of differences (an undefined read, `none`); so does every array of
at least two entries that yields fewer than two points.  Only arrays of fewer than two
entries are reported as a failure. -/
theorem matchGrid_guard_counts_entries (imgSize : Size) (objSep : Point2f) (tolerance : ℚ) :
    apply_matchGrid imgSize objSep tolerance [some ⟨1, 2⟩, none] = none ∧
    (∀ rects : List (Option Point2f), 2 ≤ rects.length → (rects.filterMap id).length < 2 →
      apply_matchGrid imgSize objSep tolerance rects = none) ∧
    (∀ rects : List (Option Point2f), rects.length < 2 →
      apply_matchGrid imgSize objSep tolerance rects =
        some (.error "Expected array of at least 2 rects to match")) := by
  have hgen : ∀ rects : List (Option Point2f), 2 ≤ rects.length →
      (rects.filterMap id).length < 2 →
      apply_matchGrid imgSize objSep tolerance rects = none := by
    intro rects h2 hshort
    unfold apply_matchGrid
    rw [if_neg (by omega)]
    simp only [initializePointMaps, identifyColumns]
    rw [identifyAxis_of_short _ _ _ _ _ _ _ _ _ _ _ (by rw [sortPoints_length]; exact hshort)]
  refine ⟨hgen _ (by simp) (by simp), hgen, ?_⟩
  intro rects h
  unfold apply_matchGrid
  rw [if_pos h]

theorem combineErrors_eq (c r : String) :
    (combineErrors c r = "" ↔ c = "" ∧ r = "") ∧
    (c ≠ "" → r = "" → combineErrors c r = c) ∧
    (c = "" → combineErrors c r = r) ∧
    (c ≠ "" → r ≠ "" → combineErrors c r = c ++ "; " ++ r) := by
  have hne : ∀ s : String, s.isEmpty = true ↔ s = "" := String.isEmpty_iff
  have happ : c ++ "; " ++ r ≠ "" := by
    intro h
    have hl := congrArg String.length h
    simp [String.length_append] at hl
    exact absurd hl.1.2 (by decide)
  by_cases hc : c = ""
  · subst hc
    have : combineErrors "" r = r := by
      unfold combineErrors
      rw [if_pos (by decide)]
    rw [this]
    exact ⟨by simp, fun h => absurd rfl h, fun _ => rfl, fun h => absurd rfl h⟩
  · have hce : ¬ c.isEmpty = true := fun h => hc ((hne c).mp h)
    by_cases hr : r = ""
    · subst hr
      have : combineErrors c "" = c := by
        unfold combineErrors
        rw [if_neg hce, if_neg (by decide)]
      rw [this]
      exact ⟨by simp [hc], fun _ _ => rfl, fun h => absurd h hc, fun _ h => absurd rfl h⟩
    · have hre : ¬ r.isEmpty = true := fun h => hr ((hne r).mp h)
      have : combineErrors c r = c ++ "; " ++ r := by
        unfold combineErrors
        rw [if_neg hce]
        simp [hre]
      rw [this]
      exact ⟨by simp [happ, hc], fun _ h => absurd h hr, fun h => absurd h hc, fun _ _ => rfl⟩


/-- C19: when both estimators return (`col` for the columns, `row` for the rows), the
combined message of `apply_matchGrid` is empty exactly when both messages are empty; it is
the message of the one failing axis, or the column message, `"; "` and the row message when
both fail; a non-empty combined message is the stage failure and no walk runs, and the walks
run, over `pointsYX` and then over `pointsXY`, exactly when it is empty. -/
theorem matchGrid_error_gating (imgSize : Size) (objSep : Point2f) (tolerance : ℚ)
    (rects : List (Option Point2f)) (col row : SpacingResult) (hlen : 2 ≤ rects.length)
    (hcol : identifyColumns (initializePointMaps rects).2 ⟨0, 0⟩ ⟨0, 0⟩ 0 0 tolerance
      (truncQ objSep.x) FLT_MAX = some col)
    (hrow : identifyRows (initializePointMaps rects).1 ⟨0, 0⟩ ⟨0, 0⟩ 0 0 tolerance
      (truncQ objSep.y) FLT_MAX = some row) :
    (combineErrors col.errMsg row.errMsg = "" ↔ col.errMsg = "" ∧ row.errMsg = "") ∧
    (col.errMsg ≠ "" → row.errMsg = "" → combineErrors col.errMsg row.errMsg = col.errMsg) ∧
    (col.errMsg = "" → combineErrors col.errMsg row.errMsg = row.errMsg) ∧
    (col.errMsg ≠ "" → row.errMsg ≠ "" →
      combineErrors col.errMsg row.errMsg = col.errMsg ++ "; " ++ row.errMsg) ∧
    (combineErrors col.errMsg row.errMsg ≠ "" →
      apply_matchGrid imgSize objSep tolerance rects =
        some (.error (combineErrors col.errMsg row.errMsg))) ∧
    (combineErrors col.errMsg row.errMsg = "" →
      apply_matchGrid imgSize objSep tolerance rects =
        match walk (fun p => p.x) col.median tolerance
            ⟨col.grid * objSep.x, row.grid * objSep.y⟩
            ⟨GridMatcher.new imgSize ⟨col.grid * objSep.x, row.grid * objSep.y⟩ objSep,
              ⟨0, 0⟩, ⟨0, 0, 0⟩⟩
            (initializePointMaps rects).2 with
        | none => none
        | some st =>
          match walk (fun p => p.y) row.median tolerance
              ⟨col.grid * objSep.x, row.grid * objSep.y⟩ st (initializePointMaps rects).1 with
          | none => none
          | some st => some (.ok st.gm)) ∧
    (∀ gm, apply_matchGrid imgSize objSep tolerance rects = some (.ok gm) →
      combineErrors col.errMsg row.errMsg = "") := by
  obtain ⟨h1, h2, h3, h4⟩ := combineErrors_eq col.errMsg row.errMsg
  have herr : combineErrors col.errMsg row.errMsg ≠ "" →
      apply_matchGrid imgSize objSep tolerance rects =
        some (.error (combineErrors col.errMsg row.errMsg)) := by
    intro hne
    have hie : (combineErrors col.errMsg row.errMsg).isEmpty = false := by
      rw [Bool.eq_false_iff, Ne, String.isEmpty_iff]
      exact hne
    unfold apply_matchGrid
    rw [if_neg (by omega)]
    simp only [hcol, hrow, hie, Bool.not_false, if_true]
  refine ⟨h1, h2, h3, h4, herr, ?_, ?_⟩
  · intro he
    have hie : (combineErrors col.errMsg row.errMsg).isEmpty = true := by
      rw [String.isEmpty_iff]
      exact he
    unfold apply_matchGrid
    rw [if_neg (by omega)]
    simp only [hcol, hrow, hie, Bool.not_true, Bool.false_eq_true, if_false]
    try rfl
  · intro gm hgm
    by_contra hne
    rw [herr hne] at hgm
    simp at hgm

theorem twoPoints_init :
    initializePointMaps [some ⟨0, 0⟩, some ⟨10, 0⟩] =
      ([⟨0, 0⟩, ⟨10, 0⟩], [⟨0, 0⟩, ⟨10, 0⟩]) := by
  norm_num [initializePointMaps, sortPoints, List.insertionSort, List.orderedInsert,
    ComparePoint2f, truncQ]

theorem twoPoints_columns :
    identifyColumns [⟨0, 0⟩, ⟨10, 0⟩] ⟨0, 0⟩ ⟨0, 0⟩ 0 0 (7 / 20) 5 FLT_MAX =
      some ⟨"No grid points matched within tolerance (level 2) dxCount2:0", -10,
        ⟨-10, 0⟩, ⟨0, 0⟩, 1, 0, FLT_MAX⟩ := by
  unfold identifyColumns
  rw [identifyAxis_unfold _ _ _ _ _ _ _ _ _ _ _ (-10)
    ⟨⟨10, 0⟩, ⟨0, 0⟩, 2, ⟨-10, 0⟩, ⟨0, 0⟩, 1, 0⟩]
  · norm_num
  · norm_num [adjacentDeltas, List.insertionSort, List.orderedInsert]
  · norm_num [spacingStep, truncQ, Point2f.add, Point2f.sub]

theorem twoPoints_rows :
    identifyRows [⟨0, 0⟩, ⟨10, 0⟩] ⟨0, 0⟩ ⟨0, 0⟩ 0 0 (7 / 20) 5 FLT_MAX =
      some ⟨"No grid points matched within tolerance (level 2) dyCount2:0", 0,
        ⟨-10, 0⟩, ⟨0, 0⟩, 1, 0, FLT_MAX⟩ := by
  unfold identifyRows
  rw [identifyAxis_unfold _ _ _ _ _ _ _ _ _ _ _ 0
    ⟨⟨10, 0⟩, ⟨0, 0⟩, 2, ⟨-10, 0⟩, ⟨0, 0⟩, 1, 0⟩]
  · norm_num
  · norm_num [adjacentDeltas, List.insertionSort, List.orderedInsert]
  · norm_num [spacingStep, truncQ, Point2f.add, Point2f.sub]

/-- C19 for the two rects `(0,0)`, `(10,0)` with `sepX = sepY = 5` and tolerance 0.35: both
axes report their level-2 message and the stage fails with the two messages joined. -/
theorem matchGrid_error_gating_witness :
    2 ≤ ([some ⟨0, 0⟩, some ⟨10, 0⟩] : List (Option Point2f)).length ∧
    apply_matchGrid ⟨100, 100⟩ ⟨5, 5⟩ (7 / 20) [some ⟨0, 0⟩, some ⟨10, 0⟩] =
      some (.error
        ("No grid points matched within tolerance (level 2) dxCount2:0" ++ "; " ++
          "No grid points matched within tolerance (level 2) dyCount2:0")) := by
  have h5 : truncQ (5 : ℚ) = 5 := by norm_num [truncQ]
  have hcol : identifyColumns (initializePointMaps [some ⟨0, 0⟩, some ⟨10, 0⟩]).2 ⟨0, 0⟩ ⟨0, 0⟩
      0 0 (7 / 20) (truncQ (⟨5, 5⟩ : Point2f).x) FLT_MAX =
        some ⟨"No grid points matched within tolerance (level 2) dxCount2:0", -10,
          ⟨-10, 0⟩, ⟨0, 0⟩, 1, 0, FLT_MAX⟩ := by
    rw [twoPoints_init, h5]
    exact twoPoints_columns
  have hrow : identifyRows (initializePointMaps [some ⟨0, 0⟩, some ⟨10, 0⟩]).1 ⟨0, 0⟩ ⟨0, 0⟩
      0 0 (7 / 20) (truncQ (⟨5, 5⟩ : Point2f).y) FLT_MAX =
        some ⟨"No grid points matched within tolerance (level 2) dyCount2:0", 0,
          ⟨-10, 0⟩, ⟨0, 0⟩, 1, 0, FLT_MAX⟩ := by
    rw [twoPoints_init, h5]
    exact twoPoints_rows
  have h := matchGrid_error_gating ⟨100, 100⟩ ⟨5, 5⟩ (7 / 20) [some ⟨0, 0⟩, some ⟨10, 0⟩] _ _
    (by decide) hcol hrow
  refine ⟨by decide, ?_⟩
  rw [h.2.2.2.2.1 (by decide)]
  rfl


/-! ## Grid Store: bookkeeping -/

theorem add_of_not_found (gm : GridMatcher) (p : Point2f) (g : Point3f)
    (h : setFind gm.imgSet p = false) :
    gm.add p g = (true,
      { gm with
        objectPts := gm.objectPts ++ [g]
        imagePts := gm.imagePts ++ [p]
        objTotals := gm.objTotals.add g
        imgTotals := gm.imgTotals.add p
        imgSet := setInsert gm.imgSet p }) := by
  unfold GridMatcher.add
  rw [if_neg (by simp [h])]

theorem addAll_cons (gm : GridMatcher) (op : Point2f × Point3f) (ops : List (Point2f × Point3f)) :
    gm.addAll (op :: ops) = (gm.add op.1 op.2).2.addAll ops := rfl

theorem addAll_fields (ops : List (Point2f × Point3f)) (gm : GridMatcher) :
    (gm.addAll ops).imagePts = gm.imagePts ++ (gm.acceptedOps ops).map Prod.fst ∧
    (gm.addAll ops).objectPts = gm.objectPts ++ (gm.acceptedOps ops).map Prod.snd ∧
    (gm.addAll ops).imgTotals =
      ⟨gm.imgTotals.x + ((gm.acceptedOps ops).map (fun op => op.1.x)).sum,
       gm.imgTotals.y + ((gm.acceptedOps ops).map (fun op => op.1.y)).sum⟩ ∧
    (gm.addAll ops).objTotals =
      ⟨gm.objTotals.x + ((gm.acceptedOps ops).map (fun op => op.2.x)).sum,
       gm.objTotals.y + ((gm.acceptedOps ops).map (fun op => op.2.y)).sum,
       gm.objTotals.z + ((gm.acceptedOps ops).map (fun op => op.2.z)).sum⟩ ∧
    (gm.addAllFlags ops).count true = (gm.acceptedOps ops).length ∧
    (gm.acceptedOps ops).Sublist ops := by
  induction ops generalizing gm with
  | nil =>
    simp [GridMatcher.addAll, GridMatcher.acceptedOps, GridMatcher.addAllFlags]
  | cons op ops ih =>
    rw [addAll_cons]
    obtain ⟨h1, h2, h3, h4, h5, h6⟩ := ih (gm.add op.1 op.2).2
    cases hf : setFind gm.imgSet op.1 with
    | true =>
      have hadd : gm.add op.1 op.2 = (false, gm) := add_of_found gm op.1 op.2 hf
      rw [hadd] at h1 h2 h3 h4 h5 h6 ⊢
      simp only [GridMatcher.acceptedOps, GridMatcher.addAllFlags, hadd, Bool.false_eq_true,
        if_false]
      refine ⟨h1, h2, h3, h4, ?_, h6.cons _⟩
      rw [List.count_cons_of_ne (by decide), h5]
    | false =>
      have hadd := add_of_not_found gm op.1 op.2 hf
      rw [hadd] at h1 h2 h3 h4 h5 h6 ⊢
      simp only [GridMatcher.acceptedOps, GridMatcher.addAllFlags, hadd, if_true]
      simp only at h1 h2 h3 h4 h5 h6
      refine ⟨?_, ?_, ?_, ?_, ?_, h6.cons₂ _⟩
      · rw [h1]; simp
      · rw [h2]; simp
      · rw [h3]
        simp only [Point2f.add, List.map_cons, List.sum_cons, Point2f.mk.injEq]
        constructor <;> ring
      · rw [h4]
        simp only [Point3f.add, List.map_cons, List.sum_cons, Point3f.mk.injEq]
        refine ⟨?_, ?_, ?_⟩ <;> ring
      · rw [List.count_cons_self, h5, List.length_cons]

theorem zip_map_fst_snd {α β : Type} (l : List (α × β)) :
    (l.map Prod.fst).zip (l.map Prod.snd) = l := by
  induction l with
  | nil => rfl
  | cons a l ih => simp [ih]

/-- C20: after any sequence of `add` calls on a freshly constructed store, `imagePts` and
`objectPts` have the same length; `size()` is the number of calls that returned `true`; the
stored correspondences are the arguments of exactly those calls, in call order; `imgTotals`
and `objTotals` are the component-wise sums of `imagePts` and of `objectPts`; and for a
non-empty store the centroid queries return the arithmetic means of the stored points. -/
theorem store_bookkeeping (imgSize : Size) (imgSep objSep : Point2f)
    (ops : List (Point2f × Point3f)) :
    let gm0 := GridMatcher.new imgSize imgSep objSep
    let gm := gm0.addAll ops
    gm.imagePts.length = gm.objectPts.length ∧
    gm.size = ((gm0.addAllFlags ops).count true : Nat) ∧
    gm.imagePts.zip gm.objectPts = gm0.acceptedOps ops ∧
    (gm0.acceptedOps ops).Sublist ops ∧
    gm.imgTotals = ⟨(gm.imagePts.map (fun p => p.x)).sum, (gm.imagePts.map (fun p => p.y)).sum⟩ ∧
    gm.objTotals = ⟨(gm.objectPts.map (fun p => p.x)).sum, (gm.objectPts.map (fun p => p.y)).sum,
      (gm.objectPts.map (fun p => p.z)).sum⟩ ∧
    (gm.size ≠ 0 →
      gm.getImageCentroid =
        (.finite ((gm.imagePts.map (fun p => p.x)).sum / (gm.imagePts.length : Int)),
         .finite ((gm.imagePts.map (fun p => p.y)).sum / (gm.imagePts.length : Int))) ∧
      gm.getObjectCentroid =
        (.finite ((gm.objectPts.map (fun p => p.x)).sum / (gm.objectPts.length : Int)),
         .finite ((gm.objectPts.map (fun p => p.y)).sum / (gm.objectPts.length : Int)),
         .finite ((gm.objectPts.map (fun p => p.z)).sum / (gm.objectPts.length : Int)))) := by
  intro gm0 gm
  obtain ⟨h1, h2, h3, h4, h5, h6⟩ := addAll_fields ops gm0
  have hi : gm.imagePts = (gm0.acceptedOps ops).map Prod.fst := by
    simpa [gm0, GridMatcher.new] using h1
  have ho : gm.objectPts = (gm0.acceptedOps ops).map Prod.snd := by
    simpa [gm0, GridMatcher.new] using h2
  have hit : gm.imgTotals =
      ⟨(gm.imagePts.map (fun p => p.x)).sum, (gm.imagePts.map (fun p => p.y)).sum⟩ := by
    rw [hi, List.map_map, List.map_map]
    simpa [gm0, GridMatcher.new] using h3
  have hot : gm.objTotals =
      ⟨(gm.objectPts.map (fun p => p.x)).sum, (gm.objectPts.map (fun p => p.y)).sum,
        (gm.objectPts.map (fun p => p.z)).sum⟩ := by
    rw [ho, List.map_map, List.map_map, List.map_map]
    simpa [gm0, GridMatcher.new] using h4
  have hlen : gm.imagePts.length = gm.objectPts.length := by
    rw [hi, ho, List.length_map, List.length_map]
  refine ⟨hlen, ?_, ?_, h6, hit, hot, ?_⟩
  · show ((gm.objectPts.length : Nat) : Int) = _
    rw [ho, List.length_map, h5]
  · rw [hi, ho]
    exact zip_map_fst_snd _
  · intro hne
    have hn : ((gm.objectPts.length : Nat) : Int) ≠ 0 := hne
    constructor
    · simp only [GridMatcher.getImageCentroid, fdivInt, if_neg hn, hit, hlen]
    · simp only [GridMatcher.getObjectCentroid, fdivInt, if_neg hn, hot]

/-! ## The sub-image sampler -/

theorem crossWindows_inside (g : Mat) (hr : 6 ≤ g.rows) (hc : 6 ≤ g.cols) :
    ∀ w ∈ crossWindows g.rows g.cols 6 3, WindowInGrid g w := by
  have h1 : Int.tdiv ((g.rows : Int) - 6) 2 = ((g.rows : Int) - 6) / 2 :=
    Int.tdiv_eq_ediv (by omega) (by decide)
  have h2 : Int.tdiv ((g.cols : Int) - 6) 2 = ((g.cols : Int) - 6) / 2 :=
    Int.tdiv_eq_ediv (by omega) (by decide)
  intro w hw
  simp only [crossWindows, h1, h2, List.mem_cons, List.mem_singleton, List.not_mem_nil,
    or_false] at hw
  unfold WindowInGrid
  rcases hw with h | h | h | h | h | h | h | h | h | h | h | h | h | h <;> subst h <;>
    simp only <;> omega

theorem crossWindows_outside (g : Mat) (h : g.rows < 6 ∨ g.cols < 6) :
    ¬ WindowInGrid g (Int.tdiv ((g.rows : Int) - 6) 2, Int.tdiv ((g.cols : Int) - 6) 2, 3, 6) ∨
    ¬ WindowInGrid g (Int.tdiv ((g.rows : Int) - 6) 2, Int.tdiv ((g.cols : Int) - 6) 2, 6, 3) := by
  have key : ∀ n : Int, n < 0 → n < Int.tdiv n 2 := by
    intro n hn
    have h1 : Int.tdiv n 2 = -(Int.tdiv (-n) 2) := by
      rw [Int.neg_tdiv, neg_neg]
    rw [h1, Int.tdiv_eq_ediv (by omega) (by decide)]
    omega
  unfold WindowInGrid
  rcases h with h | h
  · right
    have := key ((g.rows : Int) - 6) (by omega)
    simp only
    omega
  · left
    have := key ((g.cols : Int) - 6) (by omega)
    simp only
    omega


theorem addSubImage_step (gm : GridMatcher) (row col rows cols minPts : Int)
    (hgrid : IsLookupGrid gm) (hin : WindowInGrid gm.gridIndexes (row, col, rows, cols))
    (hrows : 0 ≤ rows) (hcols : 0 ≤ cols) (hmin : 0 ≤ minPts) :
    ∃ flag gm1, gm.addSubImage row col rows cols minPts = some (flag, gm1) ∧
      gm1.gridIndexes = gm.gridIndexes ∧ gm1.imagePts = gm.imagePts ∧
      gm1.objectPts = gm.objectPts ∧
      ((flag = false ∧ gm1.vObjectPts = gm.vObjectPts ∧ gm1.vImagePts = gm.vImagePts) ∨
        (flag = true ∧ ∃ objs imgs, objs.length = imgs.length ∧ minPts ≤ objs.length ∧
          gm1.vObjectPts = gm.vObjectPts ++ [objs] ∧ gm1.vImagePts = gm.vImagePts ++ [imgs])) := by
  obtain ⟨hr0, hr, hc0, hc⟩ := hin
  obtain ⟨⟨imgs, objs⟩, hscan, hl1, hl2⟩ :=
    subImageScan_length gm hgrid row col (((cols - 1 : Int) : ℚ) / 2) (((rows - 1 : Int) : ℚ) / 2)
      rows cols hr0 hc0 hrows hcols hr hc
  simp only at hl1 hl2
  unfold GridMatcher.addSubImage
  simp only [hscan]
  by_cases hlt : sizeLtInt imgs.length minPts = true
  · rw [if_pos hlt]
    exact ⟨false, gm, rfl, rfl, rfl, rfl, Or.inl ⟨rfl, rfl, rfl⟩⟩
  · rw [if_neg hlt]
    refine ⟨true, _, rfl, rfl, rfl, rfl, Or.inr ⟨rfl, objs, imgs, by rw [hl1, hl2], ?_, rfl, rfl⟩⟩
    unfold sizeLtInt at hlt
    rw [if_neg (by omega)] at hlt
    simp only [decide_eq_true_eq, not_lt] at hlt
    rw [hl2, ← hl1]
    exact hlt

theorem isLookupGrid_of_eq (gm gm1 : GridMatcher) (hgrid : IsLookupGrid gm)
    (h1 : gm1.gridIndexes = gm.gridIndexes) (h2 : gm1.imagePts = gm.imagePts)
    (h3 : gm1.objectPts = gm.objectPts) : IsLookupGrid gm1 := by
  unfold IsLookupGrid
  rw [h1, h2, h3]
  exact hgrid

theorem addSubImages_subsets (minPts : Int) (hmin : 0 ≤ minPts)
    (ws : List (Int × Int × Int × Int)) (gm : GridMatcher) (hgrid : IsLookupGrid gm)
    (hin : ∀ w ∈ ws, WindowInGrid gm.gridIndexes w ∧ 0 ≤ w.2.2.1 ∧ 0 ≤ w.2.2.2) :
    ∃ gm1 newObj newImg, gm.addSubImages ws minPts = some gm1 ∧
      gm1.gridIndexes = gm.gridIndexes ∧ gm1.imagePts = gm.imagePts ∧
      gm1.objectPts = gm.objectPts ∧
      gm1.vObjectPts = gm.vObjectPts ++ newObj ∧ gm1.vImagePts = gm.vImagePts ++ newImg ∧
      List.Forall₂ (fun (o : List Point3f) (i : List Point2f) =>
        o.length = i.length ∧ minPts ≤ o.length) newObj newImg ∧
      newObj.length ≤ ws.length := by
  induction ws generalizing gm with
  | nil => exact ⟨gm, [], [], rfl, rfl, rfl, rfl, by simp, by simp, List.Forall₂.nil, by simp⟩
  | cons w ws ih =>
    obtain ⟨hw, hrows, hcols⟩ := hin w (List.mem_cons_self _ _)
    obtain ⟨flag, gm1, hadd, hg, hi, ho, hv⟩ :=
      addSubImage_step gm w.1 w.2.1 w.2.2.1 w.2.2.2 minPts hgrid hw hrows hcols hmin
    have hgrid1 : IsLookupGrid gm1 := isLookupGrid_of_eq gm gm1 hgrid hg hi ho
    obtain ⟨gm2, newObj, newImg, hrest, hg2, hi2, ho2, hvo, hvi, hsub2, hlen2⟩ := ih gm1 hgrid1
      (fun w1 hw1 => by
        rw [hg]
        exact hin w1 (List.mem_cons_of_mem _ hw1))
    have hfold : gm.addSubImages (w :: ws) minPts = some gm2 := by
      unfold GridMatcher.addSubImages at hrest ⊢
      rw [List.foldlM_cons, hadd]
      exact hrest
    rcases hv with ⟨_, h1, h2⟩ | ⟨_, objs, imgs, h1, h2, h3, h4⟩
    · refine ⟨gm2, newObj, newImg, hfold, by rw [hg2, hg], by rw [hi2, hi], by rw [ho2, ho],
        by rw [hvo, h1], by rw [hvi, h2], hsub2, ?_⟩
      rw [List.length_cons]
      omega
    · refine ⟨gm2, objs :: newObj, imgs :: newImg, hfold, by rw [hg2, hg], by rw [hi2, hi],
        by rw [ho2, ho], by rw [hvo, h3]; simp, by rw [hvi, h4]; simp,
        List.Forall₂.cons ⟨h1, h2⟩ hsub2, ?_⟩
      rw [List.length_cons, List.length_cons]
      omega

theorem crossWindows_dims (gridRows gridCols : Int) :
    ∀ w ∈ crossWindows gridRows gridCols 6 3, (0 : Int) ≤ w.2.2.1 ∧ (0 : Int) ≤ w.2.2.2 := by
  intro w hw
  simp only [crossWindows, List.mem_cons, List.mem_singleton, List.not_mem_nil,
    or_false] at hw
  rcases hw with h | h | h | h | h | h | h | h | h | h | h | h | h | h <;> subst h <;>
    simp only <;> omega

/-- C21: for every lookup grid with at least 6 rows and 6 columns and with `vObjectPts` and
`vImagePts` cleared, `subImageCrossFactory(6, 3)` completes, and afterwards `vObjectPts` and
`vImagePts` have the same number of subsets, at most 14, and for every `k` the subsets
`vObjectPts[k]` and `vImagePts[k]` have the same length, which is at least 4. -/
theorem subImageCrossFactory_subsets (gm : GridMatcher) (hgrid : IsLookupGrid gm)
    (hr : 6 ≤ gm.gridIndexes.rows) (hc : 6 ≤ gm.gridIndexes.cols)
    (hO : gm.vObjectPts = []) (hI : gm.vImagePts = []) :
    ∃ gm1, gm.subImageCrossFactory 6 3 = some gm1 ∧
      gm1.vObjectPts.length = gm1.vImagePts.length ∧ gm1.vObjectPts.length ≤ 14 ∧
      ∀ (k : Nat) (o : List Point3f) (i : List Point2f),
        gm1.vObjectPts[k]? = some o → gm1.vImagePts[k]? = some i →
          o.length = i.length ∧ 4 ≤ o.length := by
  obtain ⟨gm1, newObj, newImg, h1, _, _, _, hvo, hvi, hsub, hlen⟩ :=
    addSubImages_subsets 4 (by decide) (crossWindows gm.gridIndexes.rows gm.gridIndexes.cols 6 3)
      gm hgrid
      (fun w hw => ⟨crossWindows_inside gm.gridIndexes hr hc w hw,
        crossWindows_dims _ _ w hw⟩)
  rw [hO, List.nil_append] at hvo
  rw [hI, List.nil_append] at hvi
  rw [← hvo, ← hvi] at hsub
  rw [← hvo] at hlen
  refine ⟨gm1, h1, hsub.length_eq, ?_, ?_⟩
  · simpa [crossWindows] using hlen
  · intro k o i ho hi
    obtain ⟨hk1, hk2⟩ := List.getElem?_eq_some_iff.mp ho
    obtain ⟨hk3, hk4⟩ := List.getElem?_eq_some_iff.mp hi
    have h := (List.forall₂_iff_get.mp hsub).2 k hk1 hk3
    simp only [List.get_eq_getElem, hk2, hk4] at h
    obtain ⟨h2, h3⟩ := h
    exact ⟨h2, by exact_mod_cast h3⟩

theorem foldlM_eq_none {α β : Type} (f : β → α → Option β) (inv : β → Prop) (x : α)
    (hstep : ∀ b a b1, inv b → f b a = some b1 → inv b1)
    (hx : ∀ b, inv b → f b x = none) (l : List α) (hmem : x ∈ l) (b : β) (hb : inv b) :
    l.foldlM f b = none := by
  induction l generalizing b with
  | nil => simp at hmem
  | cons y ys ih =>
    rw [List.foldlM_cons]
    rcases List.mem_cons.mp hmem with h | h
    · rw [← h, hx b hb]
      rfl
    · cases hf : f b y with
      | none => rfl
      | some b1 => exact ih h b1 (hstep b y b1 hb hf)

theorem subImageScan_eq_none (gm : GridMatcher) (row col : Int) (cx cy : ℚ) (rows cols : Int)
    (r c : Nat) (hr : (r : Int) < rows) (hc : (c : Int) < cols)
    (hat : gm.gridIndexes.at (r + row) (c + col) = none) :
    subImageScan gm row col cx cy rows cols = none := by
  unfold subImageScan
  refine foldlM_eq_none _ (fun _ => True) r (fun _ _ _ _ _ => trivial) ?_ _
    (List.mem_range.mpr (by omega)) _ trivial
  intro acc _
  refine foldlM_eq_none _ (fun _ => True) c (fun _ _ _ _ _ => trivial) ?_ _
    (List.mem_range.mpr (by omega)) _ trivial
  intro acc1 _
  unfold subImageCell
  rw [hat]

theorem window_cell_outside (g : Mat) (row col rows cols : Int) (hrows : 1 ≤ rows)
    (hcols : 1 ≤ cols) (h : ¬ WindowInGrid g (row, col, rows, cols)) :
    ∃ r c : Nat, (r : Int) < rows ∧ (c : Int) < cols ∧ g.at (r + row) (c + col) = none := by
  unfold WindowInGrid at h
  simp only at h
  by_cases h1 : 0 ≤ row ∧ 0 ≤ col
  · by_cases h2 : row + rows ≤ g.rows
    · have h3 : ¬ col + cols ≤ g.cols := fun h3 => h ⟨h1.1, h2, h1.2, h3⟩
      refine ⟨0, (cols - 1).toNat, by omega, by omega, ?_⟩
      unfold Mat.at
      rw [if_neg (by omega)]
    · refine ⟨(rows - 1).toNat, 0, by omega, by omega, ?_⟩
      unfold Mat.at
      rw [if_neg (by omega)]
  · refine ⟨0, 0, by omega, by omega, ?_⟩
    unfold Mat.at
    rw [if_neg (by omega)]

theorem addSubImage_gridIndexes (gm gm1 : GridMatcher) (row col rows cols minPts : Int)
    (flag : Bool) (h : gm.addSubImage row col rows cols minPts = some (flag, gm1)) :
    gm1.gridIndexes = gm.gridIndexes := by
  unfold GridMatcher.addSubImage at h
  simp only at h
  split at h
  · exact absurd h (by simp)
  · split_ifs at h
    · simp only [Option.some.injEq, Prod.mk.injEq] at h
      rw [← h.2]
    · simp only [Option.some.injEq, Prod.mk.injEq] at h
      rw [← h.2]

theorem addSubImages_eq_none (gm : GridMatcher) (ws : List (Int × Int × Int × Int))
    (minPts : Int) (w : Int × Int × Int × Int) (hw : w ∈ ws) (hrows : 1 ≤ w.2.2.1)
    (hcols : 1 ≤ w.2.2.2) (hout : ¬ WindowInGrid gm.gridIndexes w) :
    gm.addSubImages ws minPts = none := by
  unfold GridMatcher.addSubImages
  refine foldlM_eq_none _ (fun g => g.gridIndexes = gm.gridIndexes) w ?_ ?_ ws hw gm rfl
  · intro g a g1 hg hstep
    cases hadd : g.addSubImage a.1 a.2.1 a.2.2.1 a.2.2.2 minPts with
    | none => simp [hadd] at hstep
    | some res =>
      simp only [hadd, Option.map_some', Option.some.injEq] at hstep
      rw [← hstep, addSubImage_gridIndexes g res.2 _ _ _ _ _ res.1 hadd, hg]
  · intro g hg
    obtain ⟨r, c, hr, hc, hat⟩ :=
      window_cell_outside gm.gridIndexes w.1 w.2.1 w.2.2.1 w.2.2.2 hrows hcols hout
    rw [← hg] at hat
    unfold GridMatcher.addSubImage
    simp only [subImageScan_eq_none g w.1 w.2.1 _ _ w.2.2.1 w.2.2.2 r c hr hc hat,
      Option.map_none']

theorem subImageCrossFactory_small_grid (gm : GridMatcher)
    (h : gm.gridIndexes.rows < 6 ∨ gm.gridIndexes.cols < 6) :
    gm.subImageCrossFactory 6 3 = none := by
  unfold GridMatcher.subImageCrossFactory
  rcases crossWindows_outside gm.gridIndexes h with hout | hout
  · exact addSubImages_eq_none gm _ 4 _ (by simp [crossWindows]) (by simp) (by simp) hout
  · exact addSubImages_eq_none gm _ 4 _ (by simp [crossWindows]) (by simp) (by simp) hout

/-- C24: `subImageCrossFactory(6, 3)` passes fourteen windows to `addSubImage`, and all of
them satisfy `0 <= row`, `row + height <= gridIndexes.rows`, `0 <= col` and
`col + width <= gridIndexes.cols` if and only if the grid has at least 6 rows and at least 6
columns (for every number of rows and columns, one row and one column included).
Accordingly, on a lookup grid the fourteen calls complete without a read outside the matrix
if and only if the grid has at least 6 rows and 6 columns. -/
theorem crossWindows_inside_iff (gm : GridMatcher) :
    (crossWindows gm.gridIndexes.rows gm.gridIndexes.cols 6 3).length = 14 ∧
    ((∀ w ∈ crossWindows gm.gridIndexes.rows gm.gridIndexes.cols 6 3,
        WindowInGrid gm.gridIndexes w) ↔
      (6 ≤ gm.gridIndexes.rows ∧ 6 ≤ gm.gridIndexes.cols)) ∧
    (IsLookupGrid gm →
      ((gm.subImageCrossFactory 6 3).isSome = true ↔
        (6 ≤ gm.gridIndexes.rows ∧ 6 ≤ gm.gridIndexes.cols))) := by
  have hfwd : (∀ w ∈ crossWindows gm.gridIndexes.rows gm.gridIndexes.cols 6 3,
      WindowInGrid gm.gridIndexes w) → 6 ≤ gm.gridIndexes.rows ∧ 6 ≤ gm.gridIndexes.cols := by
    intro hall
    by_contra hnot
    have hlt : gm.gridIndexes.rows < 6 ∨ gm.gridIndexes.cols < 6 := by omega
    rcases crossWindows_outside gm.gridIndexes hlt with h | h
    · exact h (hall _ (by simp [crossWindows]))
    · exact h (hall _ (by simp [crossWindows]))
  refine ⟨rfl, ⟨hfwd, fun h => crossWindows_inside gm.gridIndexes h.1 h.2⟩, ?_⟩
  intro hgrid
  constructor
  · intro hsome
    by_contra hnot
    have hlt : gm.gridIndexes.rows < 6 ∨ gm.gridIndexes.cols < 6 := by omega
    rw [subImageCrossFactory_small_grid gm hlt] at hsome
    simp at hsome
  · intro h
    obtain ⟨gm1, _, _, h1, _⟩ :=
      addSubImages_subsets 4 (by decide)
        (crossWindows gm.gridIndexes.rows gm.gridIndexes.cols 6 3) gm hgrid
        (fun w hw => ⟨crossWindows_inside gm.gridIndexes h.1 h.2 w hw,
          crossWindows_dims _ _ w hw⟩)
    unfold GridMatcher.subImageCrossFactory
    rw [h1]
    rfl

theorem crossStore_isLookupGrid : IsLookupGrid crossStore := by
  intro r c hr hc
  have hr6 : r < 6 := hr
  have hc6 : c < 6 := hc
  simp only [crossStore]
  interval_cases r <;> interval_cases c <;> simp [Mat.set, Mat.fill]

theorem toNat_one : Int.toNat 1 = 1 := rfl

theorem toNat_six : Int.toNat 6 = 6 := rfl

theorem crossStore_calc :
    (GridMatcher.calcGridIndexes { crossStore with gridIndexes := Mat.fill 0 0 0 }).map
      (fun g => (g.gridIndexes.rows, g.gridIndexes.cols,
        (List.range 6).map (fun r => (List.range 6).map (fun c => g.gridIndexes.cell r c)))) =
    some (crossStore.gridIndexes.rows, crossStore.gridIndexes.cols,
      (List.range 6).map (fun r => (List.range 6).map (fun c => crossStore.gridIndexes.cell r c))) := by
  norm_num [GridMatcher.calcGridIndexes, crossStore, gridLoop, truncQ, Mat.fill, Mat.set,
    List.range_succ, toNat_one, toNat_two, toNat_three, toNat_six]

/-- C21 on `crossStore`, whose lookup grid has 6 rows and 6 columns. -/
theorem subImageCrossFactory_subsets_witness :
    IsLookupGrid crossStore ∧ 6 ≤ crossStore.gridIndexes.rows ∧
    6 ≤ crossStore.gridIndexes.cols ∧ crossStore.vObjectPts = [] ∧ crossStore.vImagePts = [] ∧
    ∃ gm1, crossStore.subImageCrossFactory 6 3 = some gm1 ∧
      gm1.vObjectPts.length = gm1.vImagePts.length ∧ gm1.vObjectPts.length ≤ 14 ∧
      ∀ (k : Nat) (o : List Point3f) (i : List Point2f),
        gm1.vObjectPts[k]? = some o → gm1.vImagePts[k]? = some i →
          o.length = i.length ∧ 4 ≤ o.length :=
  ⟨crossStore_isLookupGrid, by decide, by decide, rfl, rfl,
    subImageCrossFactory_subsets crossStore crossStore_isLookupGrid (by decide) (by decide)
      rfl rfl⟩

/-- C24 on `crossStore`: its lookup grid has 6 rows and 6 columns, every window lies inside
it and the fourteen calls complete. -/
theorem crossWindows_inside_iff_witness :
    IsLookupGrid crossStore ∧
    (∀ w ∈ crossWindows crossStore.gridIndexes.rows crossStore.gridIndexes.cols 6 3,
      WindowInGrid crossStore.gridIndexes w) ∧
    (crossStore.subImageCrossFactory 6 3).isSome = true :=
  ⟨crossStore_isLookupGrid,
    (crossWindows_inside_iff crossStore).2.1.mpr ⟨by decide, by decide⟩,
    ((crossWindows_inside_iff crossStore).2.2 crossStore_isLookupGrid).mpr
      ⟨by decide, by decide⟩⟩

/-! ## Rounding of grid deltas and of the seed -/

theorem truncQ_half_away_bounds (q : ℚ) :
    (q < 0 → -(1 / 2) ≤ (truncQ (q + (if q < 0 then -(1 / 2) else 1 / 2)) : ℚ) - q ∧
      (truncQ (q + (if q < 0 then -(1 / 2) else 1 / 2)) : ℚ) - q < 1 / 2) ∧
    (0 ≤ q → -(1 / 2) < (truncQ (q + (if q < 0 then -(1 / 2) else 1 / 2)) : ℚ) - q ∧
      (truncQ (q + (if q < 0 then -(1 / 2) else 1 / 2)) : ℚ) - q ≤ 1 / 2) := by
  constructor
  · intro h
    rw [if_pos h]
    have h1 : ¬ (0 : ℚ) ≤ q + -(1 / 2) := by linarith
    unfold truncQ
    rw [if_neg h1]
    have h2 := Int.floor_le (-(q + -(1 / 2)))
    have h3 := Int.lt_floor_add_one (-(q + -(1 / 2)))
    push_cast
    constructor <;> linarith
  · intro h
    rw [if_neg (not_lt.mpr h)]
    have h1 : (0 : ℚ) ≤ q + 1 / 2 := by linarith
    unfold truncQ
    rw [if_pos h1]
    have h2 := Int.floor_le (q + 1 / 2)
    have h3 := Int.lt_floor_add_one (q + 1 / 2)
    constructor <;> linarith

theorem truncQ_half_away_nearest (q : ℚ) :
    (∀ m : Int, |(truncQ (q + (if q < 0 then -(1 / 2) else 1 / 2)) : ℚ) - q| ≤ |(m : ℚ) - q|) ∧
    (|(truncQ (q + (if q < 0 then -(1 / 2) else 1 / 2)) : ℚ) - q| = 1 / 2 →
      |q| < |(truncQ (q + (if q < 0 then -(1 / 2) else 1 / 2)) : ℚ)|) := by
  obtain ⟨hneg, hpos⟩ := truncQ_half_away_bounds q
  generalize truncQ (q + (if q < 0 then -(1 / 2) else 1 / 2)) = n at hneg hpos
  have hle : |(n : ℚ) - q| ≤ 1 / 2 := by
    rw [abs_le]
    rcases lt_or_le q 0 with h | h
    · obtain ⟨h1, h2⟩ := hneg h
      constructor <;> linarith
    · obtain ⟨h1, h2⟩ := hpos h
      constructor <;> linarith
  constructor
  · intro m
    by_cases hm : m = n
    · rw [hm]
    · have h1 : (1 : ℚ) ≤ |(m : ℚ) - n| := by
        have h2 : (1 : Int) ≤ |m - n| := Int.one_le_abs (sub_ne_zero.mpr hm)
        have h3 : ((1 : Int) : ℚ) ≤ ((|m - n| : Int) : ℚ) := by exact_mod_cast h2
        simpa using h3
      have h4 : |(m : ℚ) - n| ≤ |(m : ℚ) - q| + |(n : ℚ) - q| := by
        have := abs_sub_le (m : ℚ) q n
        rw [abs_sub_comm q (n : ℚ)] at this
        exact this
      linarith
  · intro htie
    rcases lt_or_le q 0 with h | h
    · obtain ⟨h1, h2⟩ := hneg h
      have h3 : (n : ℚ) - q = -(1 / 2) := by
        rcases abs_eq (by norm_num : (0 : ℚ) ≤ 1 / 2) |>.mp htie with h4 | h4
        · linarith
        · linarith
      have h5 : (n : ℚ) < 0 := by linarith
      rw [abs_of_neg h, abs_of_neg h5]
      linarith
    · obtain ⟨h1, h2⟩ := hpos h
      have h3 : (n : ℚ) - q = 1 / 2 := by
        rcases abs_eq (by norm_num : (0 : ℚ) ≤ 1 / 2) |>.mp htie with h4 | h4
        · linarith
        · linarith
      have h5 : (0 : ℚ) < n := by linarith
      rw [abs_of_nonneg h, abs_of_pos h5]
      linarith

theorem truncQ_half_away_neg (q : ℚ) :
    truncQ (-q + (if -q < 0 then -(1 / 2) else 1 / 2)) =
      -truncQ (q + (if q < 0 then -(1 / 2) else 1 / 2)) := by
  rcases lt_trichotomy q 0 with h | h | h
  · have h1 : ¬ (-q < 0) := by linarith
    rw [if_neg h1, if_pos h, ← truncQ_neg]
    congr 1
    ring
  · subst h
    norm_num [truncQ]
  · have h1 : -q < 0 := by linarith
    have h2 : ¬ (q < 0) := by linarith
    rw [if_pos h1, if_neg h2, ← truncQ_neg]
    congr 1
    ring

theorem int_log_two_eq (r : ℚ) (e : Int) (h1 : (2 : ℚ) ^ e ≤ r) (h2 : r < (2 : ℚ) ^ (e + 1)) :
    Int.log 2 r = e := by
  have hr : 0 < r := lt_of_lt_of_le (zpow_pos (by norm_num) e) h1
  have ha : e ≤ Int.log 2 r :=
    (Int.zpow_le_iff_le_log (b := 2) (by norm_num) hr).mp (by simpa using h1)
  have hb : Int.log 2 r < e + 1 :=
    (Int.lt_zpow_iff_log_lt (b := 2) (by norm_num) hr).mp (by simpa using h2)
  omega

theorem roundToFloat_below_one : roundToFloat (1 - 1 / 2 ^ 25) = 1 := by
  have hlog : Int.log 2 |(1 - 1 / 2 ^ 25 : ℚ)| = -1 := by
    apply int_log_two_eq
    · rw [abs_of_pos (by norm_num)]
      norm_num
    · rw [abs_of_pos (by norm_num)]
      norm_num
  have hfloor : ⌊((1 - 1 / 2 ^ 25 : ℚ)) / (2 : ℚ) ^ (-24 : Int)⌋ = 16777215 := by
    rw [Int.floor_eq_iff]
    norm_num
  unfold roundToFloat
  rw [if_neg (by norm_num), hlog]
  have he : max (-1 : Int) (-126) - 23 = -24 := by decide
  rw [he]
  unfold roundEven
  rw [hfloor]
  norm_num

theorem roundToFloat_below_half : roundToFloat (1 / 2 - 1 / 2 ^ 25) = 1 / 2 - 1 / 2 ^ 25 := by
  have h := roundToFloat_of_mantissa 16777215 (-25) (by decide) (by decide)
  have e : ((16777215 : Int) : ℚ) * (2 : ℚ) ^ (-25 : Int) = 1 / 2 - 1 / 2 ^ 25 := by
    norm_num
  rw [e] at h
  exact h

theorem roundToFloat_half : roundToFloat (1 / 2) = 1 / 2 := by
  have h := (roundToFloat_add_half 0 (by decide)).1
  simpa using h

theorem calcObjPointDiff_of_exact (cur prev imgSep : Point2f)
    (hdx : roundToFloat (cur.x - prev.x) = cur.x - prev.x)
    (hqx : roundToFloat ((cur.x - prev.x) / imgSep.x) = (cur.x - prev.x) / imgSep.x)
    (hsx : roundToFloat ((cur.x - prev.x) / imgSep.x +
        (if (cur.x - prev.x) / imgSep.x < 0 then -(1 / 2) else 1 / 2)) =
      (cur.x - prev.x) / imgSep.x +
        (if (cur.x - prev.x) / imgSep.x < 0 then -(1 / 2) else 1 / 2)) :
    (∀ m : Int, |((truncQ (calcObjPointDiff cur prev imgSep).x : Int) : ℚ) -
        (cur.x - prev.x) / imgSep.x| ≤ |(m : ℚ) - (cur.x - prev.x) / imgSep.x|) ∧
    (calcObjPointDiff cur prev imgSep).x = (truncQ (calcObjPointDiff cur prev imgSep).x : Int) ∧
    (|(calcObjPointDiff cur prev imgSep).x - (cur.x - prev.x) / imgSep.x| = 1 / 2 →
      |(cur.x - prev.x) / imgSep.x| < |(calcObjPointDiff cur prev imgSep).x|) := by
  have hx : (calcObjPointDiff cur prev imgSep).x =
      (truncQ ((cur.x - prev.x) / imgSep.x +
        (if (cur.x - prev.x) / imgSep.x < 0 then -(1 / 2) else 1 / 2)) : Int) := by
    simp only [calcObjPointDiff, hdx, hqx, hsx]
  rw [hx, truncQ_intCast]
  exact ⟨(truncQ_half_away_nearest _).1, rfl, (truncQ_half_away_nearest _).2⟩

/-- C22 (fails on the code): for the `float` values `cur = (1/2 - 2^-25, 0)`,
`prev = (0, 0)` and `imgSep = (1, 1)` the difference and the quotient are the `float`
`q = 1/2 - 2^-25`, whose nearest integer is 0; the sum `q + 1/2 = 1 - 2^-25` is not a
`float` and lies halfway between the floats `1 - 2^-24` and `1`, so the `float` variable
`dObjX` receives `1` and `calcObjPointDiff` returns `(1, 0, 0)`, although `0` is nearer to
the quotient than `1`. -/
theorem calcObjPointDiff_rounds_sum_up :
    roundToFloat (1 / 2 - 1 / 2 ^ 25 - 0) = 1 / 2 - 1 / 2 ^ 25 ∧
    roundToFloat ((1 / 2 - 1 / 2 ^ 25) / 1) = 1 / 2 - 1 / 2 ^ 25 ∧
    roundToFloat (1 / 2 - 1 / 2 ^ 25 + 1 / 2) = 1 ∧
    calcObjPointDiff ⟨1 / 2 - 1 / 2 ^ 25, 0⟩ ⟨0, 0⟩ ⟨1, 1⟩ = ⟨1, 0, 0⟩ ∧
    |((0 : Int) : ℚ) - (1 / 2 - 1 / 2 ^ 25 - 0) / 1| <
      |((1 : Int) : ℚ) - (1 / 2 - 1 / 2 ^ 25 - 0) / 1| := by
  have hsum : (1 / 2 - 1 / 2 ^ 25 + 1 / 2 : ℚ) = 1 - 1 / 2 ^ 25 := by norm_num
  have h1 : ((1 / 2 - 1 / 2 ^ 25 : ℚ) - 0) = 1 / 2 - 1 / 2 ^ 25 := by norm_num
  have h2 : ((1 / 2 - 1 / 2 ^ 25 : ℚ)) / 1 = 1 / 2 - 1 / 2 ^ 25 := by norm_num
  refine ⟨by rw [h1]; exact roundToFloat_below_half, by rw [h2]; exact roundToFloat_below_half,
    by rw [hsum]; exact roundToFloat_below_one, ?_, ?_⟩
  · have h3 : ¬ ((1 / 2 - 1 / 2 ^ 25 : ℚ) < 0) := by norm_num
    have h4 : ((0 : ℚ) - 0) = 0 := by norm_num
    have h5 : ((0 : ℚ)) / 1 = 0 := by norm_num
    have h6 : ((0 : ℚ) + 1 / 2) = 1 / 2 := by norm_num
    have h7 : truncQ (1 : ℚ) = 1 := by norm_num [truncQ]
    have h8 : truncQ (1 / 2 : ℚ) = 0 := by norm_num [truncQ]
    simp only [calcObjPointDiff, h1, h2, h3, h4, h5, h6, h7, h8, hsum, roundToFloat_below_half,
      roundToFloat_below_one, roundToFloat_zero, roundToFloat_half, if_false, lt_self_iff_false,
      Int.cast_one, Int.cast_zero]
  · norm_num [abs_of_pos]

theorem truncQ_add_half_not_nearest (q : ℚ) (h : q < -(1 / 2))
    (hni : ∀ j : Int, (j : ℚ) ≠ q + 1 / 2) :
    |((truncQ (q + 1 / 2) - 1 : Int) : ℚ) - q| < |(truncQ (q + 1 / 2) : ℚ) - q| := by
  have h0 : ¬ (0 : ℚ) ≤ q + 1 / 2 := by linarith
  unfold truncQ
  rw [if_neg h0]
  have h2 := Int.floor_le (-(q + 1 / 2))
  have h3 := Int.lt_floor_add_one (-(q + 1 / 2))
  have h4 : ((⌊-(q + 1 / 2)⌋ : Int) : ℚ) ≠ -(q + 1 / 2) := by
    intro he
    apply hni (-⌊-(q + 1 / 2)⌋)
    push_cast
    linarith
  have h5 : ((⌊-(q + 1 / 2)⌋ : Int) : ℚ) < -(q + 1 / 2) := lt_of_le_of_ne h2 h4
  push_cast
  rw [abs_lt]
  have h6 : (0 : ℚ) < -(⌊-(q + 1 / 2)⌋ : ℚ) - q := by linarith
  rw [abs_of_pos h6]
  constructor <;> linarith

theorem seed_axis_bounds (w : Int) (s x : ℚ) (hs : 0 < s) (hx0 : 0 ≤ x) (hxw : x ≤ w) :
    0 ≤ truncQ (x / s + 1 / 2) ∧ truncQ (x / s + 1 / 2) < truncQ ((w : ℚ) / s + 3 / 2) := by
  have hq : 0 ≤ x / s := div_nonneg hx0 hs.le
  have hqw : x / s ≤ (w : ℚ) / s := div_le_div_of_nonneg_right hxw hs.le
  have h1 : (0 : ℚ) ≤ x / s + 1 / 2 := by linarith
  have h2 : (0 : ℚ) ≤ (w : ℚ) / s + 3 / 2 := by linarith
  rw [truncQ_of_nonneg _ h1, truncQ_of_nonneg _ h2]
  refine ⟨Int.floor_nonneg.mpr h1, ?_⟩
  have h3 : ⌊x / s + 1 / 2⌋ + 1 ≤ ⌊(w : ℚ) / s + 3 / 2⌋ := by
    rw [← Int.floor_add_one]
    exact Int.floor_mono (by linarith)
  omega

theorem walkStep_stores_seed (coord : Point2f → ℚ) (m1 m2 : ℚ) (imgSize : Size)
    (imgSep objSep ptImg p0 p1 : Point2f)
    (hw : m1 ≤ (truncQ (coord p0 - coord p1) : ℚ) ∧ (truncQ (coord p0 - coord p1) : ℚ) ≤ m2) :
    (walkStep coord m1 m2 imgSep ⟨GridMatcher.new imgSize imgSep objSep, ptImg, ⟨0, 0, 0⟩⟩
      p0 p1).gm.imagePts.head? = some p0 ∧
    (walkStep coord m1 m2 imgSep ⟨GridMatcher.new imgSize imgSep objSep, ptImg, ⟨0, 0, 0⟩⟩
      p0 p1).gm.objectPts.head? =
      some ⟨truncQ (p0.x / imgSep.x + 1 / 2), truncQ (p0.y / imgSep.y + 1 / 2), 0⟩ := by
  unfold walkStep
  simp only [hw, and_self, if_true, GridMatcher.new, List.length_nil]
  simp only [GridMatcher.add, setFind_nil, Bool.false_eq_true, if_false,
    List.nil_append]
  split_ifs <;> simp

/-- C25: for every image size `(W, H)`, every `imgSep` with positive components and every
seed point `p` with `0 <= p.x <= W` and `0 <= p.y <= H` (so `W` and `H` are not negative;
their being positive is not needed), the seed
coordinate `col = (int)(p.x/imgSep.x + 0.5)`, `row = (int)(p.y/imgSep.y + 0.5)` that a walk
of `apply_matchGrid` stores first satisfies `0 <= col < nx` and `0 <= row < ny` for the
dimensions `nx = (int)(W/imgSep.x + 1.5)`, `ny = (int)(H/imgSep.y + 1.5)` of
`calcGridIndexes`; so its assertions hold for the seed, and on the store holding the seed
alone `calcGridIndexes` completes with the id 0 in the cell `(row, col)`. -/
theorem seed_fits_lookup_grid (W H : Int) (imgSep objSep p : Point2f)
    (hsx : 0 < imgSep.x) (hsy : 0 < imgSep.y)
    (hx0 : 0 ≤ p.x) (hxW : p.x ≤ W) (hy0 : 0 ≤ p.y) (hyH : p.y ≤ H) :
    (0 ≤ truncQ (p.x / imgSep.x + 1 / 2) ∧
      truncQ (p.x / imgSep.x + 1 / 2) < truncQ ((W : ℚ) / imgSep.x + 3 / 2) ∧
      0 ≤ truncQ (p.y / imgSep.y + 1 / 2) ∧
      truncQ (p.y / imgSep.y + 1 / 2) < truncQ ((H : ℚ) / imgSep.y + 3 / 2)) ∧
    (∀ (coord : Point2f → ℚ) (m1 m2 : ℚ) (ptImg p1 : Point2f),
      (m1 ≤ (truncQ (coord p - coord p1) : ℚ) ∧ (truncQ (coord p - coord p1) : ℚ) ≤ m2) →
      (walkStep coord m1 m2 imgSep ⟨GridMatcher.new ⟨W, H⟩ imgSep objSep, ptImg, ⟨0, 0, 0⟩⟩
        p p1).gm.objectPts.head? =
        some ⟨truncQ (p.x / imgSep.x + 1 / 2), truncQ (p.y / imgSep.y + 1 / 2), 0⟩) ∧
    inGrid (truncQ ((H : ℚ) / imgSep.y + 3 / 2)).toNat (truncQ ((W : ℚ) / imgSep.x + 3 / 2)).toNat
      ⟨truncQ (p.x / imgSep.x + 1 / 2), truncQ (p.y / imgSep.y + 1 / 2), 0⟩ ∧
    (∃ gm1, ((GridMatcher.new ⟨W, H⟩ imgSep objSep).add p
        ⟨truncQ (p.x / imgSep.x + 1 / 2), truncQ (p.y / imgSep.y + 1 / 2), 0⟩).2.calcGridIndexes
          = some gm1 ∧
      gm1.gridIndexes.rows = (truncQ ((H : ℚ) / imgSep.y + 3 / 2)).toNat ∧
      gm1.gridIndexes.cols = (truncQ ((W : ℚ) / imgSep.x + 3 / 2)).toNat ∧
      gm1.gridIndexes.cell (truncQ (p.y / imgSep.y + 1 / 2)).toNat
        (truncQ (p.x / imgSep.x + 1 / 2)).toNat = 0) := by
  obtain ⟨hc0, hc1⟩ := seed_axis_bounds W imgSep.x p.x hsx hx0 hxW
  obtain ⟨hr0, hr1⟩ := seed_axis_bounds H imgSep.y p.y hsy hy0 hyH
  have hin : inGrid (truncQ ((H : ℚ) / imgSep.y + 3 / 2)).toNat
      (truncQ ((W : ℚ) / imgSep.x + 3 / 2)).toNat
      ⟨truncQ (p.x / imgSep.x + 1 / 2), truncQ (p.y / imgSep.y + 1 / 2), 0⟩ := by
    unfold inGrid
    simp only [truncQ_intCast]
    omega
  refine ⟨⟨hc0, hc1, hr0, hr1⟩, ?_, hin, ?_⟩
  · intro coord m1 m2 ptImg p1 hw
    exact (walkStep_stores_seed coord m1 m2 ⟨W, H⟩ imgSep objSep ptImg p p1 hw).2
  · have hny : ¬ (truncQ ((H : ℚ) / imgSep.y + 3 / 2) < 0 ∨
        truncQ ((W : ℚ) / imgSep.x + 3 / 2) < 0) := by omega
    have hr : 0 ≤ truncQ (p.y / imgSep.y + 1 / 2) ∧ truncQ (p.y / imgSep.y + 1 / 2) <
        ((truncQ ((H : ℚ) / imgSep.y + 3 / 2)).toNat : Int) := by omega
    have hc : 0 ≤ truncQ (p.x / imgSep.x + 1 / 2) ∧ truncQ (p.x / imgSep.x + 1 / 2) <
        ((truncQ ((W : ℚ) / imgSep.x + 3 / 2)).toNat : Int) := by omega
    simp only [GridMatcher.calcGridIndexes, GridMatcher.add, GridMatcher.new, setFind_nil,
      Bool.false_eq_true, if_false, List.nil_append, hny]
    simp only [gridLoop, truncQ_intCast, Mat.fill]
    generalize truncQ (p.x / imgSep.x + 1 / 2) = col at hr hc ⊢
    generalize truncQ (p.y / imgSep.y + 1 / 2) = row at hr ⊢
    generalize truncQ ((W : ℚ) / imgSep.x + 3 / 2) = nx at hc ⊢
    generalize truncQ ((H : ℚ) / imgSep.y + 3 / 2) = ny at hr ⊢
    simp only [Mat.set, hr, hc, and_self, if_true, Option.map_some']
    exact ⟨_, rfl, rfl, rfl, by simp⟩

/-- C25 for the image size `(100, 100)`, `imgSep = (10, 10)` and the corner `p = (100, 100)`:
the seed coordinate is `(10, 10)` and the lookup grid has 11 rows and 11 columns. -/
theorem seed_fits_lookup_grid_witness :
    (0 : ℚ) < 10 ∧ (0 : ℚ) ≤ 100 ∧ (100 : ℚ) ≤ ((100 : Int) : ℚ) ∧
    truncQ ((100 : ℚ) / 10 + 1 / 2) = 10 ∧ truncQ (((100 : Int) : ℚ) / 10 + 3 / 2) = 11 ∧
    (0 ≤ truncQ ((100 : ℚ) / 10 + 1 / 2) ∧
      truncQ ((100 : ℚ) / 10 + 1 / 2) < truncQ (((100 : Int) : ℚ) / 10 + 3 / 2) ∧
      0 ≤ truncQ ((100 : ℚ) / 10 + 1 / 2) ∧
      truncQ ((100 : ℚ) / 10 + 1 / 2) < truncQ (((100 : Int) : ℚ) / 10 + 3 / 2)) :=
  ⟨by norm_num, by norm_num, by norm_num, by norm_num [truncQ], by norm_num [truncQ],
    (seed_fits_lookup_grid 100 100 ⟨10, 10⟩ ⟨5, 5⟩ ⟨100, 100⟩ (by norm_num) (by norm_num)
      (by norm_num) (by norm_num) (by norm_num) (by norm_num)).1⟩

/-! ## `matRing`: the quadrant accumulation -/

theorem ringCell_rcCount (image : Int → Int → Int) (g : RingGeom) (c r : Int) :
    (ringCell image g c r).rcCount = ((ringCell image g c r).reads.length : Int) := by
  unfold ringCell
  split_ifs <;> simp

theorem ringCell_reads_length (image : Int → Int → Int) (g : RingGeom) (c r : Nat) :
    (ringCell image g c r).reads.length =
      1 + (if g.xodd = false ∨ c ≠ 0 then 1 else 0) + (if g.yodd = false ∨ r ≠ 0 then 1 else 0)
        + (if (r ≠ 0 ∧ c ≠ 0) ∨ (g.xodd = false ∧ g.yodd = false) then 1 else 0) := by
  unfold ringCell
  cases g.xodd <;> cases g.yodd <;> rcases Nat.eq_zero_or_pos c with hc | hc <;>
    rcases Nat.eq_zero_or_pos r with hr | hr <;>
    simp [hc, hr, Nat.pos_iff_ne_zero.mp, Nat.ne_of_gt]

theorem ringStep_reads (image : Int → Int → Int) (ringMap : Nat → Nat → Nat) (g : RingGeom)
    (c r : Nat) (acc : RingAcc) :
    (ringStep image ringMap g c r acc).reads = acc.reads ++ (ringCell image g c r).reads := rfl

theorem ringInner_reads (image : Int → Int → Int) (ringMap : Nat → Nat → Nat) (g : RingGeom)
    (c n : Nat) (acc : RingAcc) :
    ((List.range n).foldl (fun acc r => ringStep image ringMap g c r acc) acc).reads.length =
      acc.reads.length + ∑ r in Finset.range n, (ringCell image g c r).reads.length := by
  induction n with
  | zero => simp
  | succ n ih =>
    rw [List.range_succ, List.foldl_append, Finset.sum_range_succ]
    simp only [List.foldl_cons, List.foldl_nil, ringStep_reads, List.length_append]
    rw [ih]
    omega

theorem ringOuter_reads (image : Int → Int → Int) (ringMap : Nat → Nat → Nat) (g : RingGeom)
    (m n : Nat) (acc : RingAcc) :
    ((List.range m).foldl
      (fun acc c => (List.range n).foldl (fun acc r => ringStep image ringMap g c r acc) acc)
      acc).reads.length =
      acc.reads.length +
        ∑ c in Finset.range m, ∑ r in Finset.range n, (ringCell image g c r).reads.length := by
  induction m with
  | zero => simp
  | succ m ih =>
    rw [List.range_succ, List.foldl_append, Finset.sum_range_succ]
    simp only [List.foldl_cons, List.foldl_nil]
    rw [ringInner_reads, ih]
    omega

theorem sum_range_ne_zero (n : Nat) :
    ∑ i in Finset.range (n + 1), (if i ≠ 0 then 1 else 0) = n := by
  induction n with
  | zero => simp
  | succ n ih =>
    rw [Finset.sum_range_succ, ih]
    simp

theorem sum_cells (A B C D a b : Nat) :
    ∑ c in Finset.range (b + 1), ∑ r in Finset.range (a + 1),
      (A + B * (if c ≠ 0 then 1 else 0) + C * (if r ≠ 0 then 1 else 0)
        + D * (if r ≠ 0 ∧ c ≠ 0 then 1 else 0)) =
      A * (b + 1) * (a + 1) + B * b * (a + 1) + C * (b + 1) * a + D * a * b := by
  have h1 : ∀ r c : Nat, (if r ≠ 0 ∧ c ≠ 0 then 1 else 0) =
      (if c ≠ 0 then 1 else 0) * (if r ≠ 0 then 1 else 0) := by
    intro r c
    split_ifs <;> simp_all
  simp only [h1, Finset.sum_add_distrib, ← Finset.mul_sum, ← Finset.sum_mul, sum_range_ne_zero,
    Finset.sum_const, Finset.card_range, smul_eq_mul]
  ring

theorem ringCells_total (image : Int → Int → Int) (g : RingGeom) (a b : Nat) :
    ∑ c in Finset.range (b + 1), ∑ r in Finset.range (a + 1),
      (ringCell image g c r).reads.length =
    match g.xodd, g.yodd with
    | false, false => 4 * (b + 1) * (a + 1)
    | true, true => (2 * b + 1) * (2 * a + 1)
    | true, false => (2 * b + 1) * (2 * (a + 1)) - b
    | false, true => (2 * (b + 1)) * (2 * a + 1) - a := by
  simp only [ringCell_reads_length]
  cases hx : g.xodd <;> cases hy : g.yodd
  · have := sum_cells 4 0 0 0 a b
    simp only [Bool.false_eq_true, false_or, true_or, or_true, and_self, if_true, ne_eq] at this ⊢
    simpa using this
  · have := sum_cells 2 0 1 1 a b
    simp only [ne_eq, zero_mul, add_zero, one_mul] at this
    have h2 : 2 * (b + 1) * (2 * a + 1) - a = 2 * (b + 1) * (a + 1) + (b + 1) * a + a * b := by
      have : a ≤ 2 * (b + 1) * (2 * a + 1) := by nlinarith
      zify [this]
      ring
    simp only [h2]
    rw [← this]
    refine Finset.sum_congr rfl (fun c _ => Finset.sum_congr rfl (fun r _ => ?_))
    by_cases hr : r = 0 <;> by_cases hc : c = 0 <;> simp [hr, hc]
  · have := sum_cells 2 1 0 1 a b
    simp only [ne_eq, zero_mul, add_zero, one_mul] at this
    have h2 : (2 * b + 1) * (2 * (a + 1)) - b = 2 * (b + 1) * (a + 1) + b * (a + 1) + a * b := by
      have : b ≤ (2 * b + 1) * (2 * (a + 1)) := by nlinarith
      zify [this]
      ring
    simp only [h2]
    rw [← this]
    refine Finset.sum_congr rfl (fun c _ => Finset.sum_congr rfl (fun r _ => ?_))
    by_cases hr : r = 0 <;> by_cases hc : c = 0 <;> simp [hr, hc]
  · have := sum_cells 1 1 1 1 a b
    simp only [ne_eq, one_mul] at this
    have h2 : (2 * b + 1) * (2 * a + 1) = (b + 1) * (a + 1) + b * (a + 1) + (b + 1) * a + a * b := by
      ring
    simp only [h2]
    rw [← this]
    refine Finset.sum_congr rfl (fun c _ => Finset.sum_congr rfl (fun r _ => ?_))
    by_cases hr : r = 0 <;> by_cases hc : c = 0 <;> simp [hr, hc]

theorem ringGeom_odd (a b : Nat) (rows cols : Nat) :
    (rows = 2 * a + 1 → (ringGeom rows cols).cy = a ∧ (ringGeom rows cols).cy2 = a ∧
      (ringGeom rows cols).yodd = true) ∧
    (rows = 2 * a + 2 → (ringGeom rows cols).cy = a ∧ (ringGeom rows cols).cy2 = a + 1 ∧
      (ringGeom rows cols).yodd = false) ∧
    (cols = 2 * b + 1 → (ringGeom rows cols).cx = b ∧ (ringGeom rows cols).cx2 = b ∧
      (ringGeom rows cols).xodd = true) ∧
    (cols = 2 * b + 2 → (ringGeom rows cols).cx = b ∧ (ringGeom rows cols).cx2 = b + 1 ∧
      (ringGeom rows cols).xodd = false) := by
  refine ⟨?_, ?_, ?_, ?_⟩ <;> intro h <;> subst h <;> simp only [ringGeom] <;> push_cast
  · have h1 : Int.tdiv (2 * (a : Int) + 1 - 1) 2 = a := by
      rw [Int.tdiv_eq_ediv (by omega) (by decide)]; omega
    have h2 : (2 * (a : Int) + 1) % 2 = 1 := by omega
    simp [h1, h2]
  · have h1 : Int.tdiv (2 * (a : Int) + 2 - 1) 2 = a := by
      rw [Int.tdiv_eq_ediv (by omega) (by decide)]; omega
    have h2 : ¬ (2 * (a : Int) + 2) % 2 = 1 := by omega
    simp [h1, h2]
  · have h1 : Int.tdiv (2 * (b : Int) + 1 - 1) 2 = b := by
      rw [Int.tdiv_eq_ediv (by omega) (by decide)]; omega
    have h2 : (2 * (b : Int) + 1) % 2 = 1 := by omega
    simp [h1, h2]
  · have h1 : Int.tdiv (2 * (b : Int) + 2 - 1) 2 = b := by
      rw [Int.tdiv_eq_ediv (by omega) (by decide)]; omega
    have h2 : ¬ (2 * (b : Int) + 2) % 2 = 1 := by omega
    simp [h1, h2]

theorem nat_parity_cases (n : Nat) (h : 1 ≤ n) : ∃ a, n = 2 * a + 1 ∨ n = 2 * a + 2 := by
  rcases Nat.even_or_odd' n with ⟨k, hk | hk⟩
  · exact ⟨k - 1, Or.inr (by omega)⟩
  · exact ⟨k, Or.inl hk⟩

theorem matRing_reads_total (image : Int → Int → Int) (ringMap : Nat → Nat → Nat)
    (rows cols a b : Nat) (hcy : (ringGeom rows cols).cy = a) (hcx : (ringGeom rows cols).cx = b) :
    (matRingAccumulate image ringMap rows cols).reads.length =
      match (ringGeom rows cols).xodd, (ringGeom rows cols).yodd with
      | false, false => 4 * (b + 1) * (a + 1)
      | true, true => (2 * b + 1) * (2 * a + 1)
      | true, false => (2 * b + 1) * (2 * (a + 1)) - b
      | false, true => (2 * (b + 1)) * (2 * a + 1) - a := by
  unfold matRingAccumulate
  simp only
  rw [ringOuter_reads, hcy, hcx]
  have ha : ((a : Int) + 1).toNat = a + 1 := by omega
  have hb : ((b : Int) + 1).toNat = b + 1 := by omega
  rw [ha, hb, ringCells_total]
  simp

theorem wrapShort_of_small (n : Int) (h0 : 0 ≤ n) (h1 : n < 32768) : wrapShort n = n := by
  unfold wrapShort
  omega

theorem ringStep_counts (image : Int → Int → Int) (ringMap : Nat → Nat → Nat) (g : RingGeom)
    (c r : Nat) (acc : RingAcc) (hmap : ringMap r c < 128)
    (hnn : ∀ i, 0 ≤ acc.count1D i)
    (hsum : ∑ i in Finset.range 128, acc.count1D i = acc.reads.length)
    (hsmall : acc.reads.length + (ringCell image g c r).reads.length < 32768) :
    (∀ i, 0 ≤ (ringStep image ringMap g c r acc).count1D i) ∧
    ∑ i in Finset.range 128, (ringStep image ringMap g c r acc).count1D i =
      (ringStep image ringMap g c r acc).reads.length := by
  have hmem : ringMap r c ∈ Finset.range 128 := Finset.mem_range.mpr hmap
  have hle : acc.count1D (ringMap r c) ≤ acc.reads.length := by
    rw [← hsum]
    exact Finset.single_le_sum (fun i _ => hnn i) hmem
  have hw : wrapShort (acc.count1D (ringMap r c) + (ringCell image g c r).rcCount) =
      acc.count1D (ringMap r c) + (ringCell image g c r).reads.length := by
    rw [ringCell_rcCount]
    exact wrapShort_of_small _ (by have := hnn (ringMap r c); omega) (by omega)
  have hcount : (ringStep image ringMap g c r acc).count1D =
      fun i => if i = ringMap r c then
        acc.count1D (ringMap r c) + (ringCell image g c r).reads.length else acc.count1D i := by
    funext i
    simp only [ringStep, hw]
  constructor
  · intro i
    rw [hcount]
    by_cases hi : i = ringMap r c
    · simp only [hi, if_true]
      have := hnn (ringMap r c)
      omega
    · simp only [hi, if_false]
      exact hnn i
  · rw [hcount, ringStep_reads, List.length_append]
    have hsplit : ∀ f : Nat → Int, ∑ i in Finset.range 128, f i =
        f (ringMap r c) + ∑ i in (Finset.range 128).erase (ringMap r c), f i :=
      fun f => (Finset.add_sum_erase _ f hmem).symm
    rw [hsplit] at hsum
    rw [hsplit]
    have herase : ∑ i in (Finset.range 128).erase (ringMap r c),
        (if i = ringMap r c then
          acc.count1D (ringMap r c) + ((ringCell image g c r).reads.length : Int)
          else acc.count1D i) =
        ∑ i in (Finset.range 128).erase (ringMap r c), acc.count1D i := by
      refine Finset.sum_congr rfl (fun i hi => ?_)
      rw [if_neg (Finset.ne_of_mem_erase hi)]
    rw [herase]
    simp only [if_true]
    push_cast
    omega

theorem ringInner_counts (image : Int → Int → Int) (ringMap : Nat → Nat → Nat) (g : RingGeom)
    (c : Nat) (hmap : ∀ r c, ringMap r c < 128) (n : Nat) (acc : RingAcc)
    (hnn : ∀ i, 0 ≤ acc.count1D i)
    (hsum : ∑ i in Finset.range 128, acc.count1D i = acc.reads.length)
    (hsmall : acc.reads.length +
      ∑ r in Finset.range n, (ringCell image g c r).reads.length < 32768) :
    (∀ i, 0 ≤ ((List.range n).foldl
      (fun acc r => ringStep image ringMap g c r acc) acc).count1D i) ∧
    ∑ i in Finset.range 128, ((List.range n).foldl
      (fun acc r => ringStep image ringMap g c r acc) acc).count1D i =
      ((List.range n).foldl (fun acc r => ringStep image ringMap g c r acc) acc).reads.length := by
  induction n with
  | zero => exact ⟨hnn, by simpa using hsum⟩
  | succ n ih =>
    rw [Finset.sum_range_succ] at hsmall
    obtain ⟨h1, h2⟩ := ih (by omega)
    rw [List.range_succ, List.foldl_append]
    simp only [List.foldl_cons, List.foldl_nil]
    refine ringStep_counts image ringMap g c n _ (hmap n c) h1 h2 ?_
    rw [ringInner_reads]
    omega

theorem ringOuter_counts (image : Int → Int → Int) (ringMap : Nat → Nat → Nat) (g : RingGeom)
    (hmap : ∀ r c, ringMap r c < 128) (m n : Nat) (acc : RingAcc)
    (hnn : ∀ i, 0 ≤ acc.count1D i)
    (hsum : ∑ i in Finset.range 128, acc.count1D i = acc.reads.length)
    (hsmall : acc.reads.length +
      ∑ c in Finset.range m, ∑ r in Finset.range n,
        (ringCell image g c r).reads.length < 32768) :
    (∀ i, 0 ≤ ((List.range m).foldl
      (fun acc c => (List.range n).foldl (fun acc r => ringStep image ringMap g c r acc) acc)
      acc).count1D i) ∧
    ∑ i in Finset.range 128, ((List.range m).foldl
      (fun acc c => (List.range n).foldl (fun acc r => ringStep image ringMap g c r acc) acc)
      acc).count1D i =
      ((List.range m).foldl
        (fun acc c => (List.range n).foldl (fun acc r => ringStep image ringMap g c r acc) acc)
        acc).reads.length := by
  induction m with
  | zero => exact ⟨hnn, by simpa using hsum⟩
  | succ m ih =>
    rw [Finset.sum_range_succ] at hsmall
    obtain ⟨h1, h2⟩ := ih (by omega)
    rw [List.range_succ, List.foldl_append]
    simp only [List.foldl_cons, List.foldl_nil]
    refine ringInner_counts image ringMap g m hmap n _ h1 h2 ?_
    rw [ringOuter_reads]
    omega

theorem matRing_counts (image : Int → Int → Int) (ringMap : Nat → Nat → Nat)
    (hmap : ∀ r c, ringMap r c < 128) (rows cols : Int)
    (hsmall : (matRingAccumulate image ringMap rows cols).reads.length < 32768) :
    ∑ i in Finset.range 128, (matRingAccumulate image ringMap rows cols).count1D i =
      (matRingAccumulate image ringMap rows cols).reads.length := by
  have hlen := ringOuter_reads image ringMap (ringGeom rows cols)
    ((ringGeom rows cols).cx + 1).toNat ((ringGeom rows cols).cy + 1).toNat
    ⟨fun _ => 0, fun _ => 0, []⟩
  have h := ringOuter_counts image ringMap (ringGeom rows cols) hmap
    ((ringGeom rows cols).cx + 1).toNat ((ringGeom rows cols).cy + 1).toNat
    ⟨fun _ => 0, fun _ => 0, []⟩ (fun _ => le_refl 0) (by simp)
    (by
      rw [← hlen]
      exact hsmall)
  exact h.2

theorem matRing_reads_formula (image : Int → Int → Int) (ringMap : Nat → Nat → Nat)
    (rows cols : Nat) (hr : 1 ≤ rows) (hc : 1 ≤ cols) :
    (matRingAccumulate image ringMap rows cols).reads.length =
      rows * cols - (if cols % 2 = 1 ∧ rows % 2 = 0 then (cols - 1) / 2
        else if cols % 2 = 0 ∧ rows % 2 = 1 then (rows - 1) / 2 else 0) := by
  obtain ⟨a, ha⟩ := nat_parity_cases rows hr
  obtain ⟨b, hb⟩ := nat_parity_cases cols hc
  obtain ⟨g1, g2, g3, g4⟩ := ringGeom_odd a b rows cols
  rcases ha with ha | ha <;> rcases hb with hb | hb
  · obtain ⟨hy1, _, hy3⟩ := g1 ha
    obtain ⟨hx1, _, hx3⟩ := g3 hb
    rw [matRing_reads_total image ringMap rows cols a b hy1 hx1, hx3, hy3]
    subst ha hb
    have h1 : ¬ ((2 * b + 1) % 2 = 1 ∧ (2 * a + 1) % 2 = 0) := by omega
    have h2 : ¬ ((2 * b + 1) % 2 = 0 ∧ (2 * a + 1) % 2 = 1) := by omega
    simp only [h1, h2, if_false]
    rw [Nat.sub_zero]
    ring
  · obtain ⟨hy1, _, hy3⟩ := g1 ha
    obtain ⟨hx1, _, hx3⟩ := g4 hb
    rw [matRing_reads_total image ringMap rows cols a b hy1 hx1, hx3, hy3]
    subst ha hb
    have h1 : ¬ ((2 * b + 2) % 2 = 1 ∧ (2 * a + 1) % 2 = 0) := by omega
    have h2 : (2 * b + 2) % 2 = 0 ∧ (2 * a + 1) % 2 = 1 := by omega
    have h3 : (2 * a + 1 - 1) / 2 = a := by omega
    simp only [h1, h2, if_false, if_true, and_self, h3]
    congr 1
    ring
  · obtain ⟨hy1, _, hy3⟩ := g2 ha
    obtain ⟨hx1, _, hx3⟩ := g3 hb
    rw [matRing_reads_total image ringMap rows cols a b hy1 hx1, hx3, hy3]
    subst ha hb
    have h1 : (2 * b + 1) % 2 = 1 ∧ (2 * a + 2) % 2 = 0 := by omega
    have h3 : (2 * b + 1 - 1) / 2 = b := by omega
    simp only [h1, if_true, and_self, h3]
    congr 1
    ring
  · obtain ⟨hy1, _, hy3⟩ := g2 ha
    obtain ⟨hx1, _, hx3⟩ := g4 hb
    rw [matRing_reads_total image ringMap rows cols a b hy1 hx1, hx3, hy3]
    subst ha hb
    have h1 : ¬ ((2 * b + 2) % 2 = 1 ∧ (2 * a + 2) % 2 = 0) := by omega
    have h2 : ¬ ((2 * b + 2) % 2 = 0 ∧ (2 * a + 2) % 2 = 1) := by omega
    simp only [h1, h2, if_false]
    rw [Nat.sub_zero]
    ring

/-- C26 (fails on the code): for the image of 3 rows and 2 columns the four-quadrant loop of
`matRing` reads the five pixels `(1,0), (1,1), (0,0), (0,1), (2,0)` and never the pixel
`(2,1)`, so the counts in `count1D` sum to 5 and not to `3 * 2`.  For every image of at least
one row and one column whose radius is below 128 (ring-map entries in range) the counts sum
to the number of pixels read, which is `rows * cols` when `rows` and `cols` are both odd or
both even, `rows * cols - (cols-1)/2` for odd `cols` and even `rows`, and
`rows * cols - (rows-1)/2` for even `cols` and odd `rows`. -/
theorem matRing_quadrants_miss_pixels (image : Int → Int → Int) (ringMap : Nat → Nat → Nat) :
    (matRingAccumulate image ringMap 3 2).reads = [(1, 0), (1, 1), (0, 0), (0, 1), (2, 0)] ∧
    ((2 : Int), (1 : Int)) ∈ allPixels 3 2 ∧
    ((2 : Int), (1 : Int)) ∉ (matRingAccumulate image ringMap 3 2).reads ∧
    ((∀ r c, ringMap r c < 128) →
      ∑ d in Finset.range 128, (matRingAccumulate image ringMap 3 2).count1D d = 5) ∧
    (∀ rows cols : Nat, 1 ≤ rows → 1 ≤ cols → rows * rows + cols * cols < 65536 →
      (∀ r c, ringMap r c < 128) →
      (matRingAccumulate image ringMap rows cols).reads.length =
        rows * cols - (if cols % 2 = 1 ∧ rows % 2 = 0 then (cols - 1) / 2
          else if cols % 2 = 0 ∧ rows % 2 = 1 then (rows - 1) / 2 else 0) ∧
      ∑ d in Finset.range 128, (matRingAccumulate image ringMap rows cols).count1D d =
        (matRingAccumulate image ringMap rows cols).reads.length) := by
  have hreads : (matRingAccumulate image ringMap 3 2).reads =
      [(1, 0), (1, 1), (0, 0), (0, 1), (2, 0)] := rfl
  refine ⟨hreads, by decide, ?_, ?_, ?_⟩
  · rw [hreads]
    decide
  · intro hmap
    have h := matRing_counts image ringMap hmap 3 2 (by rw [hreads]; decide)
    rw [h, hreads]
    rfl
  · intro rows cols hr hc hrad hmap
    have hf := matRing_reads_formula image ringMap rows cols hr hc
    refine ⟨hf, matRing_counts image ringMap hmap rows cols ?_⟩
    have h1 : rows * cols < 32768 := by nlinarith [sq_nonneg ((rows : Int) - cols)]
    rw [hf]
    omega

end FireSight
